import Mathlib

/-!
# M-Stack USB device stack: the endpoint-0 control-transfer engine

A shallow embedding of `usb/src/usb.c`.  Every C function of the file that takes
part in control transfers is a Lean function from state to state; the C globals
(`bds`, `ep_buf`, `addr_pending`, the `ep0_data_stage_*` cursor, ...) are the
fields of `State`.  The region list of the Intel Hex reader of the bootloader
software (`apps/bootloader/software/hex.c`) is embedded as a list of regions.

Conventions of the embedding:

* `uint8_t` locals are reduced `% 256` where the C code narrows a wider value;
  `size_t` values are natural numbers (the code only takes minima of them and
  subtracts a minimum from one of its arguments, so no wrap-around can occur).
* A byte buffer is a map from index to byte (`Nat → Nat`).
* A read-only source pointer is the list of bytes that starts at the pointer, so
  `ptr + n` is `List.drop n`; a NULL pointer is `none`.
* The pointer into the application's receive buffer is an address (`Option Nat`).
* Calls that leave the stack (the data-stage callback, the `memcpy` into the
  application's receive buffer, the notification hooks) are appended to
  `State.trace`, oldest first.
* The SIE configuration registers written by `usb_init` and `usb_service`
  (`SFR_EP_MGMT`, `SFR_USB_PKT_DIS`, ...) carry no state the control-transfer
  engine reads back and are left out; `SFR_USB_ADDR` is kept.  The interrupt flags
  are the input `usb_flags` of `usb_service`; that `usb_init` clears them all is
  part of `usb_service`.
* A call through a NULL callback pointer (`Event.callback none ..`) does not return
  in C.  The functions record the call and carry on as if it had returned; only
  what holds up to the call is a statement about the code.
-/

namespace MStack

/-! ## Constants of the absent headers -/

/-- Modelled from the spec: the ownership flag of a buffer descriptor status byte
(`usb_hal.h` is absent); bit 7, as on the 8-bit PIC parts. -/
def BDNSTAT_UOWN : Nat := 0x80
/-- Modelled from the spec: the data-toggle bit (DATA0/DATA1) of the status byte
(`usb_hal.h` is absent). -/
def BDNSTAT_DTS : Nat := 0x40
/-- Modelled from the spec: the data-toggle-checking enable bit of the status byte
(`usb_hal.h` is absent). -/
def BDNSTAT_DTSEN : Nat := 0x08
/-- Modelled from the spec: the stall flag of the status byte (`usb_hal.h` is absent). -/
def BDNSTAT_BSTALL : Nat := 0x04

/-- Modelled from the spec: packet-ID of an OUT token (`usb_hal.h` is absent; USB value). -/
def PID_OUT : Nat := 0x1
/-- Modelled from the spec: packet-ID of an IN token (`usb_hal.h` is absent; USB value). -/
def PID_IN : Nat := 0x9
/-- Modelled from the spec: packet-ID of a SETUP token (`usb_hal.h` is absent; USB value). -/
def PID_SETUP : Nat := 0xd

/-- Modelled from the spec: USB chapter 9 request code (`usb_ch9.h` is absent). -/
def GET_STATUS : Nat := 0x0
/-- Modelled from the spec: USB chapter 9 request code (`usb_ch9.h` is absent). -/
def CLEAR_FEATURE : Nat := 0x1
/-- Modelled from the spec: USB chapter 9 request code (`usb_ch9.h` is absent). -/
def SET_FEATURE : Nat := 0x3
/-- Modelled from the spec: USB chapter 9 request code (`usb_ch9.h` is absent). -/
def SET_ADDRESS : Nat := 0x5
/-- Modelled from the spec: USB chapter 9 request code (`usb_ch9.h` is absent). -/
def GET_DESCRIPTOR : Nat := 0x6
/-- Modelled from the spec: USB chapter 9 request code (`usb_ch9.h` is absent). -/
def GET_CONFIGURATION : Nat := 0x8
/-- Modelled from the spec: USB chapter 9 request code (`usb_ch9.h` is absent). -/
def SET_CONFIGURATION : Nat := 0x9
/-- Modelled from the spec: USB chapter 9 request code (`usb_ch9.h` is absent). -/
def GET_INTERFACE : Nat := 0xa
/-- Modelled from the spec: USB chapter 9 request code (`usb_ch9.h` is absent). -/
def SET_INTERFACE : Nat := 0xb

/-- Modelled from the spec: USB chapter 9 descriptor type (`usb_ch9.h` is absent). -/
def DESC_DEVICE : Nat := 0x1
/-- Modelled from the spec: USB chapter 9 descriptor type (`usb_ch9.h` is absent). -/
def DESC_CONFIGURATION : Nat := 0x2
/-- Modelled from the spec: USB chapter 9 descriptor type (`usb_ch9.h` is absent). -/
def DESC_STRING : Nat := 0x3

/-- Modelled from the spec: request type "standard" of bmRequestType (`usb_ch9.h` is absent). -/
def REQUEST_TYPE_STANDARD : Nat := 0

/-- The flag of `ep_buf.flags` for a halted OUT direction (usb.c line 146). -/
def EP_OUT_HALT_FLAG : Nat := 0x1
/-- The flag of `ep_buf.flags` for a halted IN direction (usb.c line 147). -/
def EP_IN_HALT_FLAG : Nat := 0x2

/-- The macro `MIN` of usb.c line 39. -/
def MIN (x y : Nat) : Nat := if x < y then x else y

/-! ## Data model -/

/-- Modelled from the spec: `struct buffer_descriptor` (`usb_hal.h` is absent): the
status byte and the byte count; the buffer address is fixed at reset and not
modelled. -/
structure buffer_descriptor where
  BDnSTAT : Nat
  BDnCNT : Nat
deriving DecidableEq, Repr

/-- Modelled from the spec: the macro `SET_BDN(REG, FLAGS, CNT)` (`usb_hal.h` is
absent): stores the byte count and replaces the whole status byte by `FLAGS`. -/
def SET_BDN (_REG : buffer_descriptor) (FLAGS CNT : Nat) : buffer_descriptor :=
  { BDnSTAT := FLAGS, BDnCNT := CNT }

/-- Modelled from the spec: the macro `BDN_LENGTH(REG)` (`usb_hal.h` is absent). -/
def BDN_LENGTH (REG : buffer_descriptor) : Nat := REG.BDnCNT

/-- Modelled from the spec: the bit-field `STAT.UOWN` (`usb_hal.h` is absent). -/
def buffer_descriptor.UOWN (bd : buffer_descriptor) : Bool :=
  bd.BDnSTAT &&& BDNSTAT_UOWN != 0
/-- Modelled from the spec: the bit-field `STAT.DTS` (`usb_hal.h` is absent). -/
def buffer_descriptor.DTS (bd : buffer_descriptor) : Bool :=
  bd.BDnSTAT &&& BDNSTAT_DTS != 0
/-- Modelled from the spec: the bit-field `STAT.DTSEN` (`usb_hal.h` is absent). -/
def buffer_descriptor.DTSEN (bd : buffer_descriptor) : Bool :=
  bd.BDnSTAT &&& BDNSTAT_DTSEN != 0
/-- Modelled from the spec: the bit-field `STAT.BSTALL` (`usb_hal.h` is absent). -/
def buffer_descriptor.BSTALL (bd : buffer_descriptor) : Bool :=
  bd.BDnSTAT &&& BDNSTAT_BSTALL != 0
/-- Modelled from the spec: the bit-field `STAT.PID` (`usb_hal.h` is absent): bits
2..5 of the status byte as the SIE writes it back. -/
def buffer_descriptor.PID (bd : buffer_descriptor) : Nat :=
  (bd.BDnSTAT >>> 2) &&& 0xf

/-- The `struct buffer_descriptor_pair` of usb.c line 55. -/
structure buffer_descriptor_pair where
  ep_out : buffer_descriptor
  ep_in : buffer_descriptor
deriving DecidableEq, Repr

/-- The `struct ep_buf` of usb.c line 140: the contents of the two packet buffers
and the halt flags.  The constant lengths `out_len` and `in_len` are in `Config`. -/
structure ep_buf where
  out : Nat → Nat
  in_ : Nat → Nat
  flags : Nat

/-- Modelled from the spec: `struct setup_packet` (`usb_ch9.h` is absent), the decoded
8-byte SETUP packet: `REQUEST.destination`, `REQUEST.type`, `REQUEST.direction`,
`bRequest`, `wValue`, `wIndex`, `wLength`. -/
structure setup_packet where
  destination : Nat
  type : Nat
  direction : Nat
  bRequest : Nat
  wValue : Nat
  wIndex : Nat
  wLength : Nat
deriving DecidableEq, Repr

/-- Modelled from the spec: the overlay `(struct setup_packet*) ep_buf[0].out`
(`usb_ch9.h` is absent): the fixed little-endian 8-byte layout of the USB
specification. -/
def get_setup (out : Nat → Nat) : setup_packet :=
  { destination := (out 0 % 256) % 32
    type := (out 0 % 256) / 32 % 4
    direction := (out 0 % 256) / 128
    bRequest := out 1 % 256
    wValue := out 2 % 256 + 256 * (out 3 % 256)
    wIndex := out 4 % 256 + 256 * (out 5 % 256)
    wLength := out 6 % 256 + 256 * (out 7 % 256) }

/-- The bytes of a SETUP packet on the wire (inverse of `get_setup`). -/
def setup_bytes (p : setup_packet) : List Nat :=
  [p.destination % 32 + 32 * (p.type % 4) + 128 * (p.direction % 2), p.bRequest % 256,
   p.wValue % 256, p.wValue / 256 % 256, p.wIndex % 256, p.wIndex / 256 % 256,
   p.wLength % 256, p.wLength / 256 % 256]

/-- A call of the application into the public interface of the stack, as made from
the unknown-setup-request hook. -/
inductive AppCall where
  | send_data_stage (buffer : List Nat) (len : Nat) (callback : Option Nat) (context : Nat)
  | start_receive_ep0_data_stage (buffer : Option Nat) (len : Nat) (callback : Option Nat)
      (context : Nat)
  | send_in_buffer (endpoint len : Nat)
  | arm_out_endpoint (endpoint : Nat)
deriving DecidableEq, Repr

/-- A call that leaves the stack. `callback fn ok ctx` is the execution of
`ep0_data_stage_callback(ok, ep0_data_stage_context)` while the callback pointer
holds `fn` (`none` is a call through a NULL pointer); `memcpy_out dst bytes` is the
`memcpy` of `bytes` to address `dst` of the application's receive buffer; the
others are the notification hooks. -/
inductive Event where
  | callback (fn : Option Nat) (ok : Bool) (ctx : Nat)
  | memcpy_out (dst : Nat) (bytes : List Nat)
  | set_configuration_callback (req : Nat)
  | endpoint_halt_callback (wIndex : Nat) (halted : Bool)
  | reset_callback
  | start_of_frame_callback
deriving DecidableEq, Repr

/-- The compile-time configuration (`usb_config.h` is absent): the endpoint count,
the buffer lengths, the descriptor tables and the optional hooks (`none` or
`false` when the hook is not defined). -/
structure Config where
  NUM_ENDPOINT_NUMBERS : Nat
  EP_0_LEN : Nat
  EP_n_OUT_LEN : Nat → Nat
  EP_n_IN_LEN : Nat → Nat
  NUMBER_OF_CONFIGURATIONS : Nat
  USB_DEVICE_DESCRIPTOR : List Nat
  USB_CONFIG_DESCRIPTOR_MAP : Nat → List Nat
  USB_STRING_DESCRIPTOR_FUNC : Option (Nat → Int × List Nat)
  UNKNOWN_GET_DESCRIPTOR_CALLBACK : Option (setup_packet → Int × List Nat)
  UNKNOWN_SETUP_REQUEST_CALLBACK : Option (setup_packet → List AppCall × Int)
  SET_CONFIGURATION_CALLBACK : Bool
  GET_DEVICE_STATUS_CALLBACK : Option Nat
  SET_INTERFACE_CALLBACK : Option (Nat → Nat → Int)
  GET_INTERFACE_CALLBACK : Option (Nat → Int)
  ENDPOINT_HALT_CALLBACK : Bool
  USB_RESET_CALLBACK : Bool
  START_OF_FRAME_CALLBACK : Bool

/-- The constant `ep_buf[n].out_len` (a `uint8_t`) of usb.c lines 143 and 155. -/
def Config.out_len (cfg : Config) (n : Nat) : Nat :=
  (if n = 0 then cfg.EP_0_LEN else cfg.EP_n_OUT_LEN n) % 256

/-- The constant `ep_buf[n].in_len` (a `uint8_t`) of usb.c lines 144 and 155. -/
def Config.in_len (cfg : Config) (n : Nat) : Nat :=
  (if n = 0 then cfg.EP_0_LEN else cfg.EP_n_IN_LEN n) % 256

/-- The globals of usb.c (lines 67, 157, 211-223), the bus-address register and the
trace of calls that left the stack. -/
structure State where
  bds : Nat → buffer_descriptor_pair
  ep_buf : Nat → ep_buf
  SFR_USB_ADDR : Nat
  addr_pending : Bool
  addr : Nat
  g_configuration : Nat
  control_need_zlp : Bool
  returning_short : Bool
  ep0_data_stage_callback : Option Nat
  ep0_data_stage_in_buffer : Option (List Nat)
  ep0_data_stage_out_buffer : Option Nat
  ep0_data_stage_buf_remaining : Nat
  ep0_data_stage_context : Nat
  ep0_data_stage_direc : Nat
  trace : List Event

/-- The assignment `bds[ep].ep_in = bd`. -/
def State.set_ep_in (s : State) (ep : Nat) (bd : buffer_descriptor) : State :=
  { s with bds := fun i => if i = ep then { s.bds i with ep_in := bd } else s.bds i }

/-- The assignment `bds[ep].ep_out = bd`. -/
def State.set_ep_out (s : State) (ep : Nat) (bd : buffer_descriptor) : State :=
  { s with bds := fun i => if i = ep then { s.bds i with ep_out := bd } else s.bds i }

/-- The assignment `ep_buf[ep].flags = v`. -/
def State.set_flags (s : State) (ep : Nat) (v : Nat) : State :=
  { s with ep_buf := fun i => if i = ep then { s.ep_buf i with flags := v } else s.ep_buf i }

/-- The assignment `ep_buf[ep].in[k] = v`. -/
def State.set_in_byte (s : State) (ep k v : Nat) : State :=
  { s with ep_buf := fun i =>
      if i = ep then { s.ep_buf i with in_ := fun j => if j = k then v else (s.ep_buf i).in_ j }
      else s.ep_buf i }

/-- The call `memcpy_from_rom(ep_buf[ep].in, src, n)`: the first `n` bytes of the IN
buffer are replaced by the bytes at `src` (a NULL source or a read past the end of
the source object yields zero bytes in the model). -/
def State.memcpy_to_in (s : State) (ep : Nat) (src : Option (List Nat)) (n : Nat) : State :=
  { s with ep_buf := fun i =>
      if i = ep then
        { s.ep_buf i with in_ := fun j => if j < n then (src.getD []).getD j 0 else (s.ep_buf i).in_ j }
      else s.ep_buf i }

/-- The bytes `data` stored at the start of `ep_buf[ep].out`. -/
def State.set_out_bytes (s : State) (ep : Nat) (data : List Nat) : State :=
  { s with ep_buf := fun i =>
      if i = ep then { s.ep_buf i with out := fun j => data.getD j ((s.ep_buf i).out j) }
      else s.ep_buf i }

/-- Appends one event to the trace. -/
def State.emit (s : State) (e : Event) : State :=
  { s with trace := s.trace ++ [e] }

/-- The state with the trace forgotten: the memory of the stack alone. -/
def State.untraced (s : State) : State :=
  { s with trace := [] }

/-! ## The functions of usb.c -/

/-- The function `reset_ep0_data_stage` of usb.c lines 225-237. The callback, the
context, the direction, `control_need_zlp` and `returning_short` are not touched. -/
def reset_ep0_data_stage (s : State) : State :=
  { s with
    ep0_data_stage_in_buffer := none
    ep0_data_stage_out_buffer := none
    ep0_data_stage_buf_remaining := 0 }

/-- The body of the reset loop of usb.c lines 330-331 for endpoint `i`. -/
def usb_init_flags (s : State) (i : Nat) : State :=
  s.set_flags i 0

/-- The body of the descriptor loop of usb.c lines 345-355 for endpoint `i`. -/
def usb_init_bd (cfg : Config) (s : State) (i : Nat) : State :=
  let s := s.set_ep_out i (SET_BDN (s.bds i).ep_out BDNSTAT_UOWN (cfg.out_len i))
  s.set_ep_in i (SET_BDN (s.bds i).ep_in BDNSTAT_DTS (cfg.in_len i))

/-- The call `memset(bds, 0x0, sizeof(bds))` of usb.c line 333: the descriptors of the
endpoints `0..NUM_ENDPOINT_NUMBERS` are zeroed. -/
def memset_bds (cfg : Config) (s : State) : State :=
  { s with bds := fun i => if i ≤ cfg.NUM_ENDPOINT_NUMBERS then ⟨⟨0, 0⟩, ⟨0, 0⟩⟩ else s.bds i }

/-- The function `usb_init` of usb.c lines 245-372, from the reset of the address
on (lines 326-365). -/
def usb_init (cfg : Config) (s : State) : State :=
  let s := { s with SFR_USB_ADDR := 0, addr_pending := false, g_configuration := 0 }
  let s := (List.range (cfg.NUM_ENDPOINT_NUMBERS + 1)).foldl usb_init_flags s
  let s := memset_bds cfg s
  let s := s.set_ep_out 0 (SET_BDN (s.bds 0).ep_out BDNSTAT_UOWN (cfg.out_len 0))
  let s := s.set_ep_in 0 (SET_BDN (s.bds 0).ep_in 0 (cfg.in_len 0))
  let s := (List.range' 1 cfg.NUM_ENDPOINT_NUMBERS).foldl (usb_init_bd cfg) s
  reset_ep0_data_stage s

/-- The function `reset_bd0_out` of usb.c lines 374-380. -/
def reset_bd0_out (cfg : Config) (s : State) : State :=
  s.set_ep_out 0 (SET_BDN (s.bds 0).ep_out BDNSTAT_UOWN (cfg.out_len 0))

/-- The function `stall_ep0` of usb.c lines 382-386. -/
def stall_ep0 (cfg : Config) (s : State) : State :=
  s.set_ep_in 0 (SET_BDN (s.bds 0).ep_in (BDNSTAT_UOWN ||| BDNSTAT_BSTALL) (cfg.in_len 0))

/-- The function `stall_ep_in` of usb.c lines 388-392. -/
def stall_ep_in (cfg : Config) (s : State) (ep : Nat) : State :=
  s.set_ep_in ep (SET_BDN (s.bds ep).ep_in (BDNSTAT_UOWN ||| BDNSTAT_BSTALL) (cfg.in_len ep))

/-- The function `stall_ep_out` of usb.c lines 394-398. -/
def stall_ep_out (cfg : Config) (s : State) (ep : Nat) : State :=
  s.set_ep_out ep (SET_BDN (s.bds ep).ep_out (BDNSTAT_UOWN ||| BDNSTAT_BSTALL) (cfg.out_len ep))

/-- The function `send_zero_length_packet_ep0` of usb.c lines 400-404. -/
def send_zero_length_packet_ep0 (s : State) : State :=
  let s := s.set_ep_in 0 { (s.bds 0).ep_in with BDnSTAT := 0 }
  s.set_ep_in 0 (SET_BDN (s.bds 0).ep_in (BDNSTAT_UOWN ||| BDNSTAT_DTS ||| BDNSTAT_DTSEN) 0)

/-- The function `start_control_return` of usb.c lines 423-437. `ptr` is the list of
bytes at the source pointer. -/
def start_control_return (cfg : Config) (s : State) (ptr : List Nat) (len bytes_asked_for : Nat) :
    State :=
  let bytes_to_send := MIN len cfg.EP_0_LEN % 256
  let bytes_to_send := MIN bytes_to_send bytes_asked_for % 256
  let s := { s with returning_short := decide (len ≠ bytes_asked_for) }
  let s := s.memcpy_to_in 0 (some ptr) bytes_to_send
  let s := { s with
    ep0_data_stage_in_buffer := some (ptr.drop bytes_to_send)
    ep0_data_stage_buf_remaining := MIN bytes_asked_for len - bytes_to_send }
  let s := s.set_ep_in 0 { (s.bds 0).ep_in with BDnSTAT := 0 }
  s.set_ep_in 0
    (SET_BDN (s.bds 0).ep_in (BDNSTAT_UOWN ||| BDNSTAT_DTS ||| BDNSTAT_DTSEN) bytes_to_send)

/-- The function `usb_in_endpoint_halted` of usb.c lines 965-968. -/
def usb_in_endpoint_halted (s : State) (endpoint : Nat) : Bool :=
  (s.ep_buf endpoint).flags &&& EP_IN_HALT_FLAG != 0

/-- The function `usb_out_endpoint_halted` of usb.c lines 994-997. -/
def usb_out_endpoint_halted (s : State) (endpoint : Nat) : Bool :=
  (s.ep_buf endpoint).flags &&& EP_OUT_HALT_FLAG != 0

/-- The function `usb_get_configuration` of usb.c lines 934-937. -/
def usb_get_configuration (s : State) : Nat :=
  s.g_configuration

/-- The function `usb_in_endpoint_busy` of usb.c lines 960-963. -/
def usb_in_endpoint_busy (s : State) (endpoint : Nat) : Bool :=
  (s.bds endpoint).ep_in.UOWN

/-- The function `usb_out_endpoint_has_data` of usb.c lines 976-979. -/
def usb_out_endpoint_has_data (s : State) (endpoint : Nat) : Bool :=
  !(s.bds endpoint).ep_out.UOWN

/-- The function `usb_send_in_buffer` of usb.c lines 944-958. -/
def usb_send_in_buffer (s : State) (endpoint len : Nat) : State :=
  if (s.g_configuration > 0 ∨ endpoint = 0) ∧ usb_in_endpoint_halted s endpoint = false then
    let pid := !(s.bds endpoint).ep_in.DTS
    let s := s.set_ep_in endpoint { (s.bds endpoint).ep_in with BDnSTAT := 0 }
    if pid then
      s.set_ep_in endpoint
        (SET_BDN (s.bds endpoint).ep_in (BDNSTAT_UOWN ||| BDNSTAT_DTS ||| BDNSTAT_DTSEN) len)
    else
      s.set_ep_in endpoint (SET_BDN (s.bds endpoint).ep_in (BDNSTAT_UOWN ||| BDNSTAT_DTSEN) len)
  else s

/-- The function `usb_arm_out_endpoint` of usb.c lines 981-992. -/
def usb_arm_out_endpoint (cfg : Config) (s : State) (endpoint : Nat) : State :=
  let pid := !(s.bds endpoint).ep_out.DTS
  if pid then
    s.set_ep_out endpoint
      (SET_BDN (s.bds endpoint).ep_out (BDNSTAT_UOWN ||| BDNSTAT_DTS ||| BDNSTAT_DTSEN)
        (cfg.out_len endpoint))
  else
    s.set_ep_out endpoint
      (SET_BDN (s.bds endpoint).ep_out (BDNSTAT_UOWN ||| BDNSTAT_DTSEN) (cfg.out_len endpoint))

/-- The function `usb_start_receive_ep0_data_stage` of usb.c lines 999-1008. -/
def usb_start_receive_ep0_data_stage (s : State) (buffer : Option Nat) (len : Nat)
    (callback : Option Nat) (context : Nat) : State :=
  let s := reset_ep0_data_stage s
  { s with
    ep0_data_stage_callback := callback
    ep0_data_stage_out_buffer := buffer
    ep0_data_stage_buf_remaining := len
    ep0_data_stage_context := context }

/-- The function `usb_send_data_stage` of usb.c lines 1010-1019. -/
def usb_send_data_stage (cfg : Config) (s : State) (buffer : List Nat) (len : Nat)
    (callback : Option Nat) (context : Nat) : State :=
  let s := start_control_return cfg s buffer len len
  { s with ep0_data_stage_callback := callback, ep0_data_stage_context := context }

/-- One call of the application into the stack. -/
def app_call (cfg : Config) (s : State) : AppCall → State
  | .send_data_stage buffer len callback context =>
      usb_send_data_stage cfg s buffer len callback context
  | .start_receive_ep0_data_stage buffer len callback context =>
      usb_start_receive_ep0_data_stage s buffer len callback context
  | .send_in_buffer endpoint len => usb_send_in_buffer s endpoint len
  | .arm_out_endpoint endpoint => usb_arm_out_endpoint cfg s endpoint

/-- The guarded invocation `if (ep0_data_stage_callback) ep0_data_stage_callback(ok, ctx)`
of usb.c lines 699-700, 748-749 and 832-833. -/
def notify_callback (s : State) (ok : Bool) : State :=
  match s.ep0_data_stage_callback with
  | some fn => s.emit (.callback (some fn) ok s.ep0_data_stage_context)
  | none => s

/-- The GET_DESCRIPTOR branch of `handle_standard_control_request`, usb.c lines 444-498. -/
def handle_get_descriptor (cfg : Config) (s : State) (setup : setup_packet) : State :=
  let descriptor := (setup.wValue >>> 8) &&& 0x00ff
  let descriptor_index := setup.wValue &&& 0x00ff
  if descriptor = DESC_DEVICE then
    start_control_return cfg s cfg.USB_DEVICE_DESCRIPTOR
      (cfg.USB_DEVICE_DESCRIPTOR.getD 0 0) setup.wLength
  else if descriptor = DESC_CONFIGURATION then
    if descriptor_index ≥ cfg.NUMBER_OF_CONFIGURATIONS then
      stall_ep0 cfg s
    else
      let desc := cfg.USB_CONFIG_DESCRIPTOR_MAP descriptor_index
      start_control_return cfg s desc (desc.getD 2 0 + 256 * desc.getD 3 0) setup.wLength
  else if descriptor = DESC_STRING then
    match cfg.USB_STRING_DESCRIPTOR_FUNC with
    | some f =>
        if (f descriptor_index).1 < 0 then stall_ep0 cfg s
        else start_control_return cfg s (f descriptor_index).2 (f descriptor_index).1.toNat
          setup.wLength
    | none => stall_ep0 cfg s
  else
    match cfg.UNKNOWN_GET_DESCRIPTOR_CALLBACK with
    | some f =>
        if (f setup).1 < 0 then stall_ep0 cfg s
        else start_control_return cfg s (f setup).2 (f setup).1.toNat setup.wLength
    | none => stall_ep0 cfg s

/-- The GET_STATUS branch of `handle_standard_control_request`, usb.c lines 532-576. -/
def handle_get_status (cfg : Config) (s : State) (setup : setup_packet) : State :=
  if setup.destination = 0 then
    let s := s.set_ep_in 0 { (s.bds 0).ep_in with BDnSTAT := 0 }
    let s :=
      match cfg.GET_DEVICE_STATUS_CALLBACK with
      | some v => (s.set_in_byte 0 0 (v % 256)).set_in_byte 0 1 (v / 256 % 256)
      | none => (s.set_in_byte 0 0 0).set_in_byte 0 1 0
    s.set_ep_in 0 (SET_BDN (s.bds 0).ep_in (BDNSTAT_UOWN ||| BDNSTAT_DTS ||| BDNSTAT_DTSEN) 2)
  else if setup.destination = 2 then
    let ep_num := setup.wIndex &&& 0x0f
    if ep_num ≤ cfg.NUM_ENDPOINT_NUMBERS then
      let flags := (s.ep_buf ep_num).flags
      let s := s.set_ep_in 0 { (s.bds 0).ep_in with BDnSTAT := 0 }
      let s := s.set_in_byte 0 0
        (if (if setup.wIndex &&& 0x80 ≠ 0 then flags &&& EP_IN_HALT_FLAG
             else flags &&& EP_OUT_HALT_FLAG) ≠ 0 then 1 else 0)
      let s := s.set_in_byte 0 1 0
      s.set_ep_in 0 (SET_BDN (s.bds 0).ep_in (BDNSTAT_UOWN ||| BDNSTAT_DTS ||| BDNSTAT_DTSEN) 2)
    else
      stall_ep0 cfg s
  else
    stall_ep0 cfg s

/-- The CLEAR_FEATURE / SET_FEATURE branch of `handle_standard_control_request`,
usb.c lines 625-674.  The C expression `flags &= ~FLAG` on the `uint8_t` flags is
the conjunction with the 8-bit complement of the flag. -/
def handle_feature (cfg : Config) (s : State) (setup : setup_packet) : State :=
  if setup.destination = 2 ∧ setup.wValue = 0 ∧
      (setup.wIndex &&& 0x0f) ≤ cfg.NUM_ENDPOINT_NUMBERS then
    let ep_num := setup.wIndex &&& 0x0f
    let ep_dir := setup.wIndex &&& 0x80
    let s :=
      if setup.bRequest = SET_FEATURE then
        if ep_dir ≠ 0 then
          let s := s.set_flags ep_num ((s.ep_buf ep_num).flags ||| EP_IN_HALT_FLAG)
          stall_ep_in cfg s ep_num
        else
          let s := s.set_flags ep_num ((s.ep_buf ep_num).flags ||| EP_OUT_HALT_FLAG)
          stall_ep_out cfg s ep_num
      else
        if ep_dir ≠ 0 then
          let s := s.set_flags ep_num ((s.ep_buf ep_num).flags &&& (0xff ^^^ EP_IN_HALT_FLAG))
          s.set_ep_in ep_num (SET_BDN (s.bds ep_num).ep_in BDNSTAT_DTS (cfg.in_len ep_num))
        else
          let s := s.set_flags ep_num ((s.ep_buf ep_num).flags &&& (0xff ^^^ EP_OUT_HALT_FLAG))
          s.set_ep_out ep_num (SET_BDN (s.bds ep_num).ep_out BDNSTAT_UOWN (cfg.out_len ep_num))
    let s :=
      if cfg.ENDPOINT_HALT_CALLBACK then
        s.emit (.endpoint_halt_callback setup.wIndex (decide (setup.bRequest = SET_FEATURE)))
      else s
    send_zero_length_packet_ep0 s
  else
    stall_ep0 cfg s

/-- The function `handle_standard_control_request` of usb.c lines 439-686; the
second component is the result `res`. -/
def handle_standard_control_request (cfg : Config) (s : State) : State × Int :=
  let setup := get_setup (s.ep_buf 0).out
  if setup.bRequest = GET_DESCRIPTOR then
    (handle_get_descriptor cfg s setup, 0)
  else if setup.bRequest = SET_ADDRESS then
    let s := { s with addr_pending := true, addr := setup.wValue % 256 }
    (send_zero_length_packet_ep0 s, 0)
  else if setup.bRequest = SET_CONFIGURATION then
    let req := setup.wValue &&& 0x00ff
    let s := if cfg.SET_CONFIGURATION_CALLBACK then s.emit (.set_configuration_callback req) else s
    let s := send_zero_length_packet_ep0 s
    ({ s with g_configuration := req }, 0)
  else if setup.bRequest = GET_CONFIGURATION then
    let s := s.set_ep_in 0 { (s.bds 0).ep_in with BDnSTAT := 0 }
    let s := s.set_in_byte 0 0 s.g_configuration
    (s.set_ep_in 0 (SET_BDN (s.bds 0).ep_in (BDNSTAT_UOWN ||| BDNSTAT_DTS ||| BDNSTAT_DTSEN) 1), 0)
  else if setup.bRequest = GET_STATUS then
    (handle_get_status cfg s setup, 0)
  else if setup.bRequest = SET_INTERFACE then
    match cfg.SET_INTERFACE_CALLBACK with
    | some f =>
        if f setup.wIndex setup.wValue < 0 then (stall_ep0 cfg s, 0)
        else (send_zero_length_packet_ep0 s, 0)
    | none => (send_zero_length_packet_ep0 s, 0)
  else if setup.bRequest = GET_INTERFACE then
    match cfg.GET_INTERFACE_CALLBACK with
    | some f =>
        if f setup.wIndex < 0 then (stall_ep0 cfg s, 0)
        else
          let s := s.set_ep_in 0 { (s.bds 0).ep_in with BDnSTAT := 0 }
          let s := s.set_in_byte 0 0 (f setup.wIndex).toNat
          (s.set_ep_in 0
            (SET_BDN (s.bds 0).ep_in (BDNSTAT_UOWN ||| BDNSTAT_DTS ||| BDNSTAT_DTSEN) 1), 0)
    | none =>
        let s := s.set_ep_in 0 { (s.bds 0).ep_in with BDnSTAT := 0 }
        let s := s.set_in_byte 0 0 0
        (s.set_ep_in 0
          (SET_BDN (s.bds 0).ep_in (BDNSTAT_UOWN ||| BDNSTAT_DTS ||| BDNSTAT_DTSEN) 1), 0)
  else if setup.bRequest = CLEAR_FEATURE ∨ setup.bRequest = SET_FEATURE then
    (handle_feature cfg s setup, 0)
  else
    (s, -1)

/-- The first part of `handle_ep0_setup`, usb.c lines 690-703: the direction of the
new request is recorded and a transfer whose data stage still has bytes remaining
is broken off. -/
def ep0_setup_break_pending (s : State) : State :=
  let setup := get_setup (s.ep_buf 0).out
  let s := { s with ep0_data_stage_direc := setup.direction }
  if s.ep0_data_stage_buf_remaining ≠ 0 then
    reset_ep0_data_stage (notify_callback s false)
  else s

/-- The label `handle_unknown` of `handle_ep0_setup`, usb.c lines 715-729. -/
def handle_unknown (cfg : Config) (s : State) : State :=
  let setup := get_setup (s.ep_buf 0).out
  match cfg.UNKNOWN_SETUP_REQUEST_CALLBACK with
  | some f =>
      let s := (f setup).1.foldl (app_call cfg) s
      if (f setup).2 < 0 then stall_ep0 cfg s else s
  | none => stall_ep0 cfg s

/-- The second part of `handle_ep0_setup`, usb.c lines 705-736: the dispatch of the
request. -/
def ep0_setup_dispatch (cfg : Config) (s : State) : State :=
  let setup := get_setup (s.ep_buf 0).out
  if setup.type = REQUEST_TYPE_STANDARD then
    let r := handle_standard_control_request cfg s
    if r.2 < 0 then handle_unknown cfg r.1 else r.1
  else
    handle_unknown cfg s

/-- The function `handle_ep0_setup` of usb.c lines 688-737. -/
def handle_ep0_setup (cfg : Config) (s : State) : State :=
  ep0_setup_dispatch cfg (ep0_setup_break_pending s)

/-- The function `handle_ep0_out` of usb.c lines 739-794.  The call of line 784 is made
without a test of the pointer: with a NULL callback it is the event
`.callback none ..`, after which the C code does not go on. -/
def handle_ep0_out (cfg : Config) (s : State) : State :=
  let pkt_len := BDN_LENGTH (s.bds 0).ep_out % 256
  if s.ep0_data_stage_direc = 1 then
    let s := notify_callback s true
    let s := reset_ep0_data_stage s
    let s := s.set_ep_out 0 { (s.bds 0).ep_out with BDnSTAT := 0 }
    s.set_ep_out 0
      (SET_BDN (s.bds 0).ep_out (BDNSTAT_UOWN ||| BDNSTAT_DTS ||| BDNSTAT_DTSEN) (cfg.out_len 0))
  else
    match s.ep0_data_stage_out_buffer with
    | some dst =>
        let bytes_to_copy := MIN pkt_len s.ep0_data_stage_buf_remaining % 256
        let s := s.emit (.memcpy_out dst ((List.range bytes_to_copy).map (s.ep_buf 0).out))
        let s := { s with
          ep0_data_stage_out_buffer := some (dst + bytes_to_copy)
          ep0_data_stage_buf_remaining := s.ep0_data_stage_buf_remaining - bytes_to_copy }
        if pkt_len < cfg.EP_0_LEN ∨ s.ep0_data_stage_buf_remaining = 0 then
          if bytes_to_copy < pkt_len then
            let s := stall_ep0 cfg s
            let s := s.emit (.callback s.ep0_data_stage_callback false s.ep0_data_stage_context)
            reset_ep0_data_stage s
          else
            send_zero_length_packet_ep0 s
        else s
    | none => s

/-- The function `handle_ep0_in` of usb.c lines 796-837. -/
def handle_ep0_in (cfg : Config) (s : State) : State :=
  let s := if s.addr_pending then { s with SFR_USB_ADDR := s.addr, addr_pending := false } else s
  if s.ep0_data_stage_buf_remaining ≠ 0 then
    let bytes_to_send := MIN s.ep0_data_stage_buf_remaining cfg.EP_0_LEN % 256
    let s := s.memcpy_to_in 0 s.ep0_data_stage_in_buffer bytes_to_send
    let s := { s with
      ep0_data_stage_buf_remaining := s.ep0_data_stage_buf_remaining - bytes_to_send
      ep0_data_stage_in_buffer := s.ep0_data_stage_in_buffer.map (List.drop bytes_to_send) }
    let s :=
      if s.ep0_data_stage_buf_remaining = 0 ∧ bytes_to_send = cfg.EP_0_LEN ∧
          s.returning_short = true then
        { s with control_need_zlp := true }
      else s
    usb_send_in_buffer s 0 bytes_to_send
  else if s.control_need_zlp then
    let s := usb_send_in_buffer s 0 0
    let s := { s with control_need_zlp := false }
    reset_ep0_data_stage s
  else if s.ep0_data_stage_direc = 0 then
    reset_ep0_data_stage (notify_callback s true)
  else s

/-- The interrupt flags and the status register that `usb_service` reads
(`SFR_USB_RESET_IF`, `SFR_USB_STALL_IF`, `SFR_USB_TOKEN_IF`, `SFR_USB_STATUS_EP`,
`SFR_USB_STATUS_DIR`, `SFR_USB_SOF_IF`). -/
structure usb_flags where
  SFR_USB_RESET_IF : Bool
  SFR_USB_STALL_IF : Bool
  SFR_USB_TOKEN_IF : Bool
  SFR_USB_STATUS_EP : Nat
  SFR_USB_STATUS_DIR : Nat
  SFR_USB_SOF_IF : Bool
deriving DecidableEq, Repr

/-- The token branch of `usb_service`, usb.c lines 862-915. -/
def usb_service_token (cfg : Config) (f : usb_flags) (s : State) : State :=
  if f.SFR_USB_STATUS_EP = 0 ∧ f.SFR_USB_STATUS_DIR = 0 then
    let s :=
      if (s.bds 0).ep_out.PID = PID_SETUP then handle_ep0_setup cfg s
      else if (s.bds 0).ep_out.PID = PID_IN then s
      else if (s.bds 0).ep_out.PID = PID_OUT then handle_ep0_out cfg s
      else stall_ep0 cfg s
    reset_bd0_out cfg s
  else if f.SFR_USB_STATUS_EP = 0 ∧ f.SFR_USB_STATUS_DIR = 1 then
    handle_ep0_in cfg s
  else if f.SFR_USB_STATUS_EP > 0 ∧ f.SFR_USB_STATUS_EP ≤ cfg.NUM_ENDPOINT_NUMBERS then
    if f.SFR_USB_STATUS_DIR = 1 then
      if (s.ep_buf f.SFR_USB_STATUS_EP).flags &&& EP_IN_HALT_FLAG ≠ 0 then
        stall_ep_in cfg s f.SFR_USB_STATUS_EP
      else s
    else
      if (s.ep_buf f.SFR_USB_STATUS_EP).flags &&& EP_OUT_HALT_FLAG ≠ 0 then
        stall_ep_out cfg s f.SFR_USB_STATUS_EP
      else s
  else s

/-- The function `usb_service` of usb.c lines 841-932, on the interrupt flags `f` as
they stand on entry.  After a reset `usb_init` has cleared the token flag
(`CLEAR_USB_TOKEN_IF`, lines 273-276) and all other interrupt flags
(`CLEAR_ALL_USB_IF`, line 278), and the tests of lines 860 and 920 read the
registers again: the token branch and the start-of-frame branch are then skipped. -/
def usb_service (cfg : Config) (f : usb_flags) (s : State) : State :=
  if f.SFR_USB_RESET_IF then
    let s := if cfg.USB_RESET_CALLBACK then s.emit .reset_callback else s
    usb_init cfg s
  else
    let s := if f.SFR_USB_TOKEN_IF then usb_service_token cfg f s else s
    if f.SFR_USB_SOF_IF ∧ cfg.START_OF_FRAME_CALLBACK then s.emit .start_of_frame_callback else s

/-! ## The hardware side of the buffer descriptors -/

/-- Modelled from the spec: the SIE completes a SETUP or OUT transaction on endpoint 0
(the hardware is outside the repository): the payload is deposited in
`ep_buf[0].out`, the byte count is its length and the status byte holds the
packet-ID with the ownership bit cleared. -/
def sie_receive_ep0 (s : State) (pid : Nat) (data : List Nat) : State :=
  (s.set_out_bytes 0 data).set_ep_out 0 { BDnSTAT := pid <<< 2, BDnCNT := data.length }

/-- Modelled from the spec: the SIE completes an IN transaction on endpoint `ep` (the
hardware is outside the repository): ownership returns to the firmware, the data
toggle bit is kept and the packet-ID is written back. -/
def sie_complete_in (s : State) (ep : Nat) : State :=
  s.set_ep_in ep
    { (s.bds ep).ep_in with
      BDnSTAT := ((s.bds ep).ep_in.BDnSTAT &&& BDNSTAT_DTS) ||| (PID_IN <<< 2) }

/-- The packet that an armed IN descriptor of endpoint `ep` hands to the hardware:
the first `BDnCNT` bytes of the IN buffer, when the descriptor is owned by the
hardware and not stalled. -/
def in_packet (s : State) (ep : Nat) : Option (List Nat) :=
  if (s.bds ep).ep_in.UOWN = true ∧ (s.bds ep).ep_in.BSTALL = false then
    some ((List.range (s.bds ep).ep_in.BDnCNT).map (s.ep_buf ep).in_)
  else none

/-- The flags of a completed token on endpoint `ep` in direction `dir`. -/
def token_done (ep dir : Nat) : usb_flags :=
  { SFR_USB_RESET_IF := false, SFR_USB_STALL_IF := false, SFR_USB_TOKEN_IF := true,
    SFR_USB_STATUS_EP := ep, SFR_USB_STATUS_DIR := dir, SFR_USB_SOF_IF := false }

/-- The flags of a bus reset. -/
def bus_reset : usb_flags :=
  { SFR_USB_RESET_IF := true, SFR_USB_STALL_IF := false, SFR_USB_TOKEN_IF := false,
    SFR_USB_STATUS_EP := 0, SFR_USB_STATUS_DIR := 0, SFR_USB_SOF_IF := false }

/-! ## Runs of the engine against the hardware -/

/-- The IN data stage as the bus sees it: while the remaining count is not 0, the
SIE completes the armed IN transaction and `handle_ep0_in` handles the completion.
The result is the list of packets that these calls handed to the hardware and the
state that is reached. -/
def in_data_stage (cfg : Config) : Nat → State → List (List Nat) × State
  | 0, s => ([], s)
  | fuel + 1, s =>
      if s.ep0_data_stage_buf_remaining = 0 then ([], s)
      else
        let s1 := handle_ep0_in cfg (sie_complete_in s 0)
        ((in_packet s1 0).toList ++ (in_data_stage cfg fuel s1).1, (in_data_stage cfg fuel s1).2)

/-- One OUT packet with payload `data` arrives on endpoint 0 and is handled by
`handle_ep0_out`. -/
def ep0_out_packet (cfg : Config) (s : State) (data : List Nat) : State :=
  handle_ep0_out cfg (sie_receive_ep0 s PID_OUT data)

/-- The SETUP packet `p` arrives on endpoint 0 and is handled by `handle_ep0_setup`. -/
def ep0_setup_packet (cfg : Config) (s : State) (p : setup_packet) : State :=
  handle_ep0_setup cfg (sie_receive_ep0 s PID_SETUP (setup_bytes p))

/-- The `memcpy` calls of a trace: destination address and bytes, oldest first. -/
def writes : List Event → List (Nat × List Nat)
  | [] => []
  | .memcpy_out dst bytes :: t => (dst, bytes) :: writes t
  | _ :: t => writes t

/-- The invocations of the data-stage callback in a trace, oldest first. -/
def callbacks : List Event → List (Option Nat × Bool × Nat)
  | [] => []
  | .callback fn ok ctx :: t => (fn, ok, ctx) :: callbacks t
  | _ :: t => callbacks t

/-- The writes `w` fill memory without gap or overlap from address `base` on. -/
def contiguous : Nat → List (Nat × List Nat) → Prop
  | _, [] => True
  | base, (dst, bytes) :: t => dst = base ∧ contiguous (base + bytes.length) t

/-- The bytes of the writes `w` in the order written. -/
def written (w : List (Nat × List Nat)) : List Nat :=
  (w.map Prod.snd).flatten

/-! ## Concrete configuration and states -/

/-- A configuration with one endpoint besides endpoint 0, 8-byte control packets,
an 18-byte device descriptor, one 34-byte configuration descriptor and no hooks. -/
def demo_config : Config :=
  { NUM_ENDPOINT_NUMBERS := 1
    EP_0_LEN := 8
    EP_n_OUT_LEN := fun _ => 64
    EP_n_IN_LEN := fun _ => 64
    NUMBER_OF_CONFIGURATIONS := 1
    USB_DEVICE_DESCRIPTOR := [18, 1, 0, 2, 0, 0, 0, 8, 0xd8, 0x04, 1, 0, 1, 0, 1, 2, 0, 1]
    USB_CONFIG_DESCRIPTOR_MAP := fun _ =>
      [9, 2, 34, 0, 1, 1, 0, 0x80, 50, 9, 4, 0, 0, 2, 0xff, 0, 0, 0, 7, 5, 0x81, 3, 64, 0, 1,
       7, 5, 1, 3, 64, 0, 1, 0, 0]
    USB_STRING_DESCRIPTOR_FUNC := none
    UNKNOWN_GET_DESCRIPTOR_CALLBACK := none
    UNKNOWN_SETUP_REQUEST_CALLBACK := none
    SET_CONFIGURATION_CALLBACK := false
    GET_DEVICE_STATUS_CALLBACK := none
    SET_INTERFACE_CALLBACK := none
    GET_INTERFACE_CALLBACK := none
    ENDPOINT_HALT_CALLBACK := false
    USB_RESET_CALLBACK := false
    START_OF_FRAME_CALLBACK := false }

/-- The globals as the C start-up code leaves them: all zero. -/
def zero_state : State :=
  { bds := fun _ => ⟨⟨0, 0⟩, ⟨0, 0⟩⟩
    ep_buf := fun _ => ⟨fun _ => 0, fun _ => 0, 0⟩
    SFR_USB_ADDR := 0
    addr_pending := false
    addr := 0
    g_configuration := 0
    control_need_zlp := false
    returning_short := false
    ep0_data_stage_callback := none
    ep0_data_stage_in_buffer := none
    ep0_data_stage_out_buffer := none
    ep0_data_stage_buf_remaining := 0
    ep0_data_stage_context := 0
    ep0_data_stage_direc := 0
    trace := [] }

/-- The state after power-up: `usb_init` on the zeroed globals. -/
def power_on : State :=
  usb_init demo_config zero_state

/-- The packets of an IN data stage: the packet that `start_control_return` hands to
the hardware, followed by the packets of `in_data_stage`. -/
def control_return_packets (cfg : Config) (fuel : Nat) (s : State) (ptr : List Nat)
    (len bytes_asked_for : Nat) : List (List Nat) :=
  (in_packet (start_control_return cfg s ptr len bytes_asked_for) 0).toList ++
    (in_data_stage cfg fuel (start_control_return cfg s ptr len bytes_asked_for)).1

/-- The state at the end of the data packets of an IN data stage. -/
def control_return_end (cfg : Config) (fuel : Nat) (s : State) (ptr : List Nat)
    (len bytes_asked_for : Nat) : State :=
  (in_data_stage cfg fuel (start_control_return cfg s ptr len bytes_asked_for)).2

/-- The OUT packets `pkts` arrive on endpoint 0 one after the other, each handled by
`handle_ep0_out`. -/
def ep0_out_packets (cfg : Config) (s : State) (pkts : List (List Nat)) : State :=
  pkts.foldl (ep0_out_packet cfg) s

/-- The descriptor that `stall_ep0` leaves in `bds[0].ep_in`. -/
def ep0_stalled (cfg : Config) (s : State) : Prop :=
  (s.bds 0).ep_in = ⟨BDNSTAT_UOWN ||| BDNSTAT_BSTALL, cfg.in_len 0⟩

/-- The `memcpy` calls made between state `s` and the later state `t`. -/
def writes_since (s t : State) : List (Nat × List Nat) :=
  (writes t.trace).drop (writes s.trace).length

/-- The callback invocations made between state `s` and the later state `t`. -/
def callbacks_since (s t : State) : List (Option Nat × Bool × Nat) :=
  (callbacks t.trace).drop (callbacks s.trace).length

/-- The request GET_STATUS to the device. -/
def get_status_device : setup_packet :=
  { destination := 0, type := 0, direction := 1, bRequest := GET_STATUS, wValue := 0, wIndex := 0,
    wLength := 2 }

/-- The request GET_STATUS to the endpoint addressed by `wIndex`. -/
def get_status_endpoint (wIndex : Nat) : setup_packet :=
  { destination := 2, type := 0, direction := 1, bRequest := GET_STATUS, wValue := 0,
    wIndex := wIndex, wLength := 2 }

/-- The request SET_FEATURE(ENDPOINT_HALT) to the endpoint addressed by `wIndex`. -/
def set_feature_halt (wIndex : Nat) : setup_packet :=
  { destination := 2, type := 0, direction := 0, bRequest := SET_FEATURE, wValue := 0,
    wIndex := wIndex, wLength := 0 }

/-- The request CLEAR_FEATURE(ENDPOINT_HALT) to the endpoint addressed by `wIndex`. -/
def clear_feature_halt (wIndex : Nat) : setup_packet :=
  { destination := 2, type := 0, direction := 0, bRequest := CLEAR_FEATURE, wValue := 0,
    wIndex := wIndex, wLength := 0 }

/-- The request SET_ADDRESS(a). -/
def set_address (a : Nat) : setup_packet :=
  { destination := 0, type := 0, direction := 0, bRequest := SET_ADDRESS, wValue := a, wIndex := 0,
    wLength := 0 }

/-- A vendor request (type 2) with request code `bRequest` and direction `direction`. -/
def vendor_request (bRequest direction wLength : Nat) : setup_packet :=
  { destination := 0, type := 2, direction := direction, bRequest := bRequest, wValue := 0,
    wIndex := 0, wLength := wLength }

/-- The configuration `demo_config` with an unknown-setup-request hook: vendor request
0x40 answers 4 bytes with `usb_send_data_stage`, vendor request 0x41 receives up to
10 bytes with `usb_start_receive_ep0_data_stage`; both register callback 1 with
context 7.  Every other request is refused. -/
def demo_hook_config : Config :=
  { demo_config with
    UNKNOWN_SETUP_REQUEST_CALLBACK := some fun p =>
      if p.type = 2 ∧ p.bRequest = 0x40 then ([.send_data_stage [1, 2, 3, 4] 4 (some 1) 7], 0)
      else if p.type = 2 ∧ p.bRequest = 0x41 then
        ([.start_receive_ep0_data_stage (some 0x100) 10 (some 1) 7], 0)
      else ([], -1) }

/-- The SETUP packets `ps` arrive on endpoint 0 one after the other, each handled by
`handle_ep0_setup`. -/
def ep0_setup_packets (cfg : Config) (s : State) (ps : List setup_packet) : State :=
  ps.foldl (ep0_setup_packet cfg) s

/-- The halt flag of the endpoint and direction addressed by `wIndex` (bit 7 set: IN). -/
def endpoint_halted (s : State) (wIndex : Nat) : Bool :=
  if wIndex &&& 0x80 ≠ 0 then usb_in_endpoint_halted s (wIndex &&& 0x0f)
  else usb_out_endpoint_halted s (wIndex &&& 0x0f)

/-- The request SET_CONFIGURATION(v). -/
def set_configuration (v : Nat) : setup_packet :=
  { destination := 0, type := 0, direction := 0, bRequest := SET_CONFIGURATION, wValue := v,
    wIndex := 0, wLength := 0 }

/-- The request GET_CONFIGURATION. -/
def get_configuration : setup_packet :=
  { destination := 0, type := 0, direction := 1, bRequest := GET_CONFIGURATION, wValue := 0,
    wIndex := 0, wLength := 1 }

/-- The device session state and the halt flags of `a` and `b` agree: the address
register, the pending address and its mark, the configuration value and the flags
of every endpoint. -/
def session_eq (a b : State) : Prop :=
  a.SFR_USB_ADDR = b.SFR_USB_ADDR ∧ a.addr_pending = b.addr_pending ∧ a.addr = b.addr ∧
  a.g_configuration = b.g_configuration ∧ ∀ e, (a.ep_buf e).flags = (b.ep_buf e).flags

/-- Modelled from the spec: the SIE completes an OUT transaction on a non-zero endpoint
`ep` (the hardware is outside the repository): the payload is deposited in
`ep_buf[ep].out`, the byte count is its length and the status byte holds the
packet-ID with the ownership bit cleared. -/
def sie_receive_ep (s : State) (ep : Nat) (data : List Nat) : State :=
  (s.set_out_bytes ep data).set_ep_out ep { BDnSTAT := PID_OUT <<< 2, BDnCNT := data.length }

/-- An event at the boundary of the stack: a bus reset, a SETUP packet, an OUT packet
on endpoint 0, the completion of an IN transaction on endpoint 0, the completion of
a transaction on another endpoint (direction 1: IN, otherwise OUT with the payload
`data`), each followed by a call of `usb_service`; or a call of the application
into the stack. -/
inductive bus_event where
  | reset
  | setup (p : setup_packet)
  | out (data : List Nat)
  | in_done
  | ep_done (ep dir : Nat) (data : List Nat)
  | app (c : AppCall)
deriving DecidableEq, Repr

/-- The stack handles one event. -/
def bus_step (cfg : Config) (s : State) : bus_event → State
  | .reset => usb_service cfg bus_reset s
  | .setup p => usb_service cfg (token_done 0 0) (sie_receive_ep0 s PID_SETUP (setup_bytes p))
  | .out data => usb_service cfg (token_done 0 0) (sie_receive_ep0 s PID_OUT data)
  | .in_done => usb_service cfg (token_done 0 1) (sie_complete_in s 0)
  | .ep_done ep dir data =>
      usb_service cfg (token_done ep dir)
        (if dir = 1 then sie_complete_in s ep else sie_receive_ep s ep data)
  | .app c => app_call cfg s c

/-- The stack handles a sequence of events. -/
def bus_run (cfg : Config) (s : State) (evs : List bus_event) : State :=
  evs.foldl (bus_step cfg) s

/-- The SETUP packet as the stack decodes it from its 8 bytes. -/
def setup_packet.decoded (p : setup_packet) : setup_packet :=
  get_setup (fun j => (setup_bytes p).getD j 0)

/-- The event is a SET_FEATURE(ENDPOINT_HALT) request addressed to endpoint 0. -/
def bus_event.halts_ep0 : bus_event → Prop
  | .setup p =>
      p.decoded.type = REQUEST_TYPE_STANDARD ∧ p.decoded.bRequest = SET_FEATURE ∧
      p.decoded.destination = 2 ∧ p.decoded.wValue = 0 ∧ p.decoded.wIndex &&& 0x0f = 0
  | _ => False

/-- The flags byte of endpoint `e` after `handle_feature` has handled the request `p`,
when the flags byte was `f` before: the closed form of usb.c lines 632-660. -/
def feature_flags (cfg : Config) (p : setup_packet) (e f : Nat) : Nat :=
  if (p.destination = 2 ∧ p.wValue = 0 ∧ (p.wIndex &&& 0x0f) ≤ cfg.NUM_ENDPOINT_NUMBERS) ∧
      e = p.wIndex &&& 0x0f then
    if p.bRequest = SET_FEATURE then
      (if p.wIndex &&& 0x80 ≠ 0 then f ||| EP_IN_HALT_FLAG else f ||| EP_OUT_HALT_FLAG)
    else
      (if p.wIndex &&& 0x80 ≠ 0 then f &&& (0xff ^^^ EP_IN_HALT_FLAG)
       else f &&& (0xff ^^^ EP_OUT_HALT_FLAG))
  else f

/-- With the flags `f` on the state `s`, `usb_service` (no reset pending) handles a
SETUP packet: a token is complete on endpoint 0 OUT and the packet-ID is SETUP. -/
def setup_token (f : usb_flags) (s : State) : Prop :=
  f.SFR_USB_TOKEN_IF = true ∧ f.SFR_USB_STATUS_EP = 0 ∧ f.SFR_USB_STATUS_DIR = 0 ∧
    (s.bds 0).ep_out.PID = PID_SETUP

/-- With the flags `f`, `usb_service` handles the completion of an IN transaction on
endpoint 0. -/
def in_token (f : usb_flags) : Prop :=
  f.SFR_USB_TOKEN_IF = true ∧ f.SFR_USB_STATUS_EP = 0 ∧ f.SFR_USB_STATUS_DIR = 1

instance (f : usb_flags) (s : State) : Decidable (setup_token f s) := by
  unfold setup_token; exact inferInstance

instance (f : usb_flags) : Decidable (in_token f) := by
  unfold in_token; exact inferInstance

instance (ev : bus_event) : Decidable ev.halts_ep0 := by
  cases ev <;> unfold bus_event.halts_ep0 <;> exact inferInstance

/-- The request GET_DESCRIPTOR for the descriptor of type `kind` and index `index`,
with `wLength` bytes asked for. -/
def get_descriptor (kind index wLength : Nat) : setup_packet :=
  { destination := 0, type := 0, direction := 1, bRequest := GET_DESCRIPTOR,
    wValue := 256 * kind + index, wIndex := 0, wLength := wLength }

/-- The configuration `demo_config` with a string-descriptor function that answers
every index with a 16-byte string descriptor (two full 8-byte packets). -/
def demo_string_config : Config :=
  { demo_config with
    USB_STRING_DESCRIPTOR_FUNC := some fun _ =>
      (16, [16, 3, 77, 0, 45, 0, 83, 0, 116, 0, 97, 0, 99, 0, 107, 0]) }

/-- The configuration `demo_config` with an unknown-setup-request hook that answers the
vendor request 0x41 by `usb_start_receive_ep0_data_stage` with a 4-byte buffer at
address 0x100, no callback (NULL) and context 7.  Every other request is refused. -/
def demo_null_callback_config : Config :=
  { demo_config with
    UNKNOWN_SETUP_REQUEST_CALLBACK := some fun p =>
      if p.type = 2 ∧ p.bRequest = 0x41 then
        ([.start_receive_ep0_data_stage (some 0x100) 4 none 7], 0)
      else ([], -1) }

/-! ## The region list of the Intel Hex reader (hex.c) -/

/-- The number of values of the host's `size_t` (`stddef.h` is outside the
repository): a 64-bit host.  Sums and differences of `size_t` values are reduced
modulo this number. -/
def SIZE_T_RANGE : Nat := 18446744073709551616

/-- Modelled from the spec: `struct hex_data_region` (`hex.h` is absent): the start
address and the length of a region.  The `data` pointer is NULL until `hex_load`
allocates it after the first pass and is not modelled; the `next` pointer is the
tail of the list. -/
structure hex_data_region where
  address : Nat
  len : Nat
deriving DecidableEq, Repr

/-- Modelled from the spec: `struct hex_data` (`hex.h` is absent): the linked list of
regions, first region first. -/
structure hex_data where
  regions : List hex_data_region
deriving DecidableEq, Repr

/-- The `while (r)` loop of `create_update_region`, hex.c lines 83-109, from the
region `r` on.  The result is the list from `r` on as the loop leaves it, the flag
`done`, and whether the loop ran to the end (`false`: it left the function with
`return false`, the regions before the overlapping one already updated). -/
def create_update_region_loop (address len : Nat) :
    List hex_data_region → Bool → List hex_data_region × Bool × Bool
  | [], done => ([], done, true)
  | r :: rest, done =>
    if address = (r.address + r.len) % SIZE_T_RANGE then
      ({ r with len := (r.len + len) % SIZE_T_RANGE } ::
          (create_update_region_loop address len rest true).1,
        (create_update_region_loop address len rest true).2)
    else if (address + len) % SIZE_T_RANGE = r.address then
      ({ address := (r.address + SIZE_T_RANGE - len) % SIZE_T_RANGE,
         len := (r.len + len) % SIZE_T_RANGE } ::
          (create_update_region_loop address len rest true).1,
        (create_update_region_loop address len rest true).2)
    else if address ≤ r.address ∧ (address + len) % SIZE_T_RANGE > r.address then
      (r :: rest, done, false)
    else if address ≥ r.address ∧ address < (r.address + r.len) % SIZE_T_RANGE then
      (r :: rest, done, false)
    else
      (r :: (create_update_region_loop address len rest done).1,
        (create_update_region_loop address len rest done).2)

/-- The function `create_update_region` of hex.c lines 77-133: the region list after
the call and the result.  `len` is a `uint8_t`; `calloc` is taken to succeed. -/
def create_update_region (hd : hex_data) (address len : Nat) : hex_data × Bool :=
  let len := len % 256
  let r := create_update_region_loop address len hd.regions false
  if r.2.2 = false then (⟨r.1⟩, false)
  else if r.2.1 = false then (⟨r.1 ++ [{ address := address, len := len }]⟩, true)
  else (⟨r.1⟩, true)

/-- The function `find_region` of hex.c lines 135-150: the first region that holds
the range, or NULL. -/
def find_region (hd : hex_data) (address len : Nat) : Option hex_data_region :=
  hd.regions.find? fun r =>
    decide (address ≥ r.address ∧
      (address + len % 256) % SIZE_T_RANGE ≤ (r.address + r.len) % SIZE_T_RANGE)

/-- The first pass of `hex_load` over the data records `(address, byte_count)` of a
file, hex.c lines 223-232: the region list after the last record, or `none` when
`create_update_region` has refused a record (`HEX_ERROR_FILE_LOAD_ERROR`). -/
def load_regions : List (Nat × Nat) → hex_data → Option hex_data
  | [], hd => some hd
  | (address, byte_count) :: rest, hd =>
    if (create_update_region hd address byte_count).2 = true then
      load_regions rest (create_update_region hd address byte_count).1
    else none

/-- The address ranges `[address, address + len)` of two regions have no address in
common. -/
def regions_disjoint (a b : hex_data_region) : Prop :=
  a.address + a.len ≤ b.address ∨ b.address + b.len ≤ a.address ∨ a.len = 0 ∨ b.len = 0

instance (a b : hex_data_region) : Decidable (regions_disjoint a b) := by
  unfold regions_disjoint; exact inferInstance

/-- The regions of the list are pairwise disjoint. -/
def pairwise_disjoint (hd : hex_data) : Prop :=
  hd.regions.Pairwise regions_disjoint

instance (hd : hex_data) : Decidable (pairwise_disjoint hd) := by
  unfold pairwise_disjoint; exact inferInstance

/-- The regions of the list that hold the whole range `[address, address + len)`:
the regions that the test of `find_region` accepts. -/
def regions_holding (hd : hex_data) (address len : Nat) : List hex_data_region :=
  hd.regions.filter fun r =>
    decide (address ≥ r.address ∧
      (address + len % 256) % SIZE_T_RANGE ≤ (r.address + r.len) % SIZE_T_RANGE)

/-- The range `[address, address + len)` starts exactly at the end of the region or
ends exactly at its start: the two cases in which the loop of
`create_update_region` extends the region. -/
def adjoins (address len : Nat) (r : hex_data_region) : Prop :=
  address = r.address + r.len ∨ address + len = r.address

instance (address len : Nat) (r : hex_data_region) : Decidable (adjoins address len r) := by
  unfold adjoins; exact inferInstance

/-- The region as the loop of `create_update_region` leaves it when no address
computation wraps around: extended at its end, extended at its start, or unchanged. -/
def extended (address len : Nat) (r : hex_data_region) : hex_data_region :=
  if address = r.address + r.len then { r with len := r.len + len }
  else if address + len = r.address then { address := r.address - len, len := r.len + len }
  else r

/-- A halted direction of endpoint `e` is stalled: when the IN (OUT) halt flag of `e`
is set, the IN (OUT) descriptor of `e` is owned by the hardware with the stall flag
set. -/
def halt_stalled (s : State) (e : Nat) : Prop :=
  (usb_in_endpoint_halted s e = true →
    (s.bds e).ep_in.UOWN = true ∧ (s.bds e).ep_in.BSTALL = true) ∧
  (usb_out_endpoint_halted s e = true →
    (s.bds e).ep_out.UOWN = true ∧ (s.bds e).ep_out.BSTALL = true)

/-- The application call is `usb_arm_out_endpoint`. -/
def AppCall.arms_out : AppCall → Prop
  | .arm_out_endpoint _ => True
  | _ => False

/-- The event is a call of `usb_arm_out_endpoint` by the application. -/
def bus_event.arms_out : bus_event → Prop
  | .app c => c.arms_out
  | _ => False

instance (c : AppCall) : Decidable c.arms_out := by
  cases c <;> unfold AppCall.arms_out <;> exact inferInstance

instance (ev : bus_event) : Decidable ev.arms_out := by
  cases ev <;> unfold bus_event.arms_out <;> exact inferInstance

/-- The state in which `handle_ep0_out` reaches the call of usb.c line 784 with a NULL
callback: an OUT data stage with a destination buffer, a packet longer than the
remaining capacity, and no callback. -/
def null_callback_call (s : State) : Prop :=
  s.ep0_data_stage_direc ≠ 1 ∧ s.ep0_data_stage_out_buffer ≠ none ∧
  s.ep0_data_stage_buf_remaining < BDN_LENGTH (s.bds 0).ep_out % 256 ∧
  s.ep0_data_stage_callback = none

instance (s : State) : Decidable (null_callback_call s) := by
  unfold null_callback_call; exact inferInstance

/-! # Lemmas -/


/-! ## Arithmetic and lists -/

theorem MIN_eq_min (x y : Nat) : MIN x y = min x y := by
  unfold MIN; split <;> omega

theorem map_range_eq_take (l : List Nat) (f : Nat → Nat) (b : Nat) (hb : b ≤ l.length)
    (hf : ∀ j, j < b → f j = l.getD j 0) : (List.range b).map f = l.take b := by
  apply List.ext_getElem
  · simp [hb]
  · intro i h1 h2
    simp at h1 h2
    simp [hf i h1, List.getD_eq_getElem?_getD, List.getElem?_eq_getElem (show i < l.length by omega)]

/-! ## Projections through conditionals -/

@[simp]
theorem State.ite_bds (c : Prop) [Decidable c] (a b : State) :
    (if c then a else b).bds = if c then a.bds else b.bds := by
  split <;> rfl

@[simp]
theorem State.ite_ep_buf (c : Prop) [Decidable c] (a b : State) :
    (if c then a else b).ep_buf = if c then a.ep_buf else b.ep_buf := by
  split <;> rfl

@[simp]
theorem State.ite_SFR_USB_ADDR (c : Prop) [Decidable c] (a b : State) :
    (if c then a else b).SFR_USB_ADDR = if c then a.SFR_USB_ADDR else b.SFR_USB_ADDR := by
  split <;> rfl

@[simp]
theorem State.ite_addr_pending (c : Prop) [Decidable c] (a b : State) :
    (if c then a else b).addr_pending = if c then a.addr_pending else b.addr_pending := by
  split <;> rfl

@[simp]
theorem State.ite_addr (c : Prop) [Decidable c] (a b : State) :
    (if c then a else b).addr = if c then a.addr else b.addr := by
  split <;> rfl

@[simp]
theorem State.ite_g_configuration (c : Prop) [Decidable c] (a b : State) :
    (if c then a else b).g_configuration = if c then a.g_configuration else b.g_configuration := by
  split <;> rfl

@[simp]
theorem State.ite_control_need_zlp (c : Prop) [Decidable c] (a b : State) :
    (if c then a else b).control_need_zlp = if c then a.control_need_zlp else b.control_need_zlp := by
  split <;> rfl

@[simp]
theorem State.ite_returning_short (c : Prop) [Decidable c] (a b : State) :
    (if c then a else b).returning_short = if c then a.returning_short else b.returning_short := by
  split <;> rfl

@[simp]
theorem State.ite_ep0_data_stage_callback (c : Prop) [Decidable c] (a b : State) :
    (if c then a else b).ep0_data_stage_callback = if c then a.ep0_data_stage_callback else b.ep0_data_stage_callback := by
  split <;> rfl

@[simp]
theorem State.ite_ep0_data_stage_in_buffer (c : Prop) [Decidable c] (a b : State) :
    (if c then a else b).ep0_data_stage_in_buffer = if c then a.ep0_data_stage_in_buffer else b.ep0_data_stage_in_buffer := by
  split <;> rfl

@[simp]
theorem State.ite_ep0_data_stage_out_buffer (c : Prop) [Decidable c] (a b : State) :
    (if c then a else b).ep0_data_stage_out_buffer = if c then a.ep0_data_stage_out_buffer else b.ep0_data_stage_out_buffer := by
  split <;> rfl

@[simp]
theorem State.ite_ep0_data_stage_buf_remaining (c : Prop) [Decidable c] (a b : State) :
    (if c then a else b).ep0_data_stage_buf_remaining = if c then a.ep0_data_stage_buf_remaining else b.ep0_data_stage_buf_remaining := by
  split <;> rfl

@[simp]
theorem State.ite_ep0_data_stage_context (c : Prop) [Decidable c] (a b : State) :
    (if c then a else b).ep0_data_stage_context = if c then a.ep0_data_stage_context else b.ep0_data_stage_context := by
  split <;> rfl

@[simp]
theorem State.ite_ep0_data_stage_direc (c : Prop) [Decidable c] (a b : State) :
    (if c then a else b).ep0_data_stage_direc = if c then a.ep0_data_stage_direc else b.ep0_data_stage_direc := by
  split <;> rfl

@[simp]
theorem State.ite_trace (c : Prop) [Decidable c] (a b : State) :
    (if c then a else b).trace = if c then a.trace else b.trace := by
  split <;> rfl

@[simp]
theorem buffer_descriptor_pair.ite_ep_out (c : Prop) [Decidable c] (a b : buffer_descriptor_pair) :
    (if c then a else b).ep_out = if c then a.ep_out else b.ep_out := by
  split <;> rfl

@[simp]
theorem buffer_descriptor_pair.ite_ep_in (c : Prop) [Decidable c] (a b : buffer_descriptor_pair) :
    (if c then a else b).ep_in = if c then a.ep_in else b.ep_in := by
  split <;> rfl

@[simp]
theorem buffer_descriptor.ite_BDnSTAT (c : Prop) [Decidable c] (a b : buffer_descriptor) :
    (if c then a else b).BDnSTAT = if c then a.BDnSTAT else b.BDnSTAT := by
  split <;> rfl

@[simp]
theorem buffer_descriptor.ite_BDnCNT (c : Prop) [Decidable c] (a b : buffer_descriptor) :
    (if c then a else b).BDnCNT = if c then a.BDnCNT else b.BDnCNT := by
  split <;> rfl

@[simp]
theorem ep_buf.ite_out (c : Prop) [Decidable c] (a b : ep_buf) :
    (if c then a else b).out = if c then a.out else b.out := by
  split <;> rfl

@[simp]
theorem ep_buf.ite_in_ (c : Prop) [Decidable c] (a b : ep_buf) :
    (if c then a else b).in_ = if c then a.in_ else b.in_ := by
  split <;> rfl

@[simp]
theorem ep_buf.ite_flags (c : Prop) [Decidable c] (a b : ep_buf) :
    (if c then a else b).flags = if c then a.flags else b.flags := by
  split <;> rfl


/-! ## The IN data stage -/

theorem in_step (cfg : Config) (s : State) (rest : List Nat)
    (h0 : 0 < cfg.EP_0_LEN) (h1 : cfg.EP_0_LEN < 256)
    (hh : usb_in_endpoint_halted s 0 = false)
    (hr : s.ep0_data_stage_buf_remaining ≠ 0)
    (hb : s.ep0_data_stage_in_buffer = some rest)
    (hl : s.ep0_data_stage_buf_remaining ≤ rest.length) :
    (handle_ep0_in cfg s).ep0_data_stage_buf_remaining =
      s.ep0_data_stage_buf_remaining - min s.ep0_data_stage_buf_remaining cfg.EP_0_LEN ∧
    (handle_ep0_in cfg s).ep0_data_stage_in_buffer =
      some (rest.drop (min s.ep0_data_stage_buf_remaining cfg.EP_0_LEN)) ∧
    in_packet (handle_ep0_in cfg s) 0 =
      some (rest.take (min s.ep0_data_stage_buf_remaining cfg.EP_0_LEN)) ∧
    usb_in_endpoint_halted (handle_ep0_in cfg s) 0 = false := by
  have hb256 : MIN s.ep0_data_stage_buf_remaining cfg.EP_0_LEN % 256 =
      min s.ep0_data_stage_buf_remaining cfg.EP_0_LEN := by
    rw [MIN_eq_min]; exact Nat.mod_eq_of_lt (by omega)
  unfold usb_in_endpoint_halted at hh
  refine ⟨?_, ?_, ?_, ?_⟩
  · simp [handle_ep0_in, hr, hb, hb256, State.memcpy_to_in, usb_send_in_buffer, usb_in_endpoint_halted, hh,
      State.set_ep_in, SET_BDN]
  · simp [handle_ep0_in, hr, hb, hb256, State.memcpy_to_in, usb_send_in_buffer, usb_in_endpoint_halted, hh,
      State.set_ep_in, SET_BDN]
  · have hu : ∀ x : Prop, [Decidable x] → (if x then BDNSTAT_UOWN ||| BDNSTAT_DTS ||| BDNSTAT_DTSEN
        else BDNSTAT_UOWN ||| BDNSTAT_DTSEN) &&& BDNSTAT_UOWN ≠ 0 := by
      intro x _; split <;> decide
    have hs : ∀ x : Prop, [Decidable x] → (if x then BDNSTAT_UOWN ||| BDNSTAT_DTS ||| BDNSTAT_DTSEN
        else BDNSTAT_UOWN ||| BDNSTAT_DTSEN) &&& BDNSTAT_BSTALL = 0 := by
      intro x _; split <;> decide
    simp [handle_ep0_in, hr, hb, hb256, State.memcpy_to_in, usb_send_in_buffer, usb_in_endpoint_halted, hh,
      State.set_ep_in, SET_BDN, in_packet, buffer_descriptor.UOWN, buffer_descriptor.BSTALL, ite_apply, hu, hs]
    apply map_range_eq_take
    · omega
    · intro j hj
      simp [List.getD_eq_getElem?_getD]
      omega
  · simp [handle_ep0_in, hr, hb, hb256, State.memcpy_to_in, usb_send_in_buffer, usb_in_endpoint_halted, hh,
      State.set_ep_in, SET_BDN]

theorem sie_complete_in_fields (s : State) (ep : Nat) :
    (sie_complete_in s ep).ep0_data_stage_buf_remaining = s.ep0_data_stage_buf_remaining ∧
    (sie_complete_in s ep).ep0_data_stage_in_buffer = s.ep0_data_stage_in_buffer ∧
    (sie_complete_in s ep).ep_buf = s.ep_buf ∧
    (sie_complete_in s ep).control_need_zlp = s.control_need_zlp ∧
    (sie_complete_in s ep).returning_short = s.returning_short :=
  ⟨rfl, rfl, rfl, rfl, rfl⟩

theorem in_data_stage_spec (cfg : Config) (h0 : 0 < cfg.EP_0_LEN) (h1 : cfg.EP_0_LEN < 256) :
    ∀ (fuel : Nat) (s : State) (rest : List Nat),
      usb_in_endpoint_halted s 0 = false →
      s.ep0_data_stage_in_buffer = some rest →
      s.ep0_data_stage_buf_remaining ≤ rest.length →
      s.ep0_data_stage_buf_remaining ≤ fuel →
      (in_data_stage cfg fuel s).2.ep0_data_stage_buf_remaining = 0 ∧
      (in_data_stage cfg fuel s).1.flatten = rest.take s.ep0_data_stage_buf_remaining ∧
      (∀ p ∈ (in_data_stage cfg fuel s).1, p.length ≤ cfg.EP_0_LEN) ∧
      (∀ p ∈ (in_data_stage cfg fuel s).1.dropLast, p.length = cfg.EP_0_LEN) ∧
      ((in_data_stage cfg fuel s).1 = [] ↔ s.ep0_data_stage_buf_remaining = 0) := by
  intro fuel
  induction fuel with
  | zero =>
    intro s rest _ _ _ hf
    have hz : s.ep0_data_stage_buf_remaining = 0 := by omega
    simp [in_data_stage, hz]
  | succ n ih =>
    intro s rest hh hb hl hf
    by_cases hz : s.ep0_data_stage_buf_remaining = 0
    · simp [in_data_stage, hz]
    · obtain ⟨e1, e2, e3, e4, _⟩ := sie_complete_in_fields s 0
      have hh2 : usb_in_endpoint_halted (sie_complete_in s 0) 0 = false := by
        unfold usb_in_endpoint_halted at hh ⊢; rw [e3]; exact hh
      have step := in_step cfg (sie_complete_in s 0) rest h0 h1 hh2 (by rw [e1]; exact hz)
        (by rw [e2]; exact hb) (by rw [e1]; exact hl)
      rw [e1] at step
      obtain ⟨s1, s2, s3, s4⟩ := step
      have ih2 := ih (handle_ep0_in cfg (sie_complete_in s 0))
        (rest.drop (min s.ep0_data_stage_buf_remaining cfg.EP_0_LEN)) s4 s2
        (by rw [s1, List.length_drop]; omega) (by rw [s1]; omega)
      obtain ⟨i1, i2, i3, i4, i5⟩ := ih2
      simp only [in_data_stage, hz, if_false, s3, Option.toList_some, List.singleton_append]
      refine ⟨i1, ?_, ?_, ?_, ?_⟩
      · rw [List.flatten_cons, i2, s1]
        have : s.ep0_data_stage_buf_remaining =
            min s.ep0_data_stage_buf_remaining cfg.EP_0_LEN +
              (s.ep0_data_stage_buf_remaining - min s.ep0_data_stage_buf_remaining cfg.EP_0_LEN) := by
          omega
        conv_rhs => rw [this, List.take_add]
      · intro p hp
        rcases List.mem_cons.1 hp with h | h
        · subst h; simp only [List.length_take]; omega
        · exact i3 p h
      · intro p hp
        by_cases hnil : (in_data_stage cfg n (handle_ep0_in cfg (sie_complete_in s 0))).1 = []
        · rw [hnil] at hp; simp at hp
        · rw [List.dropLast_cons_of_ne_nil hnil] at hp
          rcases List.mem_cons.1 hp with h | h
          · subst h
            have hne : (handle_ep0_in cfg (sie_complete_in s 0)).ep0_data_stage_buf_remaining ≠ 0 :=
              fun h => hnil (i5.2 h)
            rw [s1] at hne
            simp only [List.length_take]; omega
          · exact i4 p h
      · simp [hz]

theorem start_control_return_fields (cfg : Config) (s : State) (ptr : List Nat) (L : Nat)
    (h1 : cfg.EP_0_LEN < 256) :
    (start_control_return cfg s ptr ptr.length L).ep0_data_stage_buf_remaining =
      min L ptr.length - min (min ptr.length cfg.EP_0_LEN) L ∧
    (start_control_return cfg s ptr ptr.length L).ep0_data_stage_in_buffer =
      some (ptr.drop (min (min ptr.length cfg.EP_0_LEN) L)) ∧
    in_packet (start_control_return cfg s ptr ptr.length L) 0 =
      some (ptr.take (min (min ptr.length cfg.EP_0_LEN) L)) ∧
    usb_in_endpoint_halted (start_control_return cfg s ptr ptr.length L) 0 =
      usb_in_endpoint_halted s 0 ∧
    (start_control_return cfg s ptr ptr.length L).returning_short = decide (ptr.length ≠ L) ∧
    (start_control_return cfg s ptr ptr.length L).control_need_zlp = s.control_need_zlp := by
  have hb : min (min ptr.length cfg.EP_0_LEN % 256) L % 256 =
      min (min ptr.length cfg.EP_0_LEN) L := by
    rw [Nat.mod_eq_of_lt (a := min ptr.length cfg.EP_0_LEN) (by omega)]
    exact Nat.mod_eq_of_lt (by omega)
  refine ⟨?_, ?_, ?_, ?_, ?_, ?_⟩
  · simp only [start_control_return, MIN_eq_min, hb, State.memcpy_to_in, State.set_ep_in]
  · simp only [start_control_return, MIN_eq_min, hb, State.memcpy_to_in, State.set_ep_in]
  · simp only [start_control_return, MIN_eq_min, hb, State.memcpy_to_in, State.set_ep_in, SET_BDN,
      in_packet, buffer_descriptor.UOWN, buffer_descriptor.BSTALL]
    simp only [if_true]
    rw [if_pos (by decide)]
    congr 1
    apply map_range_eq_take
    · omega
    · intro j hj
      show (if j < _ then _ else _) = _
      rw [if_pos hj]
      rfl
  · simp [start_control_return, usb_in_endpoint_halted, State.memcpy_to_in, State.set_ep_in]
  · simp [start_control_return, State.memcpy_to_in, State.set_ep_in]
  · simp [start_control_return, State.memcpy_to_in, State.set_ep_in]

/-- C1: an IN data stage started by `start_control_return` on a source buffer `ptr`
(of `ptr.length` bytes) with `L` bytes asked for, and continued by `handle_ep0_in`
at every IN completion while the remaining count is not 0 (endpoint 0 not halted),
ends with the remaining count 0; every packet handed to the hardware has at most
`EP_0_LEN` bytes, every packet before the last has exactly `EP_0_LEN` bytes, and the
packets concatenated are the first `min L ptr.length` bytes of the source. -/
theorem in_data_stage_packets (cfg : Config) (s : State) (ptr : List Nat) (L fuel : Nat)
    (h0 : 0 < cfg.EP_0_LEN) (h1 : cfg.EP_0_LEN < 256)
    (hh : usb_in_endpoint_halted s 0 = false) (hf : min L ptr.length ≤ fuel) :
    (control_return_end cfg fuel s ptr ptr.length L).ep0_data_stage_buf_remaining = 0 ∧
    (∀ p ∈ control_return_packets cfg fuel s ptr ptr.length L, p.length ≤ cfg.EP_0_LEN) ∧
    (∀ p ∈ (control_return_packets cfg fuel s ptr ptr.length L).dropLast,
      p.length = cfg.EP_0_LEN) ∧
    (control_return_packets cfg fuel s ptr ptr.length L).flatten = ptr.take (min L ptr.length) := by
  obtain ⟨f1, f2, f3, f4, _, _⟩ := start_control_return_fields cfg s ptr L h1
  have spec := in_data_stage_spec cfg h0 h1 fuel (start_control_return cfg s ptr ptr.length L)
    (ptr.drop (min (min ptr.length cfg.EP_0_LEN) L)) (by rw [f4]; exact hh) f2
    (by rw [f1, List.length_drop]; omega) (by rw [f1]; omega)
  obtain ⟨i1, i2, i3, i4, i5⟩ := spec
  unfold control_return_end control_return_packets
  rw [f3]
  simp only [Option.toList_some, List.singleton_append]
  refine ⟨i1, ?_, ?_, ?_⟩
  · intro p hp
    rcases List.mem_cons.1 hp with h | h
    · subst h; simp only [List.length_take]; omega
    · exact i3 p h
  · intro p hp
    by_cases hnil : (in_data_stage cfg fuel (start_control_return cfg s ptr ptr.length L)).1 = []
    · rw [hnil] at hp; simp at hp
    · rw [List.dropLast_cons_of_ne_nil hnil] at hp
      rcases List.mem_cons.1 hp with h | h
      · subst h
        have hne : (start_control_return cfg s ptr ptr.length L).ep0_data_stage_buf_remaining ≠ 0 :=
          fun h => hnil (i5.2 h)
        rw [f1] at hne
        simp only [List.length_take]; omega
      · exact i4 p h
  · rw [List.flatten_cons, i2, f1]
    have : min L ptr.length = min (min ptr.length cfg.EP_0_LEN) L +
        (min L ptr.length - min (min ptr.length cfg.EP_0_LEN) L) := by omega
    conv_rhs => rw [this, List.take_add]

/-- Witness of C1: the 18-byte device descriptor, 64 bytes asked for, 8-byte packets. -/
theorem in_data_stage_packets_witness :
    (0 < demo_config.EP_0_LEN ∧ demo_config.EP_0_LEN < 256 ∧
      usb_in_endpoint_halted power_on 0 = false ∧
      min 64 demo_config.USB_DEVICE_DESCRIPTOR.length ≤ 18) ∧
    (control_return_packets demo_config 18 power_on demo_config.USB_DEVICE_DESCRIPTOR
      demo_config.USB_DEVICE_DESCRIPTOR.length 64).flatten =
      demo_config.USB_DEVICE_DESCRIPTOR.take (min 64 demo_config.USB_DEVICE_DESCRIPTOR.length) :=
  ⟨by decide,
    (in_data_stage_packets demo_config power_on demo_config.USB_DEVICE_DESCRIPTOR 64 18
      (by decide) (by decide) (by decide) (by decide)).2.2.2⟩

/-- C2, the code at two inputs with 8-byte packets. (1) 24 bytes available, 16 asked
for: the two data packets carry all 16 bytes asked for, and still the next IN
completion hands a zero-length packet to the hardware. (2) 8 bytes available, 16
asked for: the single full packet carries fewer bytes than asked for, and the next
IN completion hands nothing to the hardware. -/
theorem trailing_zlp_at_failing_inputs :
    (control_return_packets demo_config 24 power_on (List.range 24) 24 16 =
        [[0, 1, 2, 3, 4, 5, 6, 7], [8, 9, 10, 11, 12, 13, 14, 15]] ∧
      in_packet (handle_ep0_in demo_config
        (sie_complete_in (control_return_end demo_config 24 power_on (List.range 24) 24 16) 0)) 0 =
        some [] ∧
      ¬ (min 16 24 < 16)) ∧
    (control_return_packets demo_config 24 power_on (List.range 8) 8 16 =
        [[0, 1, 2, 3, 4, 5, 6, 7]] ∧
      in_packet (handle_ep0_in demo_config
        (sie_complete_in (control_return_end demo_config 24 power_on (List.range 8) 8 16) 0)) 0 =
        none ∧
      (min 16 8 < 16 ∧ min 16 8 ≠ 0 ∧ min 16 8 % demo_config.EP_0_LEN = 0)) := by
  decide


/-! ## The OUT data stage -/

theorem map_range_getD (p : List Nat) (g : Nat → Nat) (b : Nat) (hb : b ≤ p.length) :
    (List.range b).map (fun j => p.getD j (g j)) = p.take b := by
  apply List.ext_getElem
  · simp [hb]
  · intro i h1 h2
    simp at h1 h2
    simp [List.getD_eq_getElem?_getD, List.getElem?_eq_getElem (show i < p.length by omega)]

theorem writes_append (a b : List Event) : writes (a ++ b) = writes a ++ writes b := by
  induction a with
  | nil => rfl
  | cons e t ih => cases e <;> simp [writes, ih]

theorem callbacks_append (a b : List Event) : callbacks (a ++ b) = callbacks a ++ callbacks b := by
  induction a with
  | nil => rfl
  | cons e t ih => cases e <;> simp [callbacks, ih]

/-- An OUT packet while the recorded direction is IN: nothing is copied. -/
theorem out_step_direc_in (cfg : Config) (s : State) (p : List Nat)
    (hd : s.ep0_data_stage_direc = 1) :
    (ep0_out_packet cfg s p).ep0_data_stage_out_buffer = none ∧
    writes (ep0_out_packet cfg s p).trace = writes s.trace ∧
    (ep0_out_packet cfg s p).ep0_data_stage_direc = 1 := by
  refine ⟨?_, ?_, ?_⟩
  · simp [ep0_out_packet, handle_ep0_out, sie_receive_ep0, State.set_out_bytes, State.set_ep_out, hd,
      reset_ep0_data_stage]
  · simp only [ep0_out_packet, handle_ep0_out, sie_receive_ep0, State.set_out_bytes, State.set_ep_out, hd,
      reset_ep0_data_stage, notify_callback, if_true]
    cases s.ep0_data_stage_callback <;> simp [State.emit, writes_append, writes]
  · simp [ep0_out_packet, handle_ep0_out, sie_receive_ep0, State.set_out_bytes, State.set_ep_out, hd,
      reset_ep0_data_stage, notify_callback]
    cases s.ep0_data_stage_callback <;> simp [State.emit, hd]

/-- An OUT packet while no receive buffer is set and the direction is not IN: the
engine state does not change. -/
theorem out_step_no_buffer (cfg : Config) (s : State) (p : List Nat)
    (hd : s.ep0_data_stage_direc ≠ 1) (hb : s.ep0_data_stage_out_buffer = none) :
    (ep0_out_packet cfg s p).ep0_data_stage_out_buffer = none ∧
    (ep0_out_packet cfg s p).trace = s.trace ∧
    (ep0_out_packet cfg s p).ep0_data_stage_direc = s.ep0_data_stage_direc ∧
    ((ep0_out_packet cfg s p).bds 0).ep_in = (s.bds 0).ep_in := by
  simp [ep0_out_packet, handle_ep0_out, sie_receive_ep0, State.set_out_bytes, State.set_ep_out, hd, hb]

/-- An OUT packet that fits the remaining capacity: it is copied whole. -/
theorem out_step_fit (cfg : Config) (s : State) (p : List Nat) (d : Nat)
    (h1 : cfg.EP_0_LEN < 256) (hp : p.length ≤ cfg.EP_0_LEN)
    (hd : s.ep0_data_stage_direc ≠ 1) (hb : s.ep0_data_stage_out_buffer = some d)
    (hfit : p.length ≤ s.ep0_data_stage_buf_remaining) :
    (ep0_out_packet cfg s p).ep0_data_stage_out_buffer = some (d + p.length) ∧
    (ep0_out_packet cfg s p).ep0_data_stage_buf_remaining =
      s.ep0_data_stage_buf_remaining - p.length ∧
    (ep0_out_packet cfg s p).trace = s.trace ++ [.memcpy_out d p] ∧
    (ep0_out_packet cfg s p).ep0_data_stage_direc = s.ep0_data_stage_direc ∧
    (ep0_out_packet cfg s p).ep0_data_stage_callback = s.ep0_data_stage_callback ∧
    (ep0_out_packet cfg s p).ep0_data_stage_context = s.ep0_data_stage_context := by
  have hlen : p.length % 256 = p.length := Nat.mod_eq_of_lt (by omega)
  have hmin : min p.length s.ep0_data_stage_buf_remaining = p.length := Nat.min_eq_left hfit
  have hcopy : (List.range p.length).map (fun j => p[j]?.getD ((s.ep_buf 0).out j)) = p := by
    have := map_range_getD p (fun j => (s.ep_buf 0).out j) p.length (le_refl _)
    simpa [List.getD_eq_getElem?_getD] using this
  refine ⟨?_, ?_, ?_, ?_, ?_, ?_⟩ <;>
  simp [ep0_out_packet, handle_ep0_out, sie_receive_ep0, State.set_out_bytes, State.set_ep_out,
    BDN_LENGTH, MIN_eq_min, hd, hb, hlen, hmin, State.emit,
    send_zero_length_packet_ep0, State.set_ep_in, SET_BDN, hcopy]

/-- An OUT packet longer than the remaining capacity: the part that fits is copied,
endpoint 0 is stalled, the callback is called with failure and the cursor is reset. -/
theorem out_step_overflow (cfg : Config) (s : State) (p : List Nat) (d : Nat)
    (h1 : cfg.EP_0_LEN < 256) (hp : p.length ≤ cfg.EP_0_LEN)
    (hd : s.ep0_data_stage_direc ≠ 1) (hb : s.ep0_data_stage_out_buffer = some d)
    (hover : s.ep0_data_stage_buf_remaining < p.length) :
    (ep0_out_packet cfg s p).ep0_data_stage_out_buffer = none ∧
    (ep0_out_packet cfg s p).trace =
      s.trace ++ [.memcpy_out d (p.take s.ep0_data_stage_buf_remaining),
        .callback s.ep0_data_stage_callback false s.ep0_data_stage_context] ∧
    (ep0_out_packet cfg s p).ep0_data_stage_direc = s.ep0_data_stage_direc ∧
    ep0_stalled cfg (ep0_out_packet cfg s p) := by
  have hlen : p.length % 256 = p.length := Nat.mod_eq_of_lt (by omega)
  have hmin : min p.length s.ep0_data_stage_buf_remaining = s.ep0_data_stage_buf_remaining :=
    Nat.min_eq_right (by omega)
  have hrem : s.ep0_data_stage_buf_remaining % 256 = s.ep0_data_stage_buf_remaining :=
    Nat.mod_eq_of_lt (by omega)
  have hcopy : (List.range s.ep0_data_stage_buf_remaining).map
      (fun j => p[j]?.getD ((s.ep_buf 0).out j)) = p.take s.ep0_data_stage_buf_remaining := by
    have := map_range_getD p (fun j => (s.ep_buf 0).out j) s.ep0_data_stage_buf_remaining
      (by omega)
    simpa [List.getD_eq_getElem?_getD] using this
  refine ⟨?_, ?_, ?_, ?_⟩ <;>
  simp [ep0_out_packet, handle_ep0_out, sie_receive_ep0, State.set_out_bytes, State.set_ep_out,
    BDN_LENGTH, MIN_eq_min, hd, hb, hlen, hmin, hrem, hover, State.emit, stall_ep0, ep0_stalled,
    reset_ep0_data_stage, State.set_ep_in, SET_BDN, hcopy]

theorem written_snoc (w : List (Nat × List Nat)) (d : Nat) (x : List Nat) :
    written (w ++ [(d, x)]) = written w ++ x := by
  simp [written]

theorem contiguous_snoc (w : List (Nat × List Nat)) (x : List Nat) :
    ∀ base, contiguous base w → contiguous base (w ++ [(base + (written w).length, x)]) := by
  induction w with
  | nil => intro base _; simp [contiguous, written]
  | cons a t ih =>
    intro base h
    obtain ⟨d, bytes⟩ := a
    obtain ⟨h1, h2⟩ := h
    refine ⟨h1, ?_⟩
    have := ih (base + bytes.length) h2
    have e : base + (written ((d, bytes) :: t)).length =
        base + bytes.length + (written t).length := by
      simp [written]; omega
    rw [e]
    exact this

theorem out_stage_copy_inv (cfg : Config) (h1 : cfg.EP_0_LEN < 256) (base cap : Nat)
    (pre : List (Nat × List Nat)) :
    ∀ (pkts : List (List Nat)) (t : State) (w : List (Nat × List Nat)),
      (∀ p ∈ pkts, p.length ≤ cfg.EP_0_LEN) →
      writes t.trace = pre ++ w → contiguous base w →
      ((t.ep0_data_stage_out_buffer = none ∧ (written w).length ≤ cap) ∨
        (t.ep0_data_stage_out_buffer = some (base + (written w).length) ∧
          (written w).length + t.ep0_data_stage_buf_remaining = cap)) →
      ∃ w', writes (ep0_out_packets cfg t pkts).trace = pre ++ w' ∧ contiguous base w' ∧
        (written w').length ≤ cap ∧
        (∃ rest, written w' = written w ++ rest ∧ rest <+: pkts.flatten) ∧
        (t.ep0_data_stage_out_buffer = none → w' = w) := by
  intro pkts
  induction pkts with
  | nil =>
    intro t w _ hw hc hst
    refine ⟨w, hw, hc, ?_, ⟨[], by simp, by simp⟩, fun _ => rfl⟩
    rcases hst with h | h <;> omega
  | cons p ps ih =>
    intro t w hlen hw hc hst
    have hp : p.length ≤ cfg.EP_0_LEN := hlen p (List.mem_cons_self _ _)
    have hps : ∀ q ∈ ps, q.length ≤ cfg.EP_0_LEN := fun q hq => hlen q (List.mem_cons_of_mem _ hq)
    have dead : ∀ t1 : State, t1.ep0_data_stage_out_buffer = none → writes t1.trace = pre ++ w →
        (written w).length ≤ cap →
        ∃ w', writes (ep0_out_packets cfg t1 ps).trace = pre ++ w' ∧ contiguous base w' ∧
          (written w').length ≤ cap ∧
          (∃ rest, written w' = written w ++ rest ∧ rest <+: (p :: ps).flatten) ∧
          (t.ep0_data_stage_out_buffer = none → w' = w) := by
      intro t1 hn hw1 hcap
      obtain ⟨w', a1, a2, a3, _, a5⟩ := ih t1 w hps hw1 hc (Or.inl ⟨hn, hcap⟩)
      have e := a5 hn
      subst e
      exact ⟨w', a1, a2, a3, ⟨[], by simp, by simp⟩, fun _ => rfl⟩
    show ∃ w', writes (ep0_out_packets cfg (ep0_out_packet cfg t p) ps).trace = pre ++ w' ∧ _
    by_cases hd : t.ep0_data_stage_direc = 1
    · obtain ⟨s1, s2, _⟩ := out_step_direc_in cfg t p hd
      exact dead _ s1 (by rw [s2]; exact hw) (by rcases hst with h | h <;> omega)
    · rcases hst with ⟨hn, hcap⟩ | ⟨hb, hcap⟩
      · obtain ⟨s1, s2, _, _⟩ := out_step_no_buffer cfg t p hd hn
        exact dead _ s1 (by rw [s2]; exact hw) hcap
      · by_cases hfit : p.length ≤ t.ep0_data_stage_buf_remaining
        · obtain ⟨s1, s2, s3, _, _, _⟩ := out_step_fit cfg t p _ h1 hp hd hb hfit
          have hw1 : writes (ep0_out_packet cfg t p).trace =
              pre ++ (w ++ [(base + (written w).length, p)]) := by
            rw [s3, writes_append, hw]; simp [writes]
          obtain ⟨w', a1, a2, a3, ⟨rest, a4, a4'⟩, _⟩ := ih (ep0_out_packet cfg t p)
            (w ++ [(base + (written w).length, p)]) hps hw1 (contiguous_snoc w p base hc)
            (Or.inr ⟨by rw [s1, written_snoc, List.length_append]; congr 1; omega,
              by rw [s2, written_snoc, List.length_append]; omega⟩)
          refine ⟨w', a1, a2, a3, ⟨p ++ rest, ?_, ?_⟩, ?_⟩
          · rw [a4, written_snoc, List.append_assoc]
          · rw [List.flatten_cons]
            exact (List.prefix_append_right_inj p).2 a4'
          · intro h; rw [hb] at h; cases h
        · obtain ⟨s1, s2, _, _⟩ := out_step_overflow cfg t p _ h1 hp hd hb (by omega)
          have hw1 : writes (ep0_out_packet cfg t p).trace =
              pre ++ (w ++ [(base + (written w).length,
                p.take t.ep0_data_stage_buf_remaining)]) := by
            rw [s2, writes_append, hw]; simp [writes]
          have hcap1 : (written (w ++ [(base + (written w).length,
              p.take t.ep0_data_stage_buf_remaining)])).length ≤ cap := by
            rw [written_snoc, List.length_append, List.length_take]; omega
          obtain ⟨w', a1, a2, a3, _, a5⟩ := ih (ep0_out_packet cfg t p) _ hps hw1
            (contiguous_snoc w _ base hc) (Or.inl ⟨s1, hcap1⟩)
          have e := a5 s1
          subst e
          refine ⟨_, a1, a2, a3, ⟨p.take t.ep0_data_stage_buf_remaining, written_snoc _ _ _, ?_⟩, ?_⟩
          · rw [List.flatten_cons]
            exact ( List.take_prefix _ p).trans (List.prefix_append _ _)
          · intro h; rw [hb] at h; cases h


/-- C3: in an OUT data stage started by `usb_start_receive_ep0_data_stage` with a
buffer at `base` of capacity `cap`, whatever OUT packets `handle_ep0_out` handles
afterwards (each no longer than `EP_0_LEN`, the count the OUT descriptor is armed
with), the `memcpy` calls into the buffer are contiguous from `base`, their total
length never exceeds `cap`, and the bytes copied are a prefix of the concatenation
of the packet payloads. -/
theorem out_data_stage_within_capacity (cfg : Config) (s : State) (base cap : Nat)
    (callback : Option Nat) (context : Nat) (pkts : List (List Nat))
    (h1 : cfg.EP_0_LEN < 256) (hlen : ∀ p ∈ pkts, p.length ≤ cfg.EP_0_LEN) :
    contiguous base (writes_since s (ep0_out_packets cfg
      (usb_start_receive_ep0_data_stage s (some base) cap callback context) pkts)) ∧
    (written (writes_since s (ep0_out_packets cfg
      (usb_start_receive_ep0_data_stage s (some base) cap callback context) pkts))).length ≤ cap ∧
    written (writes_since s (ep0_out_packets cfg
      (usb_start_receive_ep0_data_stage s (some base) cap callback context) pkts)) <+:
      pkts.flatten := by
  obtain ⟨w, a1, a2, a3, ⟨rest, a4, a5⟩, _⟩ := out_stage_copy_inv cfg h1 base cap (writes s.trace) pkts
    (usb_start_receive_ep0_data_stage s (some base) cap callback context) [] hlen
    (by simp [usb_start_receive_ep0_data_stage, reset_ep0_data_stage]) trivial
    (Or.inr ⟨by simp [usb_start_receive_ep0_data_stage, reset_ep0_data_stage, written],
      by simp [usb_start_receive_ep0_data_stage, reset_ep0_data_stage, written]⟩)
  have e : writes_since s (ep0_out_packets cfg
      (usb_start_receive_ep0_data_stage s (some base) cap callback context) pkts) = w := by
    unfold writes_since; rw [a1]; simp
  rw [e]
  refine ⟨a2, a3, ?_⟩
  rw [a4]
  simpa [written] using a5

/-- Witness of C3: capacity 10, two 8-byte packets. -/
theorem out_data_stage_within_capacity_witness :
    (demo_config.EP_0_LEN < 256 ∧
      ∀ p ∈ [[1, 2, 3, 4, 5, 6, 7, 8], [9, 10, 11, 12, 13, 14, 15, 16]],
        p.length ≤ demo_config.EP_0_LEN) ∧
    (written (writes_since power_on (ep0_out_packets demo_config
      (usb_start_receive_ep0_data_stage power_on (some 0x100) 10 (some 1) 7)
      [[1, 2, 3, 4, 5, 6, 7, 8], [9, 10, 11, 12, 13, 14, 15, 16]]))).length ≤ 10 :=
  ⟨by decide,
    (out_data_stage_within_capacity demo_config power_on 0x100 10 (some 1) 7
      [[1, 2, 3, 4, 5, 6, 7, 8], [9, 10, 11, 12, 13, 14, 15, 16]] (by decide) (by decide)).2.1⟩

theorem out_stage_dead (cfg : Config) :
    ∀ (pkts : List (List Nat)) (t : State),
      t.ep0_data_stage_direc ≠ 1 → t.ep0_data_stage_out_buffer = none →
      (ep0_out_packets cfg t pkts).trace = t.trace ∧
      ((ep0_out_packets cfg t pkts).bds 0).ep_in = (t.bds 0).ep_in := by
  intro pkts
  induction pkts with
  | nil => intro t _ _; exact ⟨rfl, rfl⟩
  | cons p ps ih =>
    intro t hd hn
    obtain ⟨s1, s2, s3, s4⟩ := out_step_no_buffer cfg t p hd hn
    obtain ⟨i1, i2⟩ := ih (ep0_out_packet cfg t p) (by rw [s3]; exact hd) s1
    exact ⟨by show (ep0_out_packets cfg (ep0_out_packet cfg t p) ps).trace = _; rw [i1, s2],
      by show ((ep0_out_packets cfg (ep0_out_packet cfg t p) ps).bds 0).ep_in = _; rw [i2, s4]⟩

theorem out_stage_overflow (cfg : Config) (h1 : cfg.EP_0_LEN < 256) :
    ∀ (pkts : List (List Nat)) (t : State) (d : Nat),
      (∀ p ∈ pkts, p.length ≤ cfg.EP_0_LEN) →
      t.ep0_data_stage_direc ≠ 1 → t.ep0_data_stage_out_buffer = some d →
      t.ep0_data_stage_buf_remaining < pkts.flatten.length →
      ep0_stalled cfg (ep0_out_packets cfg t pkts) ∧
      callbacks (ep0_out_packets cfg t pkts).trace =
        callbacks t.trace ++ [(t.ep0_data_stage_callback, false, t.ep0_data_stage_context)] ∧
      written (writes (ep0_out_packets cfg t pkts).trace) =
        written (writes t.trace) ++ pkts.flatten.take t.ep0_data_stage_buf_remaining := by
  intro pkts
  induction pkts with
  | nil => intro t d _ _ _ h; simp at h
  | cons p ps ih =>
    intro t d hlen hd hb hover
    have hp : p.length ≤ cfg.EP_0_LEN := hlen p (List.mem_cons_self _ _)
    have hps : ∀ q ∈ ps, q.length ≤ cfg.EP_0_LEN := fun q hq => hlen q (List.mem_cons_of_mem _ hq)
    rw [List.flatten_cons, List.length_append] at hover
    show ep0_stalled cfg (ep0_out_packets cfg (ep0_out_packet cfg t p) ps) ∧
      callbacks (ep0_out_packets cfg (ep0_out_packet cfg t p) ps).trace = _ ∧
      written (writes (ep0_out_packets cfg (ep0_out_packet cfg t p) ps).trace) = _
    by_cases hfit : p.length ≤ t.ep0_data_stage_buf_remaining
    · obtain ⟨s1, s2, s3, s4, s5, s6⟩ := out_step_fit cfg t p d h1 hp hd hb hfit
      obtain ⟨i1, i2, i3⟩ := ih (ep0_out_packet cfg t p) _ hps (by rw [s4]; exact hd) s1
        (by rw [s2]; omega)
      refine ⟨i1, ?_, ?_⟩
      · rw [i2, s3, s5, s6, callbacks_append]; simp [callbacks]
      · rw [i3, s3, s2, writes_append, List.flatten_cons, List.take_append_eq_append_take,
          List.take_of_length_le hfit]
        simp [writes, written]
    · obtain ⟨s1, s2, s3, s4⟩ := out_step_overflow cfg t p d h1 hp hd hb (by omega)
      obtain ⟨i1, i2⟩ := out_stage_dead cfg ps (ep0_out_packet cfg t p) (by rw [s3]; exact hd) s1
      refine ⟨?_, ?_, ?_⟩
      · unfold ep0_stalled at s4 ⊢; rw [i2]; exact s4
      · rw [i1, s2, callbacks_append]; simp [callbacks]
      · rw [i1, s2, writes_append, List.flatten_cons, List.take_append_of_le_length (by omega)]
        simp [writes, written]

/-- C4: in an OUT data stage (the recorded direction is OUT) started by
`usb_start_receive_ep0_data_stage` with capacity `cap`, when the OUT packets
handled by `handle_ep0_out` (each no longer than `EP_0_LEN`, the count the OUT
descriptor is armed with) carry more than `cap` bytes in total, endpoint 0 ends
stalled, the bytes copied are exactly the first `cap` bytes (the surplus is
dropped), and the callback is invoked exactly once for the transfer, with the
failure indication. -/
theorem out_data_stage_overflow (cfg : Config) (s : State) (base cap : Nat)
    (callback : Option Nat) (context : Nat) (pkts : List (List Nat))
    (h1 : cfg.EP_0_LEN < 256) (hlen : ∀ p ∈ pkts, p.length ≤ cfg.EP_0_LEN)
    (hd : s.ep0_data_stage_direc = 0) (hover : cap < pkts.flatten.length) :
    ep0_stalled cfg (ep0_out_packets cfg
      (usb_start_receive_ep0_data_stage s (some base) cap callback context) pkts) ∧
    written (writes_since s (ep0_out_packets cfg
      (usb_start_receive_ep0_data_stage s (some base) cap callback context) pkts)) =
      pkts.flatten.take cap ∧
    callbacks_since s (ep0_out_packets cfg
      (usb_start_receive_ep0_data_stage s (some base) cap callback context) pkts) =
      [(callback, false, context)] := by
  obtain ⟨a1, a2, a3⟩ := out_stage_overflow cfg h1 pkts
    (usb_start_receive_ep0_data_stage s (some base) cap callback context) base hlen
    (by simp [usb_start_receive_ep0_data_stage, reset_ep0_data_stage, hd]) rfl hover
  refine ⟨a1, ?_, ?_⟩
  · obtain ⟨w, b1, _, _, _, _⟩ := out_stage_copy_inv cfg h1 base cap (writes s.trace) pkts
      (usb_start_receive_ep0_data_stage s (some base) cap callback context) [] hlen
      (by simp [usb_start_receive_ep0_data_stage, reset_ep0_data_stage]) trivial
      (Or.inr ⟨by simp [usb_start_receive_ep0_data_stage, reset_ep0_data_stage, written],
        by simp [usb_start_receive_ep0_data_stage, reset_ep0_data_stage, written]⟩)
    have e : writes_since s (ep0_out_packets cfg
        (usb_start_receive_ep0_data_stage s (some base) cap callback context) pkts) = w := by
      unfold writes_since; rw [b1]; simp
    rw [e]
    rw [b1] at a3
    have e2 : written (writes s.trace ++ w) = written (writes s.trace) ++ written w := by
      simp [written]
    rw [e2] at a3
    have a4 := List.append_cancel_left a3
    rw [a4]
    simp [usb_start_receive_ep0_data_stage, reset_ep0_data_stage]
  · unfold callbacks_since
    rw [a2]
    simp [usb_start_receive_ep0_data_stage, reset_ep0_data_stage]

/-- Witness of C4: capacity 10, two 8-byte packets, callback 1 with context 7. -/
theorem out_data_stage_overflow_witness :
    (demo_config.EP_0_LEN < 256 ∧
      (∀ p ∈ [[1, 2, 3, 4, 5, 6, 7, 8], [9, 10, 11, 12, 13, 14, 15, 16]],
        p.length ≤ demo_config.EP_0_LEN) ∧
      power_on.ep0_data_stage_direc = 0 ∧
      10 < [[1, 2, 3, 4, 5, 6, 7, 8], [9, 10, 11, 12, 13, 14, 15, 16]].flatten.length) ∧
    callbacks_since power_on (ep0_out_packets demo_config
      (usb_start_receive_ep0_data_stage power_on (some 0x100) 10 (some 1) 7)
      [[1, 2, 3, 4, 5, 6, 7, 8], [9, 10, 11, 12, 13, 14, 15, 16]]) = [(some 1, false, 7)] :=
  ⟨by decide,
    (out_data_stage_overflow demo_config power_on 0x100 10 (some 1) 7
      [[1, 2, 3, 4, 5, 6, 7, 8], [9, 10, 11, 12, 13, 14, 15, 16]]
      (by decide) (by decide) (by decide) (by decide)).2.2⟩

/-! ## Fields that an operation leaves unchanged -/

@[simp]
theorem State.set_ep_in_frame (s : State) (ep : Nat) (bd : buffer_descriptor) :
    (s.set_ep_in ep bd).ep_buf = s.ep_buf ∧ (s.set_ep_in ep bd).SFR_USB_ADDR = s.SFR_USB_ADDR ∧
    (s.set_ep_in ep bd).addr_pending = s.addr_pending ∧ (s.set_ep_in ep bd).addr = s.addr ∧
    (s.set_ep_in ep bd).g_configuration = s.g_configuration ∧
    (s.set_ep_in ep bd).control_need_zlp = s.control_need_zlp ∧
    (s.set_ep_in ep bd).returning_short = s.returning_short ∧
    (s.set_ep_in ep bd).ep0_data_stage_callback = s.ep0_data_stage_callback ∧
    (s.set_ep_in ep bd).ep0_data_stage_in_buffer = s.ep0_data_stage_in_buffer ∧
    (s.set_ep_in ep bd).ep0_data_stage_out_buffer = s.ep0_data_stage_out_buffer ∧
    (s.set_ep_in ep bd).ep0_data_stage_buf_remaining = s.ep0_data_stage_buf_remaining ∧
    (s.set_ep_in ep bd).ep0_data_stage_context = s.ep0_data_stage_context ∧
    (s.set_ep_in ep bd).ep0_data_stage_direc = s.ep0_data_stage_direc ∧
    (s.set_ep_in ep bd).trace = s.trace :=
  ⟨rfl, rfl, rfl, rfl, rfl, rfl, rfl, rfl, rfl, rfl, rfl, rfl, rfl, rfl⟩

@[simp]
theorem State.set_ep_out_frame (s : State) (ep : Nat) (bd : buffer_descriptor) :
    (s.set_ep_out ep bd).ep_buf = s.ep_buf ∧ (s.set_ep_out ep bd).SFR_USB_ADDR = s.SFR_USB_ADDR ∧
    (s.set_ep_out ep bd).addr_pending = s.addr_pending ∧ (s.set_ep_out ep bd).addr = s.addr ∧
    (s.set_ep_out ep bd).g_configuration = s.g_configuration ∧
    (s.set_ep_out ep bd).control_need_zlp = s.control_need_zlp ∧
    (s.set_ep_out ep bd).returning_short = s.returning_short ∧
    (s.set_ep_out ep bd).ep0_data_stage_callback = s.ep0_data_stage_callback ∧
    (s.set_ep_out ep bd).ep0_data_stage_in_buffer = s.ep0_data_stage_in_buffer ∧
    (s.set_ep_out ep bd).ep0_data_stage_out_buffer = s.ep0_data_stage_out_buffer ∧
    (s.set_ep_out ep bd).ep0_data_stage_buf_remaining = s.ep0_data_stage_buf_remaining ∧
    (s.set_ep_out ep bd).ep0_data_stage_context = s.ep0_data_stage_context ∧
    (s.set_ep_out ep bd).ep0_data_stage_direc = s.ep0_data_stage_direc ∧
    (s.set_ep_out ep bd).trace = s.trace :=
  ⟨rfl, rfl, rfl, rfl, rfl, rfl, rfl, rfl, rfl, rfl, rfl, rfl, rfl, rfl⟩

@[simp]
theorem State.set_flags_frame (s : State) (ep v : Nat) :
    (s.set_flags ep v).bds = s.bds ∧ (s.set_flags ep v).SFR_USB_ADDR = s.SFR_USB_ADDR ∧
    (s.set_flags ep v).addr_pending = s.addr_pending ∧ (s.set_flags ep v).addr = s.addr ∧
    (s.set_flags ep v).g_configuration = s.g_configuration ∧
    (s.set_flags ep v).control_need_zlp = s.control_need_zlp ∧
    (s.set_flags ep v).returning_short = s.returning_short ∧
    (s.set_flags ep v).ep0_data_stage_callback = s.ep0_data_stage_callback ∧
    (s.set_flags ep v).ep0_data_stage_in_buffer = s.ep0_data_stage_in_buffer ∧
    (s.set_flags ep v).ep0_data_stage_out_buffer = s.ep0_data_stage_out_buffer ∧
    (s.set_flags ep v).ep0_data_stage_buf_remaining = s.ep0_data_stage_buf_remaining ∧
    (s.set_flags ep v).ep0_data_stage_context = s.ep0_data_stage_context ∧
    (s.set_flags ep v).ep0_data_stage_direc = s.ep0_data_stage_direc ∧
    (s.set_flags ep v).trace = s.trace :=
  ⟨rfl, rfl, rfl, rfl, rfl, rfl, rfl, rfl, rfl, rfl, rfl, rfl, rfl, rfl⟩

@[simp]
theorem State.set_in_byte_frame (s : State) (ep k v : Nat) :
    (s.set_in_byte ep k v).bds = s.bds ∧ (s.set_in_byte ep k v).SFR_USB_ADDR = s.SFR_USB_ADDR ∧
    (s.set_in_byte ep k v).addr_pending = s.addr_pending ∧ (s.set_in_byte ep k v).addr = s.addr ∧
    (s.set_in_byte ep k v).g_configuration = s.g_configuration ∧
    (s.set_in_byte ep k v).control_need_zlp = s.control_need_zlp ∧
    (s.set_in_byte ep k v).returning_short = s.returning_short ∧
    (s.set_in_byte ep k v).ep0_data_stage_callback = s.ep0_data_stage_callback ∧
    (s.set_in_byte ep k v).ep0_data_stage_in_buffer = s.ep0_data_stage_in_buffer ∧
    (s.set_in_byte ep k v).ep0_data_stage_out_buffer = s.ep0_data_stage_out_buffer ∧
    (s.set_in_byte ep k v).ep0_data_stage_buf_remaining = s.ep0_data_stage_buf_remaining ∧
    (s.set_in_byte ep k v).ep0_data_stage_context = s.ep0_data_stage_context ∧
    (s.set_in_byte ep k v).ep0_data_stage_direc = s.ep0_data_stage_direc ∧
    (s.set_in_byte ep k v).trace = s.trace :=
  ⟨rfl, rfl, rfl, rfl, rfl, rfl, rfl, rfl, rfl, rfl, rfl, rfl, rfl, rfl⟩

@[simp]
theorem State.memcpy_to_in_frame (s : State) (ep : Nat) (src : Option (List Nat)) (n : Nat) :
    (s.memcpy_to_in ep src n).bds = s.bds ∧
    (s.memcpy_to_in ep src n).SFR_USB_ADDR = s.SFR_USB_ADDR ∧
    (s.memcpy_to_in ep src n).addr_pending = s.addr_pending ∧
    (s.memcpy_to_in ep src n).addr = s.addr ∧
    (s.memcpy_to_in ep src n).g_configuration = s.g_configuration ∧
    (s.memcpy_to_in ep src n).control_need_zlp = s.control_need_zlp ∧
    (s.memcpy_to_in ep src n).returning_short = s.returning_short ∧
    (s.memcpy_to_in ep src n).ep0_data_stage_callback = s.ep0_data_stage_callback ∧
    (s.memcpy_to_in ep src n).ep0_data_stage_in_buffer = s.ep0_data_stage_in_buffer ∧
    (s.memcpy_to_in ep src n).ep0_data_stage_out_buffer = s.ep0_data_stage_out_buffer ∧
    (s.memcpy_to_in ep src n).ep0_data_stage_buf_remaining = s.ep0_data_stage_buf_remaining ∧
    (s.memcpy_to_in ep src n).ep0_data_stage_context = s.ep0_data_stage_context ∧
    (s.memcpy_to_in ep src n).ep0_data_stage_direc = s.ep0_data_stage_direc ∧
    (s.memcpy_to_in ep src n).trace = s.trace :=
  ⟨rfl, rfl, rfl, rfl, rfl, rfl, rfl, rfl, rfl, rfl, rfl, rfl, rfl, rfl⟩

@[simp]
theorem State.set_out_bytes_frame (s : State) (ep : Nat) (data : List Nat) :
    (s.set_out_bytes ep data).bds = s.bds ∧
    (s.set_out_bytes ep data).SFR_USB_ADDR = s.SFR_USB_ADDR ∧
    (s.set_out_bytes ep data).addr_pending = s.addr_pending ∧
    (s.set_out_bytes ep data).addr = s.addr ∧
    (s.set_out_bytes ep data).g_configuration = s.g_configuration ∧
    (s.set_out_bytes ep data).control_need_zlp = s.control_need_zlp ∧
    (s.set_out_bytes ep data).returning_short = s.returning_short ∧
    (s.set_out_bytes ep data).ep0_data_stage_callback = s.ep0_data_stage_callback ∧
    (s.set_out_bytes ep data).ep0_data_stage_in_buffer = s.ep0_data_stage_in_buffer ∧
    (s.set_out_bytes ep data).ep0_data_stage_out_buffer = s.ep0_data_stage_out_buffer ∧
    (s.set_out_bytes ep data).ep0_data_stage_buf_remaining = s.ep0_data_stage_buf_remaining ∧
    (s.set_out_bytes ep data).ep0_data_stage_context = s.ep0_data_stage_context ∧
    (s.set_out_bytes ep data).ep0_data_stage_direc = s.ep0_data_stage_direc ∧
    (s.set_out_bytes ep data).trace = s.trace :=
  ⟨rfl, rfl, rfl, rfl, rfl, rfl, rfl, rfl, rfl, rfl, rfl, rfl, rfl, rfl⟩

@[simp]
theorem State.emit_frame (s : State) (e : Event) :
    (s.emit e).bds = s.bds ∧ (s.emit e).ep_buf = s.ep_buf ∧
    (s.emit e).SFR_USB_ADDR = s.SFR_USB_ADDR ∧ (s.emit e).addr_pending = s.addr_pending ∧
    (s.emit e).addr = s.addr ∧ (s.emit e).g_configuration = s.g_configuration ∧
    (s.emit e).control_need_zlp = s.control_need_zlp ∧
    (s.emit e).returning_short = s.returning_short ∧
    (s.emit e).ep0_data_stage_callback = s.ep0_data_stage_callback ∧
    (s.emit e).ep0_data_stage_in_buffer = s.ep0_data_stage_in_buffer ∧
    (s.emit e).ep0_data_stage_out_buffer = s.ep0_data_stage_out_buffer ∧
    (s.emit e).ep0_data_stage_buf_remaining = s.ep0_data_stage_buf_remaining ∧
    (s.emit e).ep0_data_stage_context = s.ep0_data_stage_context ∧
    (s.emit e).ep0_data_stage_direc = s.ep0_data_stage_direc :=
  ⟨rfl, rfl, rfl, rfl, rfl, rfl, rfl, rfl, rfl, rfl, rfl, rfl, rfl, rfl⟩

@[simp]
theorem reset_ep0_data_stage_frame (s : State) :
    (reset_ep0_data_stage s).bds = s.bds ∧ (reset_ep0_data_stage s).ep_buf = s.ep_buf ∧
    (reset_ep0_data_stage s).SFR_USB_ADDR = s.SFR_USB_ADDR ∧
    (reset_ep0_data_stage s).addr_pending = s.addr_pending ∧
    (reset_ep0_data_stage s).addr = s.addr ∧
    (reset_ep0_data_stage s).g_configuration = s.g_configuration ∧
    (reset_ep0_data_stage s).control_need_zlp = s.control_need_zlp ∧
    (reset_ep0_data_stage s).returning_short = s.returning_short ∧
    (reset_ep0_data_stage s).ep0_data_stage_callback = s.ep0_data_stage_callback ∧
    (reset_ep0_data_stage s).ep0_data_stage_context = s.ep0_data_stage_context ∧
    (reset_ep0_data_stage s).ep0_data_stage_direc = s.ep0_data_stage_direc ∧
    (reset_ep0_data_stage s).trace = s.trace :=
  ⟨rfl, rfl, rfl, rfl, rfl, rfl, rfl, rfl, rfl, rfl, rfl, rfl⟩

@[simp]
theorem reset_bd0_out_frame (cfg : Config) (s : State) :
    (reset_bd0_out cfg s).ep_buf = s.ep_buf ∧
    (reset_bd0_out cfg s).SFR_USB_ADDR = s.SFR_USB_ADDR ∧
    (reset_bd0_out cfg s).addr_pending = s.addr_pending ∧ (reset_bd0_out cfg s).addr = s.addr ∧
    (reset_bd0_out cfg s).g_configuration = s.g_configuration ∧
    (reset_bd0_out cfg s).control_need_zlp = s.control_need_zlp ∧
    (reset_bd0_out cfg s).returning_short = s.returning_short ∧
    (reset_bd0_out cfg s).ep0_data_stage_callback = s.ep0_data_stage_callback ∧
    (reset_bd0_out cfg s).ep0_data_stage_in_buffer = s.ep0_data_stage_in_buffer ∧
    (reset_bd0_out cfg s).ep0_data_stage_out_buffer = s.ep0_data_stage_out_buffer ∧
    (reset_bd0_out cfg s).ep0_data_stage_buf_remaining = s.ep0_data_stage_buf_remaining ∧
    (reset_bd0_out cfg s).ep0_data_stage_context = s.ep0_data_stage_context ∧
    (reset_bd0_out cfg s).ep0_data_stage_direc = s.ep0_data_stage_direc ∧
    (reset_bd0_out cfg s).trace = s.trace :=
  ⟨rfl, rfl, rfl, rfl, rfl, rfl, rfl, rfl, rfl, rfl, rfl, rfl, rfl, rfl⟩

@[simp]
theorem stall_ep0_frame (cfg : Config) (s : State) :
    (stall_ep0 cfg s).ep_buf = s.ep_buf ∧ (stall_ep0 cfg s).SFR_USB_ADDR = s.SFR_USB_ADDR ∧
    (stall_ep0 cfg s).addr_pending = s.addr_pending ∧ (stall_ep0 cfg s).addr = s.addr ∧
    (stall_ep0 cfg s).g_configuration = s.g_configuration ∧
    (stall_ep0 cfg s).control_need_zlp = s.control_need_zlp ∧
    (stall_ep0 cfg s).returning_short = s.returning_short ∧
    (stall_ep0 cfg s).ep0_data_stage_callback = s.ep0_data_stage_callback ∧
    (stall_ep0 cfg s).ep0_data_stage_in_buffer = s.ep0_data_stage_in_buffer ∧
    (stall_ep0 cfg s).ep0_data_stage_out_buffer = s.ep0_data_stage_out_buffer ∧
    (stall_ep0 cfg s).ep0_data_stage_buf_remaining = s.ep0_data_stage_buf_remaining ∧
    (stall_ep0 cfg s).ep0_data_stage_context = s.ep0_data_stage_context ∧
    (stall_ep0 cfg s).ep0_data_stage_direc = s.ep0_data_stage_direc ∧
    (stall_ep0 cfg s).trace = s.trace :=
  ⟨rfl, rfl, rfl, rfl, rfl, rfl, rfl, rfl, rfl, rfl, rfl, rfl, rfl, rfl⟩

@[simp]
theorem stall_ep_in_frame (cfg : Config) (s : State) (ep : Nat) :
    (stall_ep_in cfg s ep).ep_buf = s.ep_buf ∧
    (stall_ep_in cfg s ep).SFR_USB_ADDR = s.SFR_USB_ADDR ∧
    (stall_ep_in cfg s ep).addr_pending = s.addr_pending ∧ (stall_ep_in cfg s ep).addr = s.addr ∧
    (stall_ep_in cfg s ep).g_configuration = s.g_configuration ∧
    (stall_ep_in cfg s ep).control_need_zlp = s.control_need_zlp ∧
    (stall_ep_in cfg s ep).returning_short = s.returning_short ∧
    (stall_ep_in cfg s ep).ep0_data_stage_callback = s.ep0_data_stage_callback ∧
    (stall_ep_in cfg s ep).ep0_data_stage_in_buffer = s.ep0_data_stage_in_buffer ∧
    (stall_ep_in cfg s ep).ep0_data_stage_out_buffer = s.ep0_data_stage_out_buffer ∧
    (stall_ep_in cfg s ep).ep0_data_stage_buf_remaining = s.ep0_data_stage_buf_remaining ∧
    (stall_ep_in cfg s ep).ep0_data_stage_context = s.ep0_data_stage_context ∧
    (stall_ep_in cfg s ep).ep0_data_stage_direc = s.ep0_data_stage_direc ∧
    (stall_ep_in cfg s ep).trace = s.trace :=
  ⟨rfl, rfl, rfl, rfl, rfl, rfl, rfl, rfl, rfl, rfl, rfl, rfl, rfl, rfl⟩

@[simp]
theorem stall_ep_out_frame (cfg : Config) (s : State) (ep : Nat) :
    (stall_ep_out cfg s ep).ep_buf = s.ep_buf ∧
    (stall_ep_out cfg s ep).SFR_USB_ADDR = s.SFR_USB_ADDR ∧
    (stall_ep_out cfg s ep).addr_pending = s.addr_pending ∧
    (stall_ep_out cfg s ep).addr = s.addr ∧
    (stall_ep_out cfg s ep).g_configuration = s.g_configuration ∧
    (stall_ep_out cfg s ep).control_need_zlp = s.control_need_zlp ∧
    (stall_ep_out cfg s ep).returning_short = s.returning_short ∧
    (stall_ep_out cfg s ep).ep0_data_stage_callback = s.ep0_data_stage_callback ∧
    (stall_ep_out cfg s ep).ep0_data_stage_in_buffer = s.ep0_data_stage_in_buffer ∧
    (stall_ep_out cfg s ep).ep0_data_stage_out_buffer = s.ep0_data_stage_out_buffer ∧
    (stall_ep_out cfg s ep).ep0_data_stage_buf_remaining = s.ep0_data_stage_buf_remaining ∧
    (stall_ep_out cfg s ep).ep0_data_stage_context = s.ep0_data_stage_context ∧
    (stall_ep_out cfg s ep).ep0_data_stage_direc = s.ep0_data_stage_direc ∧
    (stall_ep_out cfg s ep).trace = s.trace :=
  ⟨rfl, rfl, rfl, rfl, rfl, rfl, rfl, rfl, rfl, rfl, rfl, rfl, rfl, rfl⟩

@[simp]
theorem send_zero_length_packet_ep0_frame (s : State) :
    (send_zero_length_packet_ep0 s).ep_buf = s.ep_buf ∧
    (send_zero_length_packet_ep0 s).SFR_USB_ADDR = s.SFR_USB_ADDR ∧
    (send_zero_length_packet_ep0 s).addr_pending = s.addr_pending ∧
    (send_zero_length_packet_ep0 s).addr = s.addr ∧
    (send_zero_length_packet_ep0 s).g_configuration = s.g_configuration ∧
    (send_zero_length_packet_ep0 s).control_need_zlp = s.control_need_zlp ∧
    (send_zero_length_packet_ep0 s).returning_short = s.returning_short ∧
    (send_zero_length_packet_ep0 s).ep0_data_stage_callback = s.ep0_data_stage_callback ∧
    (send_zero_length_packet_ep0 s).ep0_data_stage_in_buffer = s.ep0_data_stage_in_buffer ∧
    (send_zero_length_packet_ep0 s).ep0_data_stage_out_buffer = s.ep0_data_stage_out_buffer ∧
    (send_zero_length_packet_ep0 s).ep0_data_stage_buf_remaining = s.ep0_data_stage_buf_remaining ∧
    (send_zero_length_packet_ep0 s).ep0_data_stage_context = s.ep0_data_stage_context ∧
    (send_zero_length_packet_ep0 s).ep0_data_stage_direc = s.ep0_data_stage_direc ∧
    (send_zero_length_packet_ep0 s).trace = s.trace :=
  ⟨rfl, rfl, rfl, rfl, rfl, rfl, rfl, rfl, rfl, rfl, rfl, rfl, rfl, rfl⟩

@[simp]
theorem sie_receive_ep0_frame (s : State) (pid : Nat) (data : List Nat) :
    (sie_receive_ep0 s pid data).SFR_USB_ADDR = s.SFR_USB_ADDR ∧
    (sie_receive_ep0 s pid data).addr_pending = s.addr_pending ∧
    (sie_receive_ep0 s pid data).addr = s.addr ∧
    (sie_receive_ep0 s pid data).g_configuration = s.g_configuration ∧
    (sie_receive_ep0 s pid data).control_need_zlp = s.control_need_zlp ∧
    (sie_receive_ep0 s pid data).returning_short = s.returning_short ∧
    (sie_receive_ep0 s pid data).ep0_data_stage_callback = s.ep0_data_stage_callback ∧
    (sie_receive_ep0 s pid data).ep0_data_stage_in_buffer = s.ep0_data_stage_in_buffer ∧
    (sie_receive_ep0 s pid data).ep0_data_stage_out_buffer = s.ep0_data_stage_out_buffer ∧
    (sie_receive_ep0 s pid data).ep0_data_stage_buf_remaining = s.ep0_data_stage_buf_remaining ∧
    (sie_receive_ep0 s pid data).ep0_data_stage_context = s.ep0_data_stage_context ∧
    (sie_receive_ep0 s pid data).ep0_data_stage_direc = s.ep0_data_stage_direc ∧
    (sie_receive_ep0 s pid data).trace = s.trace :=
  ⟨rfl, rfl, rfl, rfl, rfl, rfl, rfl, rfl, rfl, rfl, rfl, rfl, rfl⟩

@[simp]
theorem sie_complete_in_frame (s : State) (ep : Nat) :
    (sie_complete_in s ep).ep_buf = s.ep_buf ∧
    (sie_complete_in s ep).SFR_USB_ADDR = s.SFR_USB_ADDR ∧
    (sie_complete_in s ep).addr_pending = s.addr_pending ∧ (sie_complete_in s ep).addr = s.addr ∧
    (sie_complete_in s ep).g_configuration = s.g_configuration ∧
    (sie_complete_in s ep).control_need_zlp = s.control_need_zlp ∧
    (sie_complete_in s ep).returning_short = s.returning_short ∧
    (sie_complete_in s ep).ep0_data_stage_callback = s.ep0_data_stage_callback ∧
    (sie_complete_in s ep).ep0_data_stage_in_buffer = s.ep0_data_stage_in_buffer ∧
    (sie_complete_in s ep).ep0_data_stage_out_buffer = s.ep0_data_stage_out_buffer ∧
    (sie_complete_in s ep).ep0_data_stage_buf_remaining = s.ep0_data_stage_buf_remaining ∧
    (sie_complete_in s ep).ep0_data_stage_context = s.ep0_data_stage_context ∧
    (sie_complete_in s ep).ep0_data_stage_direc = s.ep0_data_stage_direc ∧
    (sie_complete_in s ep).trace = s.trace :=
  ⟨rfl, rfl, rfl, rfl, rfl, rfl, rfl, rfl, rfl, rfl, rfl, rfl, rfl, rfl⟩

@[simp]
theorem start_control_return_frame (cfg : Config) (s : State) (ptr : List Nat) (len asked : Nat) :
    (start_control_return cfg s ptr len asked).SFR_USB_ADDR = s.SFR_USB_ADDR ∧
    (start_control_return cfg s ptr len asked).addr_pending = s.addr_pending ∧
    (start_control_return cfg s ptr len asked).addr = s.addr ∧
    (start_control_return cfg s ptr len asked).g_configuration = s.g_configuration ∧
    (start_control_return cfg s ptr len asked).control_need_zlp = s.control_need_zlp ∧
    (start_control_return cfg s ptr len asked).ep0_data_stage_callback = s.ep0_data_stage_callback ∧
    (start_control_return cfg s ptr len asked).ep0_data_stage_out_buffer = s.ep0_data_stage_out_buffer ∧
    (start_control_return cfg s ptr len asked).ep0_data_stage_context = s.ep0_data_stage_context ∧
    (start_control_return cfg s ptr len asked).ep0_data_stage_direc = s.ep0_data_stage_direc ∧
    (start_control_return cfg s ptr len asked).trace = s.trace :=
  ⟨rfl, rfl, rfl, rfl, rfl, rfl, rfl, rfl, rfl, rfl⟩

@[simp]
theorem usb_send_in_buffer_frame (s : State) (endpoint len : Nat) :
    (usb_send_in_buffer s endpoint len).ep_buf = s.ep_buf ∧
    (usb_send_in_buffer s endpoint len).SFR_USB_ADDR = s.SFR_USB_ADDR ∧
    (usb_send_in_buffer s endpoint len).addr_pending = s.addr_pending ∧
    (usb_send_in_buffer s endpoint len).addr = s.addr ∧
    (usb_send_in_buffer s endpoint len).g_configuration = s.g_configuration ∧
    (usb_send_in_buffer s endpoint len).control_need_zlp = s.control_need_zlp ∧
    (usb_send_in_buffer s endpoint len).returning_short = s.returning_short ∧
    (usb_send_in_buffer s endpoint len).ep0_data_stage_callback = s.ep0_data_stage_callback ∧
    (usb_send_in_buffer s endpoint len).ep0_data_stage_in_buffer = s.ep0_data_stage_in_buffer ∧
    (usb_send_in_buffer s endpoint len).ep0_data_stage_out_buffer = s.ep0_data_stage_out_buffer ∧
    (usb_send_in_buffer s endpoint len).ep0_data_stage_buf_remaining = s.ep0_data_stage_buf_remaining ∧
    (usb_send_in_buffer s endpoint len).ep0_data_stage_context = s.ep0_data_stage_context ∧
    (usb_send_in_buffer s endpoint len).ep0_data_stage_direc = s.ep0_data_stage_direc ∧
    (usb_send_in_buffer s endpoint len).trace = s.trace := by
  refine ⟨?_, ?_, ?_, ?_, ?_, ?_, ?_, ?_, ?_, ?_, ?_, ?_, ?_, ?_⟩ <;> unfold usb_send_in_buffer <;> split <;>
    first | rfl | (simp only []; split <;> rfl)

@[simp]
theorem usb_arm_out_endpoint_frame (cfg : Config) (s : State) (endpoint : Nat) :
    (usb_arm_out_endpoint cfg s endpoint).ep_buf = s.ep_buf ∧
    (usb_arm_out_endpoint cfg s endpoint).SFR_USB_ADDR = s.SFR_USB_ADDR ∧
    (usb_arm_out_endpoint cfg s endpoint).addr_pending = s.addr_pending ∧
    (usb_arm_out_endpoint cfg s endpoint).addr = s.addr ∧
    (usb_arm_out_endpoint cfg s endpoint).g_configuration = s.g_configuration ∧
    (usb_arm_out_endpoint cfg s endpoint).control_need_zlp = s.control_need_zlp ∧
    (usb_arm_out_endpoint cfg s endpoint).returning_short = s.returning_short ∧
    (usb_arm_out_endpoint cfg s endpoint).ep0_data_stage_callback = s.ep0_data_stage_callback ∧
    (usb_arm_out_endpoint cfg s endpoint).ep0_data_stage_in_buffer = s.ep0_data_stage_in_buffer ∧
    (usb_arm_out_endpoint cfg s endpoint).ep0_data_stage_out_buffer = s.ep0_data_stage_out_buffer ∧
    (usb_arm_out_endpoint cfg s endpoint).ep0_data_stage_buf_remaining = s.ep0_data_stage_buf_remaining ∧
    (usb_arm_out_endpoint cfg s endpoint).ep0_data_stage_context = s.ep0_data_stage_context ∧
    (usb_arm_out_endpoint cfg s endpoint).ep0_data_stage_direc = s.ep0_data_stage_direc ∧
    (usb_arm_out_endpoint cfg s endpoint).trace = s.trace := by
  refine ⟨?_, ?_, ?_, ?_, ?_, ?_, ?_, ?_, ?_, ?_, ?_, ?_, ?_, ?_⟩ <;> unfold usb_arm_out_endpoint <;> simp only [] <;>
    split <;> rfl

@[simp]
theorem usb_start_receive_ep0_data_stage_frame (s : State) (buffer : Option Nat) (len : Nat) (callback : Option Nat) (context : Nat) :
    (usb_start_receive_ep0_data_stage s buffer len callback context).bds = s.bds ∧
    (usb_start_receive_ep0_data_stage s buffer len callback context).ep_buf = s.ep_buf ∧
    (usb_start_receive_ep0_data_stage s buffer len callback context).SFR_USB_ADDR = s.SFR_USB_ADDR ∧
    (usb_start_receive_ep0_data_stage s buffer len callback context).addr_pending = s.addr_pending ∧
    (usb_start_receive_ep0_data_stage s buffer len callback context).addr = s.addr ∧
    (usb_start_receive_ep0_data_stage s buffer len callback context).g_configuration = s.g_configuration ∧
    (usb_start_receive_ep0_data_stage s buffer len callback context).control_need_zlp = s.control_need_zlp ∧
    (usb_start_receive_ep0_data_stage s buffer len callback context).returning_short = s.returning_short ∧
    (usb_start_receive_ep0_data_stage s buffer len callback context).ep0_data_stage_direc = s.ep0_data_stage_direc ∧
    (usb_start_receive_ep0_data_stage s buffer len callback context).trace = s.trace :=
  ⟨rfl, rfl, rfl, rfl, rfl, rfl, rfl, rfl, rfl, rfl⟩

@[simp]
theorem usb_send_data_stage_frame (cfg : Config) (s : State) (buffer : List Nat) (len : Nat) (callback : Option Nat) (context : Nat) :
    (usb_send_data_stage cfg s buffer len callback context).SFR_USB_ADDR = s.SFR_USB_ADDR ∧
    (usb_send_data_stage cfg s buffer len callback context).addr_pending = s.addr_pending ∧
    (usb_send_data_stage cfg s buffer len callback context).addr = s.addr ∧
    (usb_send_data_stage cfg s buffer len callback context).g_configuration = s.g_configuration ∧
    (usb_send_data_stage cfg s buffer len callback context).control_need_zlp = s.control_need_zlp ∧
    (usb_send_data_stage cfg s buffer len callback context).ep0_data_stage_out_buffer = s.ep0_data_stage_out_buffer ∧
    (usb_send_data_stage cfg s buffer len callback context).ep0_data_stage_direc = s.ep0_data_stage_direc ∧
    (usb_send_data_stage cfg s buffer len callback context).trace = s.trace :=
  ⟨rfl, rfl, rfl, rfl, rfl, rfl, rfl, rfl⟩

@[simp]
theorem notify_callback_frame (s : State) (ok : Bool) :
    (notify_callback s ok).bds = s.bds ∧ (notify_callback s ok).ep_buf = s.ep_buf ∧
    (notify_callback s ok).SFR_USB_ADDR = s.SFR_USB_ADDR ∧
    (notify_callback s ok).addr_pending = s.addr_pending ∧ (notify_callback s ok).addr = s.addr ∧
    (notify_callback s ok).g_configuration = s.g_configuration ∧
    (notify_callback s ok).control_need_zlp = s.control_need_zlp ∧
    (notify_callback s ok).returning_short = s.returning_short ∧
    (notify_callback s ok).ep0_data_stage_callback = s.ep0_data_stage_callback ∧
    (notify_callback s ok).ep0_data_stage_in_buffer = s.ep0_data_stage_in_buffer ∧
    (notify_callback s ok).ep0_data_stage_out_buffer = s.ep0_data_stage_out_buffer ∧
    (notify_callback s ok).ep0_data_stage_buf_remaining = s.ep0_data_stage_buf_remaining ∧
    (notify_callback s ok).ep0_data_stage_context = s.ep0_data_stage_context ∧
    (notify_callback s ok).ep0_data_stage_direc = s.ep0_data_stage_direc := by
  refine ⟨?_, ?_, ?_, ?_, ?_, ?_, ?_, ?_, ?_, ?_, ?_, ?_, ?_, ?_⟩ <;> unfold notify_callback <;> split <;> rfl

/-! ## The fields that the setters change -/

@[simp]
theorem State.set_ep_in_bds (s : State) (ep : Nat) (bd : buffer_descriptor) (i : Nat) :
    ((s.set_ep_in ep bd).bds i).ep_in = (if i = ep then bd else (s.bds i).ep_in) ∧
    ((s.set_ep_in ep bd).bds i).ep_out = (s.bds i).ep_out := by
  constructor <;> simp only [State.set_ep_in] <;> split <;> rfl

@[simp]
theorem State.set_ep_out_bds (s : State) (ep : Nat) (bd : buffer_descriptor) (i : Nat) :
    ((s.set_ep_out ep bd).bds i).ep_out = (if i = ep then bd else (s.bds i).ep_out) ∧
    ((s.set_ep_out ep bd).bds i).ep_in = (s.bds i).ep_in := by
  constructor <;> simp only [State.set_ep_out] <;> split <;> rfl

@[simp]
theorem State.set_flags_ep_buf (s : State) (ep v : Nat) (i : Nat) :
    ((s.set_flags ep v).ep_buf i).flags = (if i = ep then v else (s.ep_buf i).flags) ∧
    ((s.set_flags ep v).ep_buf i).out = (s.ep_buf i).out ∧
    ((s.set_flags ep v).ep_buf i).in_ = (s.ep_buf i).in_ := by
  refine ⟨?_, ?_, ?_⟩ <;> simp only [State.set_flags] <;> split <;> rfl

@[simp]
theorem State.set_in_byte_ep_buf (s : State) (ep k v : Nat) (i : Nat) :
    ((s.set_in_byte ep k v).ep_buf i).flags = (s.ep_buf i).flags ∧
    ((s.set_in_byte ep k v).ep_buf i).out = (s.ep_buf i).out ∧
    ((s.set_in_byte ep k v).ep_buf i).in_ =
      (if i = ep then fun j => if j = k then v else (s.ep_buf i).in_ j else (s.ep_buf i).in_) := by
  refine ⟨?_, ?_, ?_⟩ <;> simp only [State.set_in_byte] <;> split <;> rfl

@[simp]
theorem State.memcpy_to_in_ep_buf (s : State) (ep : Nat) (src : Option (List Nat)) (n : Nat)
    (i : Nat) :
    ((s.memcpy_to_in ep src n).ep_buf i).flags = (s.ep_buf i).flags ∧
    ((s.memcpy_to_in ep src n).ep_buf i).out = (s.ep_buf i).out ∧
    ((s.memcpy_to_in ep src n).ep_buf i).in_ =
      (if i = ep then fun j => if j < n then (src.getD []).getD j 0 else (s.ep_buf i).in_ j
       else (s.ep_buf i).in_) := by
  refine ⟨?_, ?_, ?_⟩ <;> simp only [State.memcpy_to_in] <;> split <;> rfl

@[simp]
theorem State.set_out_bytes_ep_buf (s : State) (ep : Nat) (data : List Nat) (i : Nat) :
    ((s.set_out_bytes ep data).ep_buf i).flags = (s.ep_buf i).flags ∧
    ((s.set_out_bytes ep data).ep_buf i).in_ = (s.ep_buf i).in_ ∧
    ((s.set_out_bytes ep data).ep_buf i).out =
      (if i = ep then fun j => data.getD j ((s.ep_buf i).out j) else (s.ep_buf i).out) := by
  refine ⟨?_, ?_, ?_⟩ <;> simp only [State.set_out_bytes] <;> split <;> rfl

@[simp]
theorem State.emit_trace (s : State) (e : Event) : (s.emit e).trace = s.trace ++ [e] :=
  rfl

@[simp]
theorem reset_ep0_data_stage_cursor (s : State) :
    (reset_ep0_data_stage s).ep0_data_stage_in_buffer = none ∧
    (reset_ep0_data_stage s).ep0_data_stage_out_buffer = none ∧
    (reset_ep0_data_stage s).ep0_data_stage_buf_remaining = 0 :=
  ⟨rfl, rfl, rfl⟩

@[simp]
theorem sie_receive_ep0_fields (s : State) (pid : Nat) (data : List Nat) :
    ((sie_receive_ep0 s pid data).bds 0).ep_out = ⟨pid <<< 2, data.length⟩ ∧
    (∀ i, ((sie_receive_ep0 s pid data).bds i).ep_in = (s.bds i).ep_in) ∧
    (∀ i, ((sie_receive_ep0 s pid data).ep_buf i).flags = (s.ep_buf i).flags) ∧
    (∀ i, ((sie_receive_ep0 s pid data).ep_buf i).in_ = (s.ep_buf i).in_) ∧
    ((sie_receive_ep0 s pid data).ep_buf 0).out = fun j => data.getD j ((s.ep_buf 0).out j) := by
  refine ⟨?_, ?_, ?_, ?_, ?_⟩ <;> simp [sie_receive_ep0]


/-! ## The trace of a dispatched request -/

theorem app_call_trace (cfg : Config) (s : State) (c : AppCall) :
    (app_call cfg s c).trace = s.trace := by
  cases c <;> simp [app_call]

theorem app_calls_trace (cfg : Config) (cs : List AppCall) :
    ∀ s : State, (cs.foldl (app_call cfg) s).trace = s.trace := by
  induction cs with
  | nil => intro s; rfl
  | cons c t ih => intro s; rw [List.foldl_cons, ih, app_call_trace]

theorem handle_unknown_trace (cfg : Config) (s : State) :
    (handle_unknown cfg s).trace = s.trace := by
  unfold handle_unknown
  cases cfg.UNKNOWN_SETUP_REQUEST_CALLBACK <;> simp [app_calls_trace]

theorem handle_get_descriptor_trace (cfg : Config) (s : State) (p : setup_packet) :
    (handle_get_descriptor cfg s p).trace = s.trace := by
  unfold handle_get_descriptor
  cases cfg.USB_STRING_DESCRIPTOR_FUNC <;> cases cfg.UNKNOWN_GET_DESCRIPTOR_CALLBACK <;> simp

theorem handle_get_status_trace (cfg : Config) (s : State) (p : setup_packet) :
    (handle_get_status cfg s p).trace = s.trace := by
  unfold handle_get_status
  cases cfg.GET_DEVICE_STATUS_CALLBACK <;> simp

theorem handle_feature_callbacks (cfg : Config) (s : State) (p : setup_packet) :
    callbacks (handle_feature cfg s p).trace = callbacks s.trace := by
  unfold handle_feature
  simp only []
  split_ifs <;> simp [callbacks_append, callbacks]

theorem handle_standard_control_request_callbacks (cfg : Config) (s : State) :
    callbacks (handle_standard_control_request cfg s).1.trace = callbacks s.trace := by
  unfold handle_standard_control_request
  generalize get_setup (s.ep_buf 0).out = p
  simp only []
  split
  · simp [handle_get_descriptor_trace]
  split
  · simp
  split
  · split <;> simp [callbacks_append, callbacks]
  split
  · simp
  split
  · simp [handle_get_status_trace]
  split
  · cases cfg.SET_INTERFACE_CALLBACK with
    | none => simp
    | some f => simp only []; split <;> simp
  split
  · cases cfg.GET_INTERFACE_CALLBACK with
    | none => simp
    | some f => simp only []; split <;> simp
  split
  · simp [handle_feature_callbacks]
  · rfl

theorem ep0_setup_dispatch_callbacks (cfg : Config) (s : State) :
    callbacks (ep0_setup_dispatch cfg s).trace = callbacks s.trace := by
  unfold ep0_setup_dispatch
  simp only []
  split_ifs
  · rw [handle_unknown_trace, handle_standard_control_request_callbacks]
  · exact handle_standard_control_request_callbacks cfg s
  · rw [handle_unknown_trace]


/-! ## A SETUP packet during a transfer -/

/-- C5 as stated fails: the vendor request 0x40 starts a 4-byte IN transfer with
`usb_send_data_stage` (callback 1, context 7); its only data packet is armed, the
status stage has not happened and no callback has been made; the next SETUP
packet is handled without any invocation of the callback, and the source pointer of
the cursor is still set when the new request is dispatched. -/
theorem setup_while_status_pending_no_callback :
    callbacks_since power_on (ep0_setup_packet demo_hook_config power_on (vendor_request 0x40 1 4)) = [] ∧
    in_packet (ep0_setup_packet demo_hook_config power_on (vendor_request 0x40 1 4)) 0 =
      some [1, 2, 3, 4] ∧
    callbacks_since power_on (ep0_setup_packet demo_hook_config
      (ep0_setup_packet demo_hook_config power_on (vendor_request 0x40 1 4)) get_status_device) = [] ∧
    (ep0_setup_break_pending (sie_receive_ep0
      (ep0_setup_packet demo_hook_config power_on (vendor_request 0x40 1 4)) PID_SETUP
      (setup_bytes get_status_device))).ep0_data_stage_in_buffer ≠ none := by
  decide

/-- C5 amended: when the remaining count of the cursor is not 0 (the data stage of a
transfer is unfinished) and a new SETUP packet is handled by `handle_ep0_setup`, the
callback, when one is set, is invoked exactly once, with the failure indication,
and the request is dispatched on a state whose remaining count is 0 and whose
buffer pointers are NULL. -/
theorem setup_breaks_unfinished_data_stage (cfg : Config) (s : State)
    (hr : s.ep0_data_stage_buf_remaining ≠ 0) :
    handle_ep0_setup cfg s = ep0_setup_dispatch cfg (ep0_setup_break_pending s) ∧
    (ep0_setup_break_pending s).ep0_data_stage_buf_remaining = 0 ∧
    (ep0_setup_break_pending s).ep0_data_stage_in_buffer = none ∧
    (ep0_setup_break_pending s).ep0_data_stage_out_buffer = none ∧
    callbacks_since s (ep0_setup_break_pending s) =
      s.ep0_data_stage_callback.toList.map (fun fn => (some fn, false, s.ep0_data_stage_context)) ∧
    callbacks_since s (handle_ep0_setup cfg s) =
      s.ep0_data_stage_callback.toList.map (fun fn => (some fn, false, s.ep0_data_stage_context)) := by
  have hc : callbacks (ep0_setup_break_pending s).trace = callbacks s.trace ++
      s.ep0_data_stage_callback.toList.map (fun fn => (some fn, false, s.ep0_data_stage_context)) := by
    unfold ep0_setup_break_pending notify_callback
    cases h : s.ep0_data_stage_callback <;> simp [hr, h, callbacks_append, callbacks]
  refine ⟨rfl, ?_, ?_, ?_, ?_, ?_⟩
  · simp [ep0_setup_break_pending, hr]
  · simp [ep0_setup_break_pending, hr]
  · simp [ep0_setup_break_pending, hr]
  · unfold callbacks_since; rw [hc]; simp
  · unfold callbacks_since handle_ep0_setup; rw [ep0_setup_dispatch_callbacks, hc]; simp

/-- Witness of C5 amended: the vendor request 0x41 starts a 10-byte OUT transfer, one
8-byte packet arrives, then a new SETUP packet. -/
theorem setup_breaks_unfinished_data_stage_witness :
    (sie_receive_ep0 (ep0_out_packet demo_hook_config
        (ep0_setup_packet demo_hook_config power_on (vendor_request 0x41 0 10))
        [1, 2, 3, 4, 5, 6, 7, 8]) PID_SETUP (setup_bytes get_status_device)
      ).ep0_data_stage_buf_remaining ≠ 0 ∧
    callbacks_since
      (sie_receive_ep0 (ep0_out_packet demo_hook_config
        (ep0_setup_packet demo_hook_config power_on (vendor_request 0x41 0 10))
        [1, 2, 3, 4, 5, 6, 7, 8]) PID_SETUP (setup_bytes get_status_device))
      (handle_ep0_setup demo_hook_config
        (sie_receive_ep0 (ep0_out_packet demo_hook_config
          (ep0_setup_packet demo_hook_config power_on (vendor_request 0x41 0 10))
          [1, 2, 3, 4, 5, 6, 7, 8]) PID_SETUP (setup_bytes get_status_device))) =
      [(some 1, false, 7)] :=
  ⟨by decide,
    (setup_breaks_unfinished_data_stage demo_hook_config
      (sie_receive_ep0 (ep0_out_packet demo_hook_config
        (ep0_setup_packet demo_hook_config power_on (vendor_request 0x41 0 10))
        [1, 2, 3, 4, 5, 6, 7, 8]) PID_SETUP (setup_bytes get_status_device)) (by decide)).2.2.2.2.2⟩


/-! ## SET_ADDRESS -/

@[simp]
theorem ep0_setup_break_pending_frame (s : State) :
    (ep0_setup_break_pending s).bds = s.bds ∧
    (ep0_setup_break_pending s).ep_buf = s.ep_buf ∧
    (ep0_setup_break_pending s).SFR_USB_ADDR = s.SFR_USB_ADDR ∧
    (ep0_setup_break_pending s).addr_pending = s.addr_pending ∧
    (ep0_setup_break_pending s).addr = s.addr ∧
    (ep0_setup_break_pending s).g_configuration = s.g_configuration ∧
    (ep0_setup_break_pending s).control_need_zlp = s.control_need_zlp ∧
    (ep0_setup_break_pending s).returning_short = s.returning_short ∧
    (ep0_setup_break_pending s).ep0_data_stage_callback = s.ep0_data_stage_callback ∧
    (ep0_setup_break_pending s).ep0_data_stage_context = s.ep0_data_stage_context := by
  refine ⟨?_, ?_, ?_, ?_, ?_, ?_, ?_, ?_, ?_, ?_⟩ <;> unfold ep0_setup_break_pending <;>
    simp only [] <;> split <;> simp

theorem handle_ep0_in_address (cfg : Config) (s : State) :
    (handle_ep0_in cfg s).SFR_USB_ADDR = (if s.addr_pending then s.addr else s.SFR_USB_ADDR) ∧
    (handle_ep0_in cfg s).addr_pending = false := by
  constructor <;> unfold handle_ep0_in <;> simp only [] <;> cases h : s.addr_pending <;>
    simp [h]

theorem handle_ep0_setup_set_address (cfg : Config) (s : State)
    (ht : (get_setup (s.ep_buf 0).out).type = REQUEST_TYPE_STANDARD)
    (hq : (get_setup (s.ep_buf 0).out).bRequest = SET_ADDRESS) :
    handle_ep0_setup cfg s =
      send_zero_length_packet_ep0
        { ep0_setup_break_pending s with
          addr_pending := true
          addr := (get_setup (s.ep_buf 0).out).wValue % 256 } := by
  unfold handle_ep0_setup ep0_setup_dispatch handle_standard_control_request
  simp [ht, hq, SET_ADDRESS, GET_DESCRIPTOR]

/-- C6: handling the SETUP packet of SET_ADDRESS(a) leaves the bus-address register
unchanged, marks the address as pending and queues a zero-length packet on endpoint
0 IN; when `handle_ep0_in` handles the following IN completion the register
becomes `a` and the pending mark is cleared. -/
theorem set_address_deferred (cfg : Config) (s : State) (a : Nat) (ha : a < 256)
    (ht : (get_setup (s.ep_buf 0).out).type = REQUEST_TYPE_STANDARD)
    (hq : (get_setup (s.ep_buf 0).out).bRequest = SET_ADDRESS)
    (hv : (get_setup (s.ep_buf 0).out).wValue = a) :
    (handle_ep0_setup cfg s).SFR_USB_ADDR = s.SFR_USB_ADDR ∧
    (handle_ep0_setup cfg s).addr_pending = true ∧
    in_packet (handle_ep0_setup cfg s) 0 = some [] ∧
    (handle_ep0_in cfg (sie_complete_in (handle_ep0_setup cfg s) 0)).SFR_USB_ADDR = a ∧
    (handle_ep0_in cfg (sie_complete_in (handle_ep0_setup cfg s) 0)).addr_pending = false := by
  have e := handle_ep0_setup_set_address cfg s ht hq
  obtain ⟨i1, i2⟩ := handle_ep0_in_address cfg (sie_complete_in (handle_ep0_setup cfg s) 0)
  refine ⟨?_, ?_, ?_, ?_, i2⟩
  · rw [e]; simp
  · rw [e]; simp
  · rw [e]
    simp only [in_packet, send_zero_length_packet_ep0, SET_BDN, State.set_ep_in_bds, if_true,
      buffer_descriptor.UOWN, buffer_descriptor.BSTALL]
    rw [if_pos (by decide)]
    rfl
  · rw [i1, e]
    simp [hv, Nat.mod_eq_of_lt ha]

/-- Witness of C6: SET_ADDRESS(5) received after power-up. -/
theorem set_address_deferred_witness :
    ((5 : Nat) < 256 ∧
      (get_setup ((sie_receive_ep0 power_on PID_SETUP (setup_bytes (set_address 5))).ep_buf 0).out).type =
        REQUEST_TYPE_STANDARD ∧
      (get_setup ((sie_receive_ep0 power_on PID_SETUP (setup_bytes (set_address 5))).ep_buf 0).out).bRequest =
        SET_ADDRESS ∧
      (get_setup ((sie_receive_ep0 power_on PID_SETUP (setup_bytes (set_address 5))).ep_buf 0).out).wValue =
        5) ∧
    (ep0_setup_packet demo_config power_on (set_address 5)).SFR_USB_ADDR = power_on.SFR_USB_ADDR ∧
    (handle_ep0_in demo_config
      (sie_complete_in (ep0_setup_packet demo_config power_on (set_address 5)) 0)).SFR_USB_ADDR = 5 :=
  ⟨by decide,
    (set_address_deferred demo_config (sie_receive_ep0 power_on PID_SETUP (setup_bytes (set_address 5)))
      5 (by decide) (by decide) (by decide) (by decide)).1,
    (set_address_deferred demo_config (sie_receive_ep0 power_on PID_SETUP (setup_bytes (set_address 5)))
      5 (by decide) (by decide) (by decide) (by decide)).2.2.2.1⟩

/-- The flag tests of the status bytes that the stack writes. -/
@[simp]
theorem stat_tests (c : Nat) :
    (⟨0, c⟩ : buffer_descriptor).UOWN = false ∧
    (⟨0, c⟩ : buffer_descriptor).DTS = false ∧
    (⟨0, c⟩ : buffer_descriptor).DTSEN = false ∧
    (⟨0, c⟩ : buffer_descriptor).BSTALL = false ∧
    (⟨BDNSTAT_UOWN, c⟩ : buffer_descriptor).UOWN = true ∧
    (⟨BDNSTAT_UOWN, c⟩ : buffer_descriptor).DTS = false ∧
    (⟨BDNSTAT_UOWN, c⟩ : buffer_descriptor).DTSEN = false ∧
    (⟨BDNSTAT_UOWN, c⟩ : buffer_descriptor).BSTALL = false ∧
    (⟨BDNSTAT_DTS, c⟩ : buffer_descriptor).UOWN = false ∧
    (⟨BDNSTAT_DTS, c⟩ : buffer_descriptor).DTS = true ∧
    (⟨BDNSTAT_DTS, c⟩ : buffer_descriptor).DTSEN = false ∧
    (⟨BDNSTAT_DTS, c⟩ : buffer_descriptor).BSTALL = false ∧
    (⟨BDNSTAT_UOWN ||| BDNSTAT_BSTALL, c⟩ : buffer_descriptor).UOWN = true ∧
    (⟨BDNSTAT_UOWN ||| BDNSTAT_BSTALL, c⟩ : buffer_descriptor).DTS = false ∧
    (⟨BDNSTAT_UOWN ||| BDNSTAT_BSTALL, c⟩ : buffer_descriptor).DTSEN = false ∧
    (⟨BDNSTAT_UOWN ||| BDNSTAT_BSTALL, c⟩ : buffer_descriptor).BSTALL = true ∧
    (⟨BDNSTAT_UOWN ||| BDNSTAT_DTS ||| BDNSTAT_DTSEN, c⟩ : buffer_descriptor).UOWN = true ∧
    (⟨BDNSTAT_UOWN ||| BDNSTAT_DTS ||| BDNSTAT_DTSEN, c⟩ : buffer_descriptor).DTS = true ∧
    (⟨BDNSTAT_UOWN ||| BDNSTAT_DTS ||| BDNSTAT_DTSEN, c⟩ : buffer_descriptor).DTSEN = true ∧
    (⟨BDNSTAT_UOWN ||| BDNSTAT_DTS ||| BDNSTAT_DTSEN, c⟩ : buffer_descriptor).BSTALL = false ∧
    (⟨BDNSTAT_UOWN ||| BDNSTAT_DTSEN, c⟩ : buffer_descriptor).UOWN = true ∧
    (⟨BDNSTAT_UOWN ||| BDNSTAT_DTSEN, c⟩ : buffer_descriptor).DTS = false ∧
    (⟨BDNSTAT_UOWN ||| BDNSTAT_DTSEN, c⟩ : buffer_descriptor).DTSEN = true ∧
    (⟨BDNSTAT_UOWN ||| BDNSTAT_DTSEN, c⟩ : buffer_descriptor).BSTALL = false := by
  refine ⟨?_, ?_, ?_, ?_, ?_, ?_, ?_, ?_, ?_, ?_, ?_, ?_, ?_, ?_, ?_, ?_, ?_, ?_, ?_, ?_, ?_, ?_, ?_, ?_⟩ <;>
    first
    | (unfold buffer_descriptor.UOWN; simp only []; decide)
    | (unfold buffer_descriptor.DTS; simp only []; decide)
    | (unfold buffer_descriptor.DTSEN; simp only []; decide)
    | (unfold buffer_descriptor.BSTALL; simp only []; decide)


/-! ## Bus reset -/

theorem usb_init_flags_fold (l : List Nat) :
    ∀ s : State,
      (∀ i, ((l.foldl usb_init_flags s).ep_buf i).flags =
        if i ∈ l then 0 else (s.ep_buf i).flags) ∧
      (l.foldl usb_init_flags s).bds = s.bds ∧
      (l.foldl usb_init_flags s).SFR_USB_ADDR = s.SFR_USB_ADDR ∧
      (l.foldl usb_init_flags s).addr_pending = s.addr_pending ∧
      (l.foldl usb_init_flags s).g_configuration = s.g_configuration := by
  induction l with
  | nil => intro s; simp
  | cons a t ih =>
    intro s
    obtain ⟨h1, h2, h3, h4, h5⟩ := ih (usb_init_flags s a)
    rw [List.foldl_cons]
    refine ⟨?_, ?_, ?_, ?_, ?_⟩
    · intro i
      rw [h1 i]
      by_cases hi : i ∈ t
      · simp [hi]
      · by_cases hia : i = a <;> simp [hi, hia, usb_init_flags]
    · rw [h2]; simp [usb_init_flags]
    · rw [h3]; simp [usb_init_flags]
    · rw [h4]; simp [usb_init_flags]
    · rw [h5]; simp [usb_init_flags]

theorem usb_init_bd_fold (cfg : Config) (l : List Nat) :
    ∀ s : State,
      (∀ i, ((l.foldl (usb_init_bd cfg) s).bds i).ep_out =
        if i ∈ l then ⟨BDNSTAT_UOWN, cfg.out_len i⟩ else (s.bds i).ep_out) ∧
      (∀ i, ((l.foldl (usb_init_bd cfg) s).bds i).ep_in =
        if i ∈ l then ⟨BDNSTAT_DTS, cfg.in_len i⟩ else (s.bds i).ep_in) ∧
      (l.foldl (usb_init_bd cfg) s).ep_buf = s.ep_buf ∧
      (l.foldl (usb_init_bd cfg) s).SFR_USB_ADDR = s.SFR_USB_ADDR ∧
      (l.foldl (usb_init_bd cfg) s).addr_pending = s.addr_pending ∧
      (l.foldl (usb_init_bd cfg) s).g_configuration = s.g_configuration := by
  induction l with
  | nil => intro s; simp
  | cons a t ih =>
    intro s
    obtain ⟨h1, h2, h3, h4, h5, h6⟩ := ih (usb_init_bd cfg s a)
    rw [List.foldl_cons]
    refine ⟨?_, ?_, ?_, ?_, ?_, ?_⟩
    · intro i
      rw [h1 i]
      by_cases hi : i ∈ t
      · simp [hi]
      · by_cases hia : i = a <;> simp [hi, hia, usb_init_bd, SET_BDN]
    · intro i
      rw [h2 i]
      by_cases hi : i ∈ t
      · simp [hi]
      · by_cases hia : i = a <;> simp [hi, hia, usb_init_bd, SET_BDN]
    · rw [h3]; simp [usb_init_bd]
    · rw [h4]; simp [usb_init_bd]
    · rw [h5]; simp [usb_init_bd]
    · rw [h6]; simp [usb_init_bd]

theorem usb_init_fields (cfg : Config) (s : State) :
    (∀ e, e ≤ cfg.NUM_ENDPOINT_NUMBERS → ((usb_init cfg s).ep_buf e).flags = 0) ∧
    (usb_init cfg s).g_configuration = 0 ∧
    (usb_init cfg s).addr_pending = false ∧
    (usb_init cfg s).SFR_USB_ADDR = 0 ∧
    (usb_init cfg s).ep0_data_stage_buf_remaining = 0 ∧
    (usb_init cfg s).ep0_data_stage_in_buffer = none ∧
    (usb_init cfg s).ep0_data_stage_out_buffer = none ∧
    (∀ e, e ≤ cfg.NUM_ENDPOINT_NUMBERS →
      ((usb_init cfg s).bds e).ep_out = ⟨BDNSTAT_UOWN, cfg.out_len e⟩) ∧
    ((usb_init cfg s).bds 0).ep_in = ⟨0, cfg.in_len 0⟩ ∧
    (∀ e, 1 ≤ e → e ≤ cfg.NUM_ENDPOINT_NUMBERS →
      ((usb_init cfg s).bds e).ep_in = ⟨BDNSTAT_DTS, cfg.in_len e⟩) := by
  unfold usb_init
  simp only []
  generalize hs1 : ({ s with SFR_USB_ADDR := 0, addr_pending := false, g_configuration := 0 } : State) = s1
  have hs1a : s1.SFR_USB_ADDR = 0 ∧ s1.addr_pending = false ∧ s1.g_configuration = 0 := by
    subst hs1; exact ⟨rfl, rfl, rfl⟩
  obtain ⟨f1, f2, f3, f4, f5⟩ := usb_init_flags_fold (List.range (cfg.NUM_ENDPOINT_NUMBERS + 1)) s1
  generalize (List.range (cfg.NUM_ENDPOINT_NUMBERS + 1)).foldl usb_init_flags s1 = s2 at f1 f2 f3 f4 f5
  generalize hs3 : ((memset_bds cfg s2).set_ep_out 0
    (SET_BDN ((memset_bds cfg s2).bds 0).ep_out BDNSTAT_UOWN (cfg.out_len 0))) = s3
  generalize hs4 : s3.set_ep_in 0 (SET_BDN (s3.bds 0).ep_in 0 (cfg.in_len 0)) = s4
  obtain ⟨b1, b2, b3, b4, b5, b6⟩ := usb_init_bd_fold cfg (List.range' 1 cfg.NUM_ENDPOINT_NUMBERS) s4
  have e4 : s4.ep_buf = s2.ep_buf ∧ s4.SFR_USB_ADDR = s2.SFR_USB_ADDR ∧
      s4.addr_pending = s2.addr_pending ∧ s4.g_configuration = s2.g_configuration := by
    subst hs4 hs3; simp [memset_bds]
  have e4o : (s4.bds 0).ep_out = ⟨BDNSTAT_UOWN, cfg.out_len 0⟩ := by
    subst hs4 hs3; simp [SET_BDN]
  have e4i : (s4.bds 0).ep_in = ⟨0, cfg.in_len 0⟩ := by
    subst hs4 hs3; simp [SET_BDN]
  have hmem : ∀ e, e ∈ List.range' 1 cfg.NUM_ENDPOINT_NUMBERS ↔ (1 ≤ e ∧ e ≤ cfg.NUM_ENDPOINT_NUMBERS) := by
    intro e; rw [List.mem_range'_1]; omega
  refine ⟨?_, ?_, ?_, ?_, ?_, ?_, ?_, ?_, ?_, ?_⟩
  · intro e he
    simp only [reset_ep0_data_stage_frame]
    rw [b3, e4.1, f1 e]
    simp; omega
  · simp only [reset_ep0_data_stage_frame]; rw [b6, e4.2.2.2, f5, hs1a.2.2]
  · simp only [reset_ep0_data_stage_frame]; rw [b5, e4.2.2.1, f4, hs1a.2.1]
  · simp only [reset_ep0_data_stage_frame]; rw [b4, e4.2.1, f3, hs1a.1]
  · simp
  · simp
  · simp
  · intro e he
    simp only [reset_ep0_data_stage_frame]
    rw [b1 e]
    by_cases h0 : e = 0
    · subst h0; simp [e4o]
    · rw [if_pos ((hmem e).2 ⟨by omega, he⟩)]
  · simp only [reset_ep0_data_stage_frame]
    rw [b2 0]; simp [e4i]
  · intro e h1 he
    simp only [reset_ep0_data_stage_frame]
    rw [b2 e, if_pos ((hmem e).2 ⟨h1, he⟩)]

theorem usb_send_in_buffer_sends (s : State) (endpoint len : Nat)
    (hc : s.g_configuration > 0 ∨ endpoint = 0) (hh : usb_in_endpoint_halted s endpoint = false) :
    ((usb_send_in_buffer s endpoint len).bds endpoint).ep_in =
      ⟨if (s.bds endpoint).ep_in.DTS = true then BDNSTAT_UOWN ||| BDNSTAT_DTSEN
        else BDNSTAT_UOWN ||| BDNSTAT_DTS ||| BDNSTAT_DTSEN, len⟩ := by
  unfold usb_send_in_buffer
  rw [if_pos ⟨hc, hh⟩]
  cases h : (s.bds endpoint).ep_in.DTS <;> simp [SET_BDN]

/-- C7: from every state, `usb_service` on a bus reset (which runs `usb_init`) leaves
the halt flags of every endpoint clear, the configuration value 0, the address
pending mark clear, the address register 0, the cursor empty (remaining count 0,
both buffer pointers NULL), every OUT descriptor owned by the hardware with the
endpoint's buffer length and no stall flag, and every IN descriptor owned by the
firmware; the IN descriptors of the endpoints `1..NUM_ENDPOINT_NUMBERS` hold the
toggle bit set, so that `usb_send_in_buffer` on such a descriptor (configured, not
halted) hands it over with DATA0. -/
theorem bus_reset_defaults (cfg : Config) (s : State) :
    (∀ e, e ≤ cfg.NUM_ENDPOINT_NUMBERS →
      usb_in_endpoint_halted (usb_service cfg bus_reset s) e = false ∧
      usb_out_endpoint_halted (usb_service cfg bus_reset s) e = false) ∧
    (usb_service cfg bus_reset s).g_configuration = 0 ∧
    (usb_service cfg bus_reset s).addr_pending = false ∧
    (usb_service cfg bus_reset s).SFR_USB_ADDR = 0 ∧
    (usb_service cfg bus_reset s).ep0_data_stage_buf_remaining = 0 ∧
    (usb_service cfg bus_reset s).ep0_data_stage_in_buffer = none ∧
    (usb_service cfg bus_reset s).ep0_data_stage_out_buffer = none ∧
    (∀ e, e ≤ cfg.NUM_ENDPOINT_NUMBERS →
      ((usb_service cfg bus_reset s).bds e).ep_out = ⟨BDNSTAT_UOWN, cfg.out_len e⟩ ∧
      ((usb_service cfg bus_reset s).bds e).ep_out.UOWN = true ∧
      ((usb_service cfg bus_reset s).bds e).ep_out.BSTALL = false) ∧
    (∀ e, e ≤ cfg.NUM_ENDPOINT_NUMBERS →
      ((usb_service cfg bus_reset s).bds e).ep_in.UOWN = false ∧
      ((usb_service cfg bus_reset s).bds e).ep_in.BSTALL = false) ∧
    ((usb_service cfg bus_reset s).bds 0).ep_in = ⟨0, cfg.in_len 0⟩ ∧
    (∀ e, 1 ≤ e → e ≤ cfg.NUM_ENDPOINT_NUMBERS →
      ((usb_service cfg bus_reset s).bds e).ep_in = ⟨BDNSTAT_DTS, cfg.in_len e⟩ ∧
      ∀ (t : State) (len : Nat),
        (t.bds e).ep_in = ((usb_service cfg bus_reset s).bds e).ep_in →
        t.g_configuration > 0 → usb_in_endpoint_halted t e = false →
        ((usb_send_in_buffer t e len).bds e).ep_in = ⟨BDNSTAT_UOWN ||| BDNSTAT_DTSEN, len⟩ ∧
        ((usb_send_in_buffer t e len).bds e).ep_in.DTS = false) := by
  have hs : usb_service cfg bus_reset s =
      usb_init cfg (if cfg.USB_RESET_CALLBACK = true then s.emit .reset_callback else s) := by
    simp [usb_service, bus_reset]
  rw [hs]
  obtain ⟨a1, a2, a3, a4, a5, a6, a7, a8, a9, a10⟩ :=
    usb_init_fields cfg (if cfg.USB_RESET_CALLBACK = true then s.emit .reset_callback else s)
  refine ⟨?_, a2, a3, a4, a5, a6, a7, ?_, ?_, a9, ?_⟩
  · intro e he
    simp [usb_in_endpoint_halted, usb_out_endpoint_halted, a1 e he]
  · intro e he
    rw [a8 e he]
    exact ⟨rfl, by simp, by simp⟩
  · intro e he
    by_cases h0 : e = 0
    · subst h0; rw [a9]; exact ⟨by simp, by simp⟩
    · rw [a10 e (by omega) he]; exact ⟨by simp, by simp⟩
  · intro e h1 he
    refine ⟨a10 e h1 he, ?_⟩
    intro t len ht hc hh
    rw [a10 e h1 he] at ht
    have hd : (t.bds e).ep_in.DTS = true := by rw [ht]; simp
    have := usb_send_in_buffer_sends t e len (Or.inl hc) hh
    rw [hd] at this
    simp only [if_true] at this
    rw [this]
    exact ⟨rfl, by simp⟩


/-! ## GET_STATUS and the endpoint-halt feature -/

theorem handle_ep0_setup_get_status (cfg : Config) (s : State)
    (ht : (get_setup (s.ep_buf 0).out).type = REQUEST_TYPE_STANDARD)
    (hq : (get_setup (s.ep_buf 0).out).bRequest = GET_STATUS) :
    handle_ep0_setup cfg s =
      handle_get_status cfg (ep0_setup_break_pending s) (get_setup (s.ep_buf 0).out) := by
  unfold handle_ep0_setup ep0_setup_dispatch handle_standard_control_request
  simp [ht, hq, GET_STATUS, GET_DESCRIPTOR, SET_ADDRESS, SET_CONFIGURATION, GET_CONFIGURATION]

theorem handle_ep0_setup_feature (cfg : Config) (s : State)
    (ht : (get_setup (s.ep_buf 0).out).type = REQUEST_TYPE_STANDARD)
    (hq : (get_setup (s.ep_buf 0).out).bRequest = CLEAR_FEATURE ∨
      (get_setup (s.ep_buf 0).out).bRequest = SET_FEATURE) :
    handle_ep0_setup cfg s =
      handle_feature cfg (ep0_setup_break_pending s) (get_setup (s.ep_buf 0).out) := by
  unfold handle_ep0_setup ep0_setup_dispatch handle_standard_control_request
  rcases hq with hq | hq <;>
  simp [ht, hq, GET_STATUS, GET_DESCRIPTOR, SET_ADDRESS, SET_CONFIGURATION, GET_CONFIGURATION,
    SET_INTERFACE, GET_INTERFACE, CLEAR_FEATURE, SET_FEATURE]

/-- C8: a GET_STATUS request with endpoint destination whose endpoint number
(`wIndex & 0x0f`) is greater than `NUM_ENDPOINT_NUMBERS` stalls endpoint 0 (the IN
descriptor of endpoint 0 is handed to the hardware with the stall flag set) and
leaves the address register, the address-pending mark, the configuration value and
all halt flags unchanged. -/
theorem get_status_unknown_endpoint_stalls (cfg : Config) (s : State)
    (ht : (get_setup (s.ep_buf 0).out).type = REQUEST_TYPE_STANDARD)
    (hq : (get_setup (s.ep_buf 0).out).bRequest = GET_STATUS)
    (hd : (get_setup (s.ep_buf 0).out).destination = 2)
    (he : cfg.NUM_ENDPOINT_NUMBERS < (get_setup (s.ep_buf 0).out).wIndex &&& 0x0f) :
    ep0_stalled cfg (handle_ep0_setup cfg s) ∧
    ((handle_ep0_setup cfg s).bds 0).ep_in.UOWN = true ∧
    ((handle_ep0_setup cfg s).bds 0).ep_in.BSTALL = true ∧
    (handle_ep0_setup cfg s).SFR_USB_ADDR = s.SFR_USB_ADDR ∧
    (handle_ep0_setup cfg s).addr_pending = s.addr_pending ∧
    (handle_ep0_setup cfg s).g_configuration = s.g_configuration ∧
    (∀ e, usb_in_endpoint_halted (handle_ep0_setup cfg s) e = usb_in_endpoint_halted s e ∧
      usb_out_endpoint_halted (handle_ep0_setup cfg s) e = usb_out_endpoint_halted s e) := by
  have e : handle_ep0_setup cfg s = stall_ep0 cfg (ep0_setup_break_pending s) := by
    rw [handle_ep0_setup_get_status cfg s ht hq]
    unfold handle_get_status
    simp [hd, Nat.not_le.2 he]
  rw [e]
  refine ⟨?_, ?_, ?_, ?_, ?_, ?_, ?_⟩
  · simp [ep0_stalled, stall_ep0, SET_BDN]
  · simp [stall_ep0, SET_BDN]
  · simp [stall_ep0, SET_BDN]
  · simp
  · simp
  · simp
  · intro e; simp [usb_in_endpoint_halted, usb_out_endpoint_halted]

/-- Witness of C8: GET_STATUS for endpoint 5 IN on a device with endpoints 0 and 1. -/
theorem get_status_unknown_endpoint_stalls_witness :
    ((get_setup ((sie_receive_ep0 power_on PID_SETUP
        (setup_bytes (get_status_endpoint 0x85))).ep_buf 0).out).type = REQUEST_TYPE_STANDARD ∧
      (get_setup ((sie_receive_ep0 power_on PID_SETUP
        (setup_bytes (get_status_endpoint 0x85))).ep_buf 0).out).bRequest = GET_STATUS ∧
      (get_setup ((sie_receive_ep0 power_on PID_SETUP
        (setup_bytes (get_status_endpoint 0x85))).ep_buf 0).out).destination = 2 ∧
      demo_config.NUM_ENDPOINT_NUMBERS < (get_setup ((sie_receive_ep0 power_on PID_SETUP
        (setup_bytes (get_status_endpoint 0x85))).ep_buf 0).out).wIndex &&& 0x0f) ∧
    ep0_stalled demo_config (ep0_setup_packet demo_config power_on (get_status_endpoint 0x85)) :=
  ⟨by decide,
    (get_status_unknown_endpoint_stalls demo_config
      (sie_receive_ep0 power_on PID_SETUP (setup_bytes (get_status_endpoint 0x85)))
      (by decide) (by decide) (by decide) (by decide)).1⟩


theorem halt_bits (f : Nat) :
    (f ||| EP_IN_HALT_FLAG) &&& EP_IN_HALT_FLAG ≠ 0 ∧
    (f ||| EP_OUT_HALT_FLAG) &&& EP_OUT_HALT_FLAG ≠ 0 ∧
    (f ||| EP_IN_HALT_FLAG) &&& EP_OUT_HALT_FLAG = f &&& EP_OUT_HALT_FLAG ∧
    (f ||| EP_OUT_HALT_FLAG) &&& EP_IN_HALT_FLAG = f &&& EP_IN_HALT_FLAG ∧
    (f &&& (0xff ^^^ EP_IN_HALT_FLAG)) &&& EP_IN_HALT_FLAG = 0 ∧
    (f &&& (0xff ^^^ EP_OUT_HALT_FLAG)) &&& EP_OUT_HALT_FLAG = 0 ∧
    (f &&& (0xff ^^^ EP_IN_HALT_FLAG)) &&& EP_OUT_HALT_FLAG = f &&& EP_OUT_HALT_FLAG ∧
    (f &&& (0xff ^^^ EP_OUT_HALT_FLAG)) &&& EP_IN_HALT_FLAG = f &&& EP_IN_HALT_FLAG := by
  unfold EP_IN_HALT_FLAG EP_OUT_HALT_FLAG
  refine ⟨?_, ?_, ?_, ?_, ?_, ?_, ?_, ?_⟩
  · intro h
    have h2 := congrArg (fun x => x.testBit 1) h
    have h3 : Nat.testBit 2 1 = true := by decide
    simp [Nat.testBit_and, Nat.testBit_or, h3] at h2
  · intro h
    have h2 := congrArg (fun x => x.testBit 0) h
    have h3 : Nat.testBit 1 0 = true := by decide
    simp [Nat.testBit_and, Nat.testBit_or, h3] at h2
  · rw [Nat.and_distrib_right, show (2 &&& 1 : Nat) = 0 by decide, Nat.or_zero]
  · rw [Nat.and_distrib_right, show (1 &&& 2 : Nat) = 0 by decide, Nat.or_zero]
  · rw [Nat.and_assoc, show ((0xff ^^^ 2) &&& 2 : Nat) = 0 by decide, Nat.and_zero]
  · rw [Nat.and_assoc, show ((0xff ^^^ 1) &&& 1 : Nat) = 0 by decide, Nat.and_zero]
  · rw [Nat.and_assoc, show ((0xff ^^^ 2) &&& 1 : Nat) = 1 by decide]
  · rw [Nat.and_assoc, show ((0xff ^^^ 1) &&& 2 : Nat) = 2 by decide]

theorem get_setup_receive (s : State) (pid : Nat) (p : setup_packet)
    (h1 : p.destination < 32) (h2 : p.type < 4) (h3 : p.direction < 2) (h4 : p.bRequest < 256)
    (h5 : p.wValue < 65536) (h6 : p.wIndex < 65536) (h7 : p.wLength < 65536) :
    get_setup ((sie_receive_ep0 s pid (setup_bytes p)).ep_buf 0).out = p := by
  obtain ⟨d, t, dir, r, v, i, l⟩ := p
  simp only [] at h1 h2 h3 h4 h5 h6 h7
  simp only [sie_receive_ep0_fields, get_setup, setup_bytes, List.getD_cons_zero, List.getD_cons_succ,
    setup_packet.mk.injEq]
  refine ⟨?_, ?_, ?_, ?_, ?_, ?_, ?_⟩ <;> omega

theorem get_setup_receive_halt (s : State) (wi : Nat) (hwi : wi < 65536) :
    get_setup ((sie_receive_ep0 s PID_SETUP (setup_bytes (set_feature_halt wi))).ep_buf 0).out =
      set_feature_halt wi ∧
    get_setup ((sie_receive_ep0 s PID_SETUP (setup_bytes (clear_feature_halt wi))).ep_buf 0).out =
      clear_feature_halt wi ∧
    get_setup ((sie_receive_ep0 s PID_SETUP (setup_bytes (get_status_endpoint wi))).ep_buf 0).out =
      get_status_endpoint wi := by
  refine ⟨?_, ?_, ?_⟩ <;> apply get_setup_receive <;>
    first
    | exact hwi
    | simp [set_feature_halt, clear_feature_halt, get_status_endpoint, SET_FEATURE, CLEAR_FEATURE,
        GET_STATUS]

theorem set_feature_halt_flags (cfg : Config) (t : State) (wi : Nat) (hwi : wi < 65536)
    (he : wi &&& 0x0f ≤ cfg.NUM_ENDPOINT_NUMBERS) (e : Nat) :
    ((ep0_setup_packet cfg t (set_feature_halt wi)).ep_buf e).flags =
      if e = wi &&& 0x0f then
        (if wi &&& 0x80 ≠ 0 then (t.ep_buf e).flags ||| EP_IN_HALT_FLAG
         else (t.ep_buf e).flags ||| EP_OUT_HALT_FLAG)
      else (t.ep_buf e).flags := by
  have hg := (get_setup_receive_halt t wi hwi).1
  unfold ep0_setup_packet
  rw [handle_ep0_setup_feature cfg _ (by rw [hg]; rfl) (by rw [hg]; exact Or.inr rfl), hg]
  unfold handle_feature
  have h1 : (set_feature_halt wi).destination = 2 ∧ (set_feature_halt wi).wValue = 0 ∧
      (set_feature_halt wi).wIndex &&& 0x0f ≤ cfg.NUM_ENDPOINT_NUMBERS := ⟨rfl, rfl, he⟩
  rw [if_pos h1]
  have h2 : (set_feature_halt wi).bRequest = SET_FEATURE := rfl
  have h3 : (set_feature_halt wi).wIndex = wi := rfl
  simp only [h2, h3, if_true]
  by_cases hd : wi &&& 0x80 ≠ 0 <;> by_cases hee : e = wi &&& 0x0f <;>
    simp [hd, hee, stall_ep_in, stall_ep_out]

theorem ep0_setup_break_pending_cursor (s : State) :
    (ep0_setup_break_pending s).ep0_data_stage_direc = (get_setup (s.ep_buf 0).out).direction ∧
    (ep0_setup_break_pending s).ep0_data_stage_buf_remaining = 0 ∧
    (ep0_setup_break_pending s).ep0_data_stage_in_buffer =
      (if s.ep0_data_stage_buf_remaining ≠ 0 then none else s.ep0_data_stage_in_buffer) ∧
    (ep0_setup_break_pending s).ep0_data_stage_out_buffer =
      (if s.ep0_data_stage_buf_remaining ≠ 0 then none else s.ep0_data_stage_out_buffer) := by
  unfold ep0_setup_break_pending
  by_cases h : s.ep0_data_stage_buf_remaining = 0 <;> simp [h]

theorem state_eq (a b : State) (h1 : a.bds = b.bds) (h2 : a.ep_buf = b.ep_buf)
    (h3 : a.SFR_USB_ADDR = b.SFR_USB_ADDR) (h4 : a.addr_pending = b.addr_pending)
    (h5 : a.addr = b.addr) (h6 : a.g_configuration = b.g_configuration)
    (h7 : a.control_need_zlp = b.control_need_zlp) (h8 : a.returning_short = b.returning_short)
    (h9 : a.ep0_data_stage_callback = b.ep0_data_stage_callback)
    (h10 : a.ep0_data_stage_in_buffer = b.ep0_data_stage_in_buffer)
    (h11 : a.ep0_data_stage_out_buffer = b.ep0_data_stage_out_buffer)
    (h12 : a.ep0_data_stage_buf_remaining = b.ep0_data_stage_buf_remaining)
    (h13 : a.ep0_data_stage_context = b.ep0_data_stage_context)
    (h14 : a.ep0_data_stage_direc = b.ep0_data_stage_direc) (h15 : a.trace = b.trace) : a = b := by
  cases a; cases b; simp_all

theorem clear_feature_halt_fields (cfg : Config) (t : State) (wi : Nat) (hwi : wi < 65536)
    (he : wi &&& 0x0f ≤ cfg.NUM_ENDPOINT_NUMBERS) :
    (∀ e, ((ep0_setup_packet cfg t (clear_feature_halt wi)).ep_buf e).flags =
      if e = wi &&& 0x0f then
        (if wi &&& 0x80 ≠ 0 then (t.ep_buf e).flags &&& (0xff ^^^ EP_IN_HALT_FLAG)
         else (t.ep_buf e).flags &&& (0xff ^^^ EP_OUT_HALT_FLAG))
      else (t.ep_buf e).flags) ∧
    (∀ e, ((ep0_setup_packet cfg t (clear_feature_halt wi)).ep_buf e).in_ = (t.ep_buf e).in_) ∧
    (∀ e, ((ep0_setup_packet cfg t (clear_feature_halt wi)).ep_buf e).out =
      if e = 0 then fun j => (setup_bytes (clear_feature_halt wi)).getD j ((t.ep_buf 0).out j)
      else (t.ep_buf e).out) ∧
    (∀ e, ((ep0_setup_packet cfg t (clear_feature_halt wi)).bds e).ep_in =
      if e = 0 then ⟨BDNSTAT_UOWN ||| BDNSTAT_DTS ||| BDNSTAT_DTSEN, 0⟩
      else if e = wi &&& 0x0f ∧ wi &&& 0x80 ≠ 0 then ⟨BDNSTAT_DTS, cfg.in_len e⟩
      else (t.bds e).ep_in) ∧
    (∀ e, ((ep0_setup_packet cfg t (clear_feature_halt wi)).bds e).ep_out =
      if e = wi &&& 0x0f ∧ ¬ (wi &&& 0x80 ≠ 0) then ⟨BDNSTAT_UOWN, cfg.out_len e⟩
      else if e = 0 then ⟨PID_SETUP <<< 2, 8⟩
      else (t.bds e).ep_out) ∧
    (ep0_setup_packet cfg t (clear_feature_halt wi)).SFR_USB_ADDR = t.SFR_USB_ADDR ∧
    (ep0_setup_packet cfg t (clear_feature_halt wi)).addr_pending = t.addr_pending ∧
    (ep0_setup_packet cfg t (clear_feature_halt wi)).addr = t.addr ∧
    (ep0_setup_packet cfg t (clear_feature_halt wi)).g_configuration = t.g_configuration ∧
    (ep0_setup_packet cfg t (clear_feature_halt wi)).control_need_zlp = t.control_need_zlp ∧
    (ep0_setup_packet cfg t (clear_feature_halt wi)).returning_short = t.returning_short ∧
    (ep0_setup_packet cfg t (clear_feature_halt wi)).ep0_data_stage_callback =
      t.ep0_data_stage_callback ∧
    (ep0_setup_packet cfg t (clear_feature_halt wi)).ep0_data_stage_context =
      t.ep0_data_stage_context ∧
    (ep0_setup_packet cfg t (clear_feature_halt wi)).ep0_data_stage_direc = 0 ∧
    (ep0_setup_packet cfg t (clear_feature_halt wi)).ep0_data_stage_buf_remaining = 0 ∧
    (ep0_setup_packet cfg t (clear_feature_halt wi)).ep0_data_stage_in_buffer =
      (if t.ep0_data_stage_buf_remaining ≠ 0 then none else t.ep0_data_stage_in_buffer) ∧
    (ep0_setup_packet cfg t (clear_feature_halt wi)).ep0_data_stage_out_buffer =
      (if t.ep0_data_stage_buf_remaining ≠ 0 then none else t.ep0_data_stage_out_buffer) := by
  have hg := (get_setup_receive_halt t wi hwi).2.1
  obtain ⟨hd, c1, c2, c3⟩ := ep0_setup_break_pending_cursor
    (sie_receive_ep0 t PID_SETUP (setup_bytes (clear_feature_halt wi)))
  rw [hg] at hd
  have hd0 : (ep0_setup_break_pending (sie_receive_ep0 t PID_SETUP
      (setup_bytes (clear_feature_halt wi)))).ep0_data_stage_direc = 0 := hd.trans rfl
  unfold ep0_setup_packet
  rw [handle_ep0_setup_feature cfg _ (by rw [hg]; rfl) (by rw [hg]; exact Or.inl rfl), hg]
  unfold handle_feature
  have h1 : (clear_feature_halt wi).destination = 2 ∧ (clear_feature_halt wi).wValue = 0 ∧
      (clear_feature_halt wi).wIndex &&& 0x0f ≤ cfg.NUM_ENDPOINT_NUMBERS := ⟨rfl, rfl, he⟩
  rw [if_pos h1]
  have h2 : ¬ (clear_feature_halt wi).bRequest = SET_FEATURE := by
    simp [clear_feature_halt, SET_FEATURE, CLEAR_FEATURE]
  have h3 : (clear_feature_halt wi).wIndex = wi := rfl
  simp only [h2, h3, if_false]
  refine ⟨?_, ?_, ?_, ?_, ?_, ?_, ?_, ?_, ?_, ?_, ?_, ?_, ?_, ?_, ?_, ?_, ?_⟩
  · intro e
    by_cases hdd : wi &&& 0x80 ≠ 0 <;> by_cases hee : e = wi &&& 0x0f <;> simp [hdd, hee]
  · intro e
    by_cases hdd : wi &&& 0x80 ≠ 0 <;> simp [hdd]
  · intro e
    by_cases hdd : wi &&& 0x80 ≠ 0 <;> by_cases h0 : e = 0 <;> simp [hdd, h0, sie_receive_ep0]
  · intro e
    by_cases hdd : wi &&& 0x80 ≠ 0 <;> by_cases h0 : e = 0 <;>
      simp [hdd, h0, send_zero_length_packet_ep0, SET_BDN]
    split_ifs <;> simp_all
  · intro e
    by_cases hdd : wi &&& 0x80 ≠ 0 <;> by_cases h0 : e = 0 <;>
      simp [hdd, h0, send_zero_length_packet_ep0, SET_BDN, sie_receive_ep0, setup_bytes] <;>
      (try split_ifs) <;> simp_all
  all_goals by_cases hdd : wi &&& 0x80 ≠ 0 <;> simp [hdd, c1, c2, c3, hd0]

theorem get_status_endpoint_answer (cfg : Config) (t : State) (wi : Nat) (hwi : wi < 65536)
    (he : wi &&& 0x0f ≤ cfg.NUM_ENDPOINT_NUMBERS) :
    in_packet (ep0_setup_packet cfg t (get_status_endpoint wi)) 0 =
      some [if endpoint_halted t wi = true then 1 else 0, 0] ∧
    (∀ e, ((ep0_setup_packet cfg t (get_status_endpoint wi)).ep_buf e).flags =
      (t.ep_buf e).flags) := by
  have hg := (get_setup_receive_halt t wi hwi).2.2
  unfold ep0_setup_packet
  rw [handle_ep0_setup_get_status cfg _ (by rw [hg]; rfl) (by rw [hg]; rfl), hg]
  unfold handle_get_status
  have h1 : ¬ (get_status_endpoint wi).destination = 0 := by simp [get_status_endpoint]
  have h2 : (get_status_endpoint wi).destination = 2 := rfl
  have h3 : (get_status_endpoint wi).wIndex = wi := rfl
  simp only [h1, h2, h3, if_false, if_true, he]
  constructor
  · by_cases hdd : wi &&& 0x80 ≠ 0 <;>
      simp [in_packet, SET_BDN, List.range_succ, endpoint_halted, usb_in_endpoint_halted,
        usb_out_endpoint_halted, hdd]
  · intro e; simp

theorem set_feature_halt_sets (cfg : Config) (t : State) (wi : Nat) (hwi : wi < 65536)
    (he : wi &&& 0x0f ≤ cfg.NUM_ENDPOINT_NUMBERS) :
    endpoint_halted (ep0_setup_packet cfg t (set_feature_halt wi)) wi = true := by
  have hf := set_feature_halt_flags cfg t wi hwi he (wi &&& 0x0f)
  obtain ⟨b1, b2, _⟩ := halt_bits (t.ep_buf (wi &&& 0x0f)).flags
  unfold endpoint_halted usb_in_endpoint_halted usb_out_endpoint_halted
  rw [hf]
  by_cases hdd : wi &&& 0x80 ≠ 0
  · simp only [if_pos hdd, if_true]; simpa using b1
  · simp only [if_neg hdd, if_true]; simpa using b2

theorem clear_feature_halt_clears (cfg : Config) (t : State) (wi : Nat) (hwi : wi < 65536)
    (he : wi &&& 0x0f ≤ cfg.NUM_ENDPOINT_NUMBERS) :
    endpoint_halted (ep0_setup_packet cfg t (clear_feature_halt wi)) wi = false := by
  have hf := (clear_feature_halt_fields cfg t wi hwi he).1 (wi &&& 0x0f)
  obtain ⟨_, _, _, _, b5, b6, _, _⟩ := halt_bits (t.ep_buf (wi &&& 0x0f)).flags
  unfold endpoint_halted usb_in_endpoint_halted usb_out_endpoint_halted
  rw [hf]
  by_cases hdd : wi &&& 0x80 ≠ 0
  · simp only [if_pos hdd, if_true]; simpa using b5
  · simp only [if_neg hdd, if_true]; simpa using b6

theorem feature_halt_frame (cfg : Config) (t : State) (wi : Nat) (hwi : wi < 65536)
    (he : wi &&& 0x0f ≤ cfg.NUM_ENDPOINT_NUMBERS) (p : setup_packet)
    (hp : p = set_feature_halt wi ∨ p = clear_feature_halt wi) :
    (∀ e, e ≠ wi &&& 0x0f →
      usb_in_endpoint_halted (ep0_setup_packet cfg t p) e = usb_in_endpoint_halted t e ∧
      usb_out_endpoint_halted (ep0_setup_packet cfg t p) e = usb_out_endpoint_halted t e) ∧
    (wi &&& 0x80 ≠ 0 →
      usb_out_endpoint_halted (ep0_setup_packet cfg t p) (wi &&& 0x0f) =
        usb_out_endpoint_halted t (wi &&& 0x0f)) ∧
    (wi &&& 0x80 = 0 →
      usb_in_endpoint_halted (ep0_setup_packet cfg t p) (wi &&& 0x0f) =
        usb_in_endpoint_halted t (wi &&& 0x0f)) := by
  have hf : ∀ e, ((ep0_setup_packet cfg t p).ep_buf e).flags =
      if e = wi &&& 0x0f then
        (if p = set_feature_halt wi then
          (if wi &&& 0x80 ≠ 0 then (t.ep_buf e).flags ||| EP_IN_HALT_FLAG
           else (t.ep_buf e).flags ||| EP_OUT_HALT_FLAG)
         else
          (if wi &&& 0x80 ≠ 0 then (t.ep_buf e).flags &&& (0xff ^^^ EP_IN_HALT_FLAG)
           else (t.ep_buf e).flags &&& (0xff ^^^ EP_OUT_HALT_FLAG)))
      else (t.ep_buf e).flags := by
    intro e
    rcases hp with hp | hp
    · subst hp; rw [set_feature_halt_flags cfg t wi hwi he e]; simp
    · subst hp
      have hne : ¬ clear_feature_halt wi = set_feature_halt wi := by
        simp [clear_feature_halt, set_feature_halt, CLEAR_FEATURE, SET_FEATURE]
      rw [(clear_feature_halt_fields cfg t wi hwi he).1 e]; simp [hne]
  obtain ⟨_, _, b3, b4, _, _, b7, b8⟩ := halt_bits (t.ep_buf (wi &&& 0x0f)).flags
  unfold usb_in_endpoint_halted usb_out_endpoint_halted
  refine ⟨?_, ?_, ?_⟩
  · intro e hne
    rw [hf e]; simp [hne]
  · intro hdd
    rw [hf]
    by_cases hps : p = set_feature_halt wi
    · simp only [if_pos hps, if_pos hdd, if_true]; rw [b3]
    · simp only [if_neg hps, if_pos hdd, if_true]; rw [b7]
  · intro hdd
    have hdn : ¬ (wi &&& 0x80 ≠ 0) := fun h => h hdd
    rw [hf]
    by_cases hps : p = set_feature_halt wi
    · simp only [if_pos hps, if_neg hdn, if_true]; rw [b4]
    · simp only [if_neg hps, if_neg hdn, if_true]; rw [b8]

/-- C9: for every `wIndex` value `wi` whose endpoint number `wi & 0x0f` is at most
`NUM_ENDPOINT_NUMBERS` (bit 7 of `wi` is the direction): SET_FEATURE(ENDPOINT_HALT)
sets the halt flag of that endpoint and direction and CLEAR_FEATURE(ENDPOINT_HALT)
clears it; GET_STATUS answers the 2-byte IN packet `[flag, 0]`; so GET_STATUS after
SET_FEATURE answers `[1, 0]` and after a following CLEAR_FEATURE `[0, 0]`; and
neither SET_FEATURE nor CLEAR_FEATURE changes a halt flag of another endpoint or of
the opposite direction. -/
theorem halt_feature_round_trip (cfg : Config) (s : State) (wi : Nat) (hwi : wi < 65536)
    (he : wi &&& 0x0f ≤ cfg.NUM_ENDPOINT_NUMBERS) :
    (∀ t, endpoint_halted (ep0_setup_packet cfg t (set_feature_halt wi)) wi = true) ∧
    (∀ t, endpoint_halted (ep0_setup_packet cfg t (clear_feature_halt wi)) wi = false) ∧
    (∀ t, in_packet (ep0_setup_packet cfg t (get_status_endpoint wi)) 0 =
      some [if endpoint_halted t wi = true then 1 else 0, 0]) ∧
    in_packet (ep0_setup_packets cfg s [set_feature_halt wi, get_status_endpoint wi]) 0 =
      some [1, 0] ∧
    in_packet (ep0_setup_packets cfg s [set_feature_halt wi, get_status_endpoint wi,
      clear_feature_halt wi, get_status_endpoint wi]) 0 = some [0, 0] ∧
    (∀ t p, p = set_feature_halt wi ∨ p = clear_feature_halt wi →
      (∀ e, e ≠ wi &&& 0x0f →
        usb_in_endpoint_halted (ep0_setup_packet cfg t p) e = usb_in_endpoint_halted t e ∧
        usb_out_endpoint_halted (ep0_setup_packet cfg t p) e = usb_out_endpoint_halted t e) ∧
      (wi &&& 0x80 ≠ 0 →
        usb_out_endpoint_halted (ep0_setup_packet cfg t p) (wi &&& 0x0f) =
          usb_out_endpoint_halted t (wi &&& 0x0f)) ∧
      (wi &&& 0x80 = 0 →
        usb_in_endpoint_halted (ep0_setup_packet cfg t p) (wi &&& 0x0f) =
          usb_in_endpoint_halted t (wi &&& 0x0f))) := by
  refine ⟨fun t => set_feature_halt_sets cfg t wi hwi he,
    fun t => clear_feature_halt_clears cfg t wi hwi he,
    fun t => (get_status_endpoint_answer cfg t wi hwi he).1, ?_, ?_,
    fun t p hp => feature_halt_frame cfg t wi hwi he p hp⟩
  · show in_packet (ep0_setup_packet cfg (ep0_setup_packet cfg s (set_feature_halt wi))
      (get_status_endpoint wi)) 0 = _
    rw [(get_status_endpoint_answer cfg _ wi hwi he).1, set_feature_halt_sets cfg s wi hwi he]
    rfl
  · show in_packet (ep0_setup_packet cfg (ep0_setup_packet cfg (ep0_setup_packet cfg
      (ep0_setup_packet cfg s (set_feature_halt wi)) (get_status_endpoint wi))
      (clear_feature_halt wi)) (get_status_endpoint wi)) 0 = _
    rw [(get_status_endpoint_answer cfg _ wi hwi he).1, clear_feature_halt_clears cfg _ wi hwi he]
    rfl

/-- Witness of C9: endpoint 1 IN (`wIndex` 0x81) on the demo device. -/
theorem halt_feature_round_trip_witness :
    ((0x81 : Nat) < 65536 ∧ 0x81 &&& 0x0f ≤ demo_config.NUM_ENDPOINT_NUMBERS) ∧
    in_packet (ep0_setup_packets demo_config power_on
      [set_feature_halt 0x81, get_status_endpoint 0x81]) 0 = some [1, 0] ∧
    in_packet (ep0_setup_packets demo_config power_on
      [set_feature_halt 0x81, get_status_endpoint 0x81, clear_feature_halt 0x81,
        get_status_endpoint 0x81]) 0 = some [0, 0] :=
  ⟨by decide,
    (halt_feature_round_trip demo_config power_on 0x81 (by decide) (by decide)).2.2.2.1,
    (halt_feature_round_trip demo_config power_on 0x81 (by decide) (by decide)).2.2.2.2.1⟩

theorem getD_getD (l : List Nat) (j x : Nat) : l.getD j (l.getD j x) = l.getD j x := by
  simp only [List.getD_eq_getElem?_getD]
  cases l[j]? <;> rfl

theorem bd_pair_eq (a b : buffer_descriptor_pair) (h1 : a.ep_out = b.ep_out)
    (h2 : a.ep_in = b.ep_in) : a = b := by
  cases a; cases b; simp_all

theorem ep_buf_eq (a b : ep_buf) (h1 : a.out = b.out) (h2 : a.in_ = b.in_)
    (h3 : a.flags = b.flags) : a = b := by
  cases a; cases b; simp_all

theorem clear_feature_halt_twice (cfg : Config) (s : State) (wi : Nat) (hwi : wi < 65536)
    (he : wi &&& 0x0f ≤ cfg.NUM_ENDPOINT_NUMBERS) :
    (ep0_setup_packet cfg (ep0_setup_packet cfg s (clear_feature_halt wi))
      (clear_feature_halt wi)).untraced =
    (ep0_setup_packet cfg s (clear_feature_halt wi)).untraced := by
  obtain ⟨a1, a2, a3, a4, a5, a6, a7, a8, a9, a10, a11, a12, a13, a14, a15, a16, a17⟩ :=
    clear_feature_halt_fields cfg s wi hwi he
  obtain ⟨b1, b2, b3, b4, b5, b6, b7, b8, b9, b10, b11, b12, b13, b14, b15, b16, b17⟩ :=
    clear_feature_halt_fields cfg (ep0_setup_packet cfg s (clear_feature_halt wi)) wi hwi he
  apply state_eq
  · show (ep0_setup_packet cfg (ep0_setup_packet cfg s (clear_feature_halt wi))
      (clear_feature_halt wi)).bds = (ep0_setup_packet cfg s (clear_feature_halt wi)).bds
    funext e
    apply bd_pair_eq
    · rw [b5 e, a5 e]; split_ifs <;> rfl
    · rw [b4 e, a4 e]; split_ifs <;> rfl
  · show (ep0_setup_packet cfg (ep0_setup_packet cfg s (clear_feature_halt wi))
      (clear_feature_halt wi)).ep_buf = (ep0_setup_packet cfg s (clear_feature_halt wi)).ep_buf
    funext e
    apply ep_buf_eq
    · rw [b3 e, a3 e]
      split_ifs
      · rw [a3 0]; simp only [if_true]; funext j; exact getD_getD _ _ _
      · rfl
    · rw [b2 e]
    · rw [b1 e, a1 e]
      split_ifs
      · rw [Nat.and_assoc, Nat.and_self]
      · rw [Nat.and_assoc, Nat.and_self]
      · rfl
  · exact b6
  · exact b7
  · exact b8
  · exact b9
  · exact b10
  · exact b11
  · exact b12
  · show (ep0_setup_packet cfg (ep0_setup_packet cfg s (clear_feature_halt wi))
      (clear_feature_halt wi)).ep0_data_stage_in_buffer =
      (ep0_setup_packet cfg s (clear_feature_halt wi)).ep0_data_stage_in_buffer
    rw [b16, a15]; simp
  · show (ep0_setup_packet cfg (ep0_setup_packet cfg s (clear_feature_halt wi))
      (clear_feature_halt wi)).ep0_data_stage_out_buffer =
      (ep0_setup_packet cfg s (clear_feature_halt wi)).ep0_data_stage_out_buffer
    rw [b17, a15]; simp
  · exact b15.trans a15.symm
  · exact b13
  · exact b14.trans a14.symm
  · rfl

/-- C10: for every `wIndex` value `wi` that addresses an endpoint `1..NUM_ENDPOINT_NUMBERS`
and a direction whose halt flag is clear, CLEAR_FEATURE(ENDPOINT_HALT) leaves every
halt flag as it was and, whatever the descriptor held before, leaves the descriptor
of that direction reset: an IN descriptor holds the byte count `in_len`, no stall
flag, firmware ownership and the toggle bit set, so that the next
`usb_send_in_buffer` (configured, not halted) hands it over with DATA0; an OUT
descriptor is owned by the hardware with the byte count `out_len`, no stall flag and
the DATA0 toggle.  Handling the request a second time gives the same state of the
stack as handling it once. -/
theorem clear_halt_on_clear_endpoint (cfg : Config) (s : State) (wi : Nat) (hwi : wi < 65536)
    (h1 : 1 ≤ wi &&& 0x0f) (he : wi &&& 0x0f ≤ cfg.NUM_ENDPOINT_NUMBERS)
    (hn : endpoint_halted s wi = false) :
    (∀ e,
      usb_in_endpoint_halted (ep0_setup_packet cfg s (clear_feature_halt wi)) e =
        usb_in_endpoint_halted s e ∧
      usb_out_endpoint_halted (ep0_setup_packet cfg s (clear_feature_halt wi)) e =
        usb_out_endpoint_halted s e) ∧
    (wi &&& 0x80 ≠ 0 →
      ((ep0_setup_packet cfg s (clear_feature_halt wi)).bds (wi &&& 0x0f)).ep_in =
        ⟨BDNSTAT_DTS, cfg.in_len (wi &&& 0x0f)⟩ ∧
      ((ep0_setup_packet cfg s (clear_feature_halt wi)).bds (wi &&& 0x0f)).ep_in.BSTALL = false ∧
      ((ep0_setup_packet cfg s (clear_feature_halt wi)).bds (wi &&& 0x0f)).ep_in.UOWN = false ∧
      ∀ (t : State) (len : Nat),
        (t.bds (wi &&& 0x0f)).ep_in =
          ((ep0_setup_packet cfg s (clear_feature_halt wi)).bds (wi &&& 0x0f)).ep_in →
        t.g_configuration > 0 → usb_in_endpoint_halted t (wi &&& 0x0f) = false →
        ((usb_send_in_buffer t (wi &&& 0x0f) len).bds (wi &&& 0x0f)).ep_in.DTS = false) ∧
    (wi &&& 0x80 = 0 →
      ((ep0_setup_packet cfg s (clear_feature_halt wi)).bds (wi &&& 0x0f)).ep_out =
        ⟨BDNSTAT_UOWN, cfg.out_len (wi &&& 0x0f)⟩ ∧
      ((ep0_setup_packet cfg s (clear_feature_halt wi)).bds (wi &&& 0x0f)).ep_out.BSTALL = false ∧
      ((ep0_setup_packet cfg s (clear_feature_halt wi)).bds (wi &&& 0x0f)).ep_out.UOWN = true ∧
      ((ep0_setup_packet cfg s (clear_feature_halt wi)).bds (wi &&& 0x0f)).ep_out.DTS = false) ∧
    (ep0_setup_packet cfg (ep0_setup_packet cfg s (clear_feature_halt wi))
      (clear_feature_halt wi)).untraced =
      (ep0_setup_packet cfg s (clear_feature_halt wi)).untraced := by
  obtain ⟨a1, _, _, a4, a5, _⟩ := clear_feature_halt_fields cfg s wi hwi he
  have hne0 : ¬ (wi &&& 0x0f = 0) := by omega
  refine ⟨?_, ?_, ?_, clear_feature_halt_twice cfg s wi hwi he⟩
  · intro e
    by_cases hee : e = wi &&& 0x0f
    · subst hee
      obtain ⟨_, _, _, _, b5, b6, b7, b8⟩ := halt_bits (s.ep_buf (wi &&& 0x0f)).flags
      unfold endpoint_halted usb_in_endpoint_halted usb_out_endpoint_halted at hn
      unfold usb_in_endpoint_halted usb_out_endpoint_halted
      rw [a1]
      by_cases hdd : wi &&& 0x80 ≠ 0
      · rw [if_pos hdd] at hn
        have hz : (s.ep_buf (wi &&& 0x0f)).flags &&& EP_IN_HALT_FLAG = 0 := by simpa using hn
        simp only [if_pos hdd, if_true]
        rw [b5, b7, hz]
        exact ⟨rfl, rfl⟩
      · rw [if_neg hdd] at hn
        have hz : (s.ep_buf (wi &&& 0x0f)).flags &&& EP_OUT_HALT_FLAG = 0 := by simpa using hn
        simp only [if_neg hdd, if_true]
        rw [b6, b8, hz]
        exact ⟨rfl, rfl⟩
    · exact (feature_halt_frame cfg s wi hwi he _ (Or.inr rfl)).1 e hee
  · intro hdd
    have hin : ((ep0_setup_packet cfg s (clear_feature_halt wi)).bds (wi &&& 0x0f)).ep_in =
        ⟨BDNSTAT_DTS, cfg.in_len (wi &&& 0x0f)⟩ := by
      rw [a4, if_neg hne0, if_pos ⟨rfl, hdd⟩]
    rw [hin]
    refine ⟨rfl, by simp, by simp, ?_⟩
    intro t len ht hc hh
    have hd : (t.bds (wi &&& 0x0f)).ep_in.DTS = true := by rw [ht]; simp
    rw [usb_send_in_buffer_sends t _ len (Or.inl hc) hh, hd]
    simp
  · intro hdd
    have hout : ((ep0_setup_packet cfg s (clear_feature_halt wi)).bds (wi &&& 0x0f)).ep_out =
        ⟨BDNSTAT_UOWN, cfg.out_len (wi &&& 0x0f)⟩ := by
      rw [a5, if_pos ⟨rfl, by simpa using hdd⟩]
    rw [hout]
    exact ⟨rfl, by simp, by simp, by simp⟩

/-- Witness of C10: endpoint 1 IN (`wIndex` 0x81) after power-up, not halted. -/
theorem clear_halt_on_clear_endpoint_witness :
    ((0x81 : Nat) < 65536 ∧ 1 ≤ 0x81 &&& 0x0f ∧ 0x81 &&& 0x0f ≤ demo_config.NUM_ENDPOINT_NUMBERS ∧
      endpoint_halted power_on 0x81 = false) ∧
    (ep0_setup_packet demo_config (ep0_setup_packet demo_config power_on (clear_feature_halt 0x81))
      (clear_feature_halt 0x81)).untraced =
      (ep0_setup_packet demo_config power_on (clear_feature_halt 0x81)).untraced :=
  ⟨by decide,
    (clear_halt_on_clear_endpoint demo_config power_on 0x81 (by decide) (by decide) (by decide)
      (by decide)).2.2.2⟩


/-! ## Session state and halt flags across the operations -/

theorem session_eq_refl (s : State) : session_eq s s :=
  ⟨rfl, rfl, rfl, rfl, fun _ => rfl⟩

theorem session_eq_trans {a b c : State} (h1 : session_eq a b) (h2 : session_eq b c) :
    session_eq a c :=
  ⟨h1.1.trans h2.1, h1.2.1.trans h2.2.1, h1.2.2.1.trans h2.2.2.1, h1.2.2.2.1.trans h2.2.2.2.1,
    fun e => (h1.2.2.2.2 e).trans (h2.2.2.2.2 e)⟩

theorem start_control_return_session (cfg : Config) (s : State) (ptr : List Nat) (len asked : Nat) :
    session_eq (start_control_return cfg s ptr len asked) s := by
  refine ⟨by simp, by simp, by simp, by simp, fun e => ?_⟩
  simp [start_control_return]

theorem stall_ep0_session (cfg : Config) (s : State) : session_eq (stall_ep0 cfg s) s := by
  simp [session_eq]

theorem send_zero_length_packet_ep0_session (s : State) :
    session_eq (send_zero_length_packet_ep0 s) s := by
  simp [session_eq]

theorem usb_send_in_buffer_session (s : State) (endpoint len : Nat) :
    session_eq (usb_send_in_buffer s endpoint len) s := by
  simp [session_eq]

theorem usb_arm_out_endpoint_session (cfg : Config) (s : State) (endpoint : Nat) :
    session_eq (usb_arm_out_endpoint cfg s endpoint) s := by
  simp [session_eq]

theorem app_call_session (cfg : Config) (s : State) (c : AppCall) :
    session_eq (app_call cfg s c) s := by
  cases c with
  | send_data_stage b l cb ctx =>
    have h := start_control_return_session cfg s b l l
    exact ⟨h.1, h.2.1, h.2.2.1, h.2.2.2.1, h.2.2.2.2⟩
  | start_receive_ep0_data_stage b l cb ctx => simp [session_eq, app_call]
  | send_in_buffer e l => exact usb_send_in_buffer_session s e l
  | arm_out_endpoint e => exact usb_arm_out_endpoint_session cfg s e

theorem app_calls_session (cfg : Config) (cs : List AppCall) :
    ∀ s : State, session_eq (cs.foldl (app_call cfg) s) s := by
  induction cs with
  | nil => intro s; exact session_eq_refl s
  | cons c t ih =>
    intro s
    rw [List.foldl_cons]
    exact session_eq_trans (ih _) (app_call_session cfg s c)

theorem handle_unknown_session (cfg : Config) (s : State) :
    session_eq (handle_unknown cfg s) s := by
  unfold handle_unknown
  cases cfg.UNKNOWN_SETUP_REQUEST_CALLBACK with
  | none => exact stall_ep0_session cfg s
  | some f =>
    simp only []
    split
    · exact session_eq_trans (stall_ep0_session cfg _) (app_calls_session cfg _ s)
    · exact app_calls_session cfg _ s

theorem handle_get_descriptor_session (cfg : Config) (s : State) (p : setup_packet) :
    session_eq (handle_get_descriptor cfg s p) s := by
  unfold handle_get_descriptor
  simp only []
  split
  · exact start_control_return_session _ _ _ _ _
  split
  · split
    · exact stall_ep0_session cfg s
    · exact start_control_return_session _ _ _ _ _
  split
  · cases cfg.USB_STRING_DESCRIPTOR_FUNC with
    | none => exact stall_ep0_session cfg s
    | some f =>
      simp only []
      split
      · exact stall_ep0_session cfg s
      · exact start_control_return_session _ _ _ _ _
  · cases cfg.UNKNOWN_GET_DESCRIPTOR_CALLBACK with
    | none => exact stall_ep0_session cfg s
    | some f =>
      simp only []
      split
      · exact stall_ep0_session cfg s
      · exact start_control_return_session _ _ _ _ _

theorem handle_get_status_session (cfg : Config) (s : State) (p : setup_packet) :
    session_eq (handle_get_status cfg s p) s := by
  unfold handle_get_status
  cases cfg.GET_DEVICE_STATUS_CALLBACK <;> simp only [] <;> split_ifs <;> simp [session_eq]

theorem handle_feature_session (cfg : Config) (s : State) (p : setup_packet) :
    (handle_feature cfg s p).SFR_USB_ADDR = s.SFR_USB_ADDR ∧
    (handle_feature cfg s p).addr_pending = s.addr_pending ∧
    (handle_feature cfg s p).addr = s.addr ∧
    (handle_feature cfg s p).g_configuration = s.g_configuration ∧
    ∀ e, ((handle_feature cfg s p).ep_buf e).flags = feature_flags cfg p e (s.ep_buf e).flags := by
  unfold handle_feature feature_flags
  by_cases hacc : p.destination = 2 ∧ p.wValue = 0 ∧ (p.wIndex &&& 0x0f) ≤ cfg.NUM_ENDPOINT_NUMBERS
  · rw [if_pos hacc]
    by_cases hset : p.bRequest = SET_FEATURE <;> by_cases hdir : p.wIndex &&& 0x80 ≠ 0 <;>
      refine ⟨?_, ?_, ?_, ?_, fun e => ?_⟩ <;>
      first
      | (by_cases he : e = p.wIndex &&& 0x0f <;>
          simp [hacc, hset, hdir, he, stall_ep_in, stall_ep_out])
      | simp [hset, hdir]
  · rw [if_neg hacc]
    simp [hacc]

theorem handle_standard_control_request_session (cfg : Config) (s : State) :
    (handle_standard_control_request cfg s).1.SFR_USB_ADDR = s.SFR_USB_ADDR ∧
    (handle_standard_control_request cfg s).1.addr_pending =
      (if (get_setup (s.ep_buf 0).out).bRequest = SET_ADDRESS then true else s.addr_pending) ∧
    (handle_standard_control_request cfg s).1.addr =
      (if (get_setup (s.ep_buf 0).out).bRequest = SET_ADDRESS then
        (get_setup (s.ep_buf 0).out).wValue % 256 else s.addr) ∧
    (handle_standard_control_request cfg s).1.g_configuration =
      (if (get_setup (s.ep_buf 0).out).bRequest = SET_CONFIGURATION then
        (get_setup (s.ep_buf 0).out).wValue &&& 0x00ff else s.g_configuration) ∧
    ∀ e, ((handle_standard_control_request cfg s).1.ep_buf e).flags =
      (if (get_setup (s.ep_buf 0).out).bRequest = CLEAR_FEATURE ∨
          (get_setup (s.ep_buf 0).out).bRequest = SET_FEATURE then
        feature_flags cfg (get_setup (s.ep_buf 0).out) e (s.ep_buf e).flags
       else (s.ep_buf e).flags) := by
  unfold handle_standard_control_request
  generalize get_setup (s.ep_buf 0).out = p
  simp only []
  split
  · rename_i h
    obtain ⟨a1, a2, a3, a4, a5⟩ := handle_get_descriptor_session cfg s p
    simp [h, a1, a2, a3, a4, a5, GET_DESCRIPTOR, SET_ADDRESS, SET_CONFIGURATION, CLEAR_FEATURE,
      SET_FEATURE]
  split
  · rename_i h
    simp [h, GET_DESCRIPTOR, SET_ADDRESS, SET_CONFIGURATION, CLEAR_FEATURE, SET_FEATURE]
  split
  · rename_i h
    simp [h, GET_DESCRIPTOR, SET_ADDRESS, SET_CONFIGURATION, CLEAR_FEATURE, SET_FEATURE]
  split
  · rename_i h
    simp [h, GET_DESCRIPTOR, SET_ADDRESS, SET_CONFIGURATION, GET_CONFIGURATION, CLEAR_FEATURE,
      SET_FEATURE]
  split
  · rename_i h
    obtain ⟨a1, a2, a3, a4, a5⟩ := handle_get_status_session cfg s p
    simp [h, a1, a2, a3, a4, a5, GET_STATUS, SET_ADDRESS, SET_CONFIGURATION, CLEAR_FEATURE,
      SET_FEATURE]
  split
  · rename_i h
    cases cfg.SET_INTERFACE_CALLBACK with
    | none => simp [h, SET_INTERFACE, SET_ADDRESS, SET_CONFIGURATION, CLEAR_FEATURE, SET_FEATURE]
    | some f =>
      simp only []
      split <;> simp [h, SET_INTERFACE, SET_ADDRESS, SET_CONFIGURATION, CLEAR_FEATURE, SET_FEATURE]
  split
  · rename_i h
    cases cfg.GET_INTERFACE_CALLBACK with
    | none => simp [h, GET_INTERFACE, SET_ADDRESS, SET_CONFIGURATION, CLEAR_FEATURE, SET_FEATURE]
    | some f =>
      simp only []
      split <;> simp [h, GET_INTERFACE, SET_ADDRESS, SET_CONFIGURATION, CLEAR_FEATURE, SET_FEATURE]
  split
  · obtain ⟨a1, a2, a3, a4, a5⟩ := handle_feature_session cfg s p
    simp_all
  · simp_all

theorem handle_ep0_setup_session (cfg : Config) (s : State) :
    (handle_ep0_setup cfg s).SFR_USB_ADDR = s.SFR_USB_ADDR ∧
    (handle_ep0_setup cfg s).addr_pending =
      (if (get_setup (s.ep_buf 0).out).type = REQUEST_TYPE_STANDARD ∧
          (get_setup (s.ep_buf 0).out).bRequest = SET_ADDRESS then true else s.addr_pending) ∧
    (handle_ep0_setup cfg s).addr =
      (if (get_setup (s.ep_buf 0).out).type = REQUEST_TYPE_STANDARD ∧
          (get_setup (s.ep_buf 0).out).bRequest = SET_ADDRESS then
        (get_setup (s.ep_buf 0).out).wValue % 256 else s.addr) ∧
    (handle_ep0_setup cfg s).g_configuration =
      (if (get_setup (s.ep_buf 0).out).type = REQUEST_TYPE_STANDARD ∧
          (get_setup (s.ep_buf 0).out).bRequest = SET_CONFIGURATION then
        (get_setup (s.ep_buf 0).out).wValue &&& 0x00ff else s.g_configuration) ∧
    ∀ e, ((handle_ep0_setup cfg s).ep_buf e).flags =
      (if (get_setup (s.ep_buf 0).out).type = REQUEST_TYPE_STANDARD ∧
          ((get_setup (s.ep_buf 0).out).bRequest = CLEAR_FEATURE ∨
            (get_setup (s.ep_buf 0).out).bRequest = SET_FEATURE) then
        feature_flags cfg (get_setup (s.ep_buf 0).out) e (s.ep_buf e).flags
       else (s.ep_buf e).flags) := by
  obtain ⟨a1, a2, a3, a4, a5⟩ :=
    handle_standard_control_request_session cfg (ep0_setup_break_pending s)
  simp only [ep0_setup_break_pending_frame] at a1 a2 a3 a4 a5
  unfold handle_ep0_setup ep0_setup_dispatch
  simp only [ep0_setup_break_pending_frame]
  by_cases ht : (get_setup (s.ep_buf 0).out).type = REQUEST_TYPE_STANDARD
  · simp only [and_iff_right ht, if_pos ht]
    split
    · obtain ⟨u1, u2, u3, u4, u5⟩ :=
        handle_unknown_session cfg (handle_standard_control_request cfg (ep0_setup_break_pending s)).1
      exact ⟨u1.trans a1, u2.trans a2, u3.trans a3, u4.trans a4, fun e => (u5 e).trans (a5 e)⟩
    · exact ⟨a1, a2, a3, a4, a5⟩
  · simp only [if_neg ht, ht, false_and, if_false]
    obtain ⟨u1, u2, u3, u4, u5⟩ := handle_unknown_session cfg (ep0_setup_break_pending s)
    simp only [ep0_setup_break_pending_frame] at u1 u2 u3 u4 u5
    exact ⟨u1, u2, u3, u4, u5⟩

theorem handle_ep0_out_session (cfg : Config) (s : State) :
    session_eq (handle_ep0_out cfg s) s := by
  unfold handle_ep0_out
  simp only []
  split
  · simp [session_eq]
  · cases s.ep0_data_stage_out_buffer with
    | none => exact session_eq_refl s
    | some d =>
      simp only []
      split
      · split <;> simp [session_eq]
      · simp [session_eq]

theorem handle_ep0_in_session (cfg : Config) (s : State) :
    (handle_ep0_in cfg s).SFR_USB_ADDR = (if s.addr_pending then s.addr else s.SFR_USB_ADDR) ∧
    (handle_ep0_in cfg s).addr_pending = false ∧
    (handle_ep0_in cfg s).addr = s.addr ∧
    (handle_ep0_in cfg s).g_configuration = s.g_configuration ∧
    ∀ e, ((handle_ep0_in cfg s).ep_buf e).flags = (s.ep_buf e).flags := by
  obtain ⟨i1, i2⟩ := handle_ep0_in_address cfg s
  refine ⟨i1, i2, ?_, ?_, ?_⟩
  · unfold handle_ep0_in; simp only []; cases h : s.addr_pending <;> simp [h]
  · unfold handle_ep0_in; simp only []; cases h : s.addr_pending <;> simp [h]
  · intro e
    unfold handle_ep0_in; simp only []; cases h : s.addr_pending <;> simp [h] <;> split_ifs <;> simp


/-! ## SET_CONFIGURATION and GET_CONFIGURATION -/

theorem and_0xff (v : Nat) : v &&& 0x00ff = v % 256 :=
  Nat.and_pow_two_sub_one_eq_mod v 8

theorem zlp_in_packet (s : State) :
    in_packet (send_zero_length_packet_ep0 s) 0 = some [] := by
  simp [in_packet, send_zero_length_packet_ep0, SET_BDN]

theorem handle_ep0_setup_set_configuration (cfg : Config) (s : State)
    (ht : (get_setup (s.ep_buf 0).out).type = REQUEST_TYPE_STANDARD)
    (hq : (get_setup (s.ep_buf 0).out).bRequest = SET_CONFIGURATION) :
    handle_ep0_setup cfg s =
      { send_zero_length_packet_ep0
          (if cfg.SET_CONFIGURATION_CALLBACK = true then
            (ep0_setup_break_pending s).emit
              (.set_configuration_callback ((get_setup (s.ep_buf 0).out).wValue &&& 0x00ff))
           else ep0_setup_break_pending s) with
        g_configuration := (get_setup (s.ep_buf 0).out).wValue &&& 0x00ff } := by
  unfold handle_ep0_setup ep0_setup_dispatch handle_standard_control_request
  simp [ht, hq, SET_ADDRESS, GET_DESCRIPTOR, SET_CONFIGURATION]

theorem handle_ep0_setup_get_configuration (cfg : Config) (s : State)
    (ht : (get_setup (s.ep_buf 0).out).type = REQUEST_TYPE_STANDARD)
    (hq : (get_setup (s.ep_buf 0).out).bRequest = GET_CONFIGURATION) :
    in_packet (handle_ep0_setup cfg s) 0 = some [s.g_configuration] := by
  unfold handle_ep0_setup ep0_setup_dispatch handle_standard_control_request
  simp [ht, hq, SET_ADDRESS, GET_DESCRIPTOR, SET_CONFIGURATION, GET_CONFIGURATION, in_packet,
    SET_BDN, List.range_succ]

/-- C11: handling SET_CONFIGURATION(v) makes the configuration value the low byte of
`v` at once (in `handle_ep0_setup`, before any IN completion) and queues a
zero-length packet on endpoint 0 IN; `usb_get_configuration` then returns that
value, and a following GET_CONFIGURATION request answers the 1-byte IN packet that
holds it. -/
theorem set_configuration_immediate (cfg : Config) (s : State) (v : Nat)
    (ht : (get_setup (s.ep_buf 0).out).type = REQUEST_TYPE_STANDARD)
    (hq : (get_setup (s.ep_buf 0).out).bRequest = SET_CONFIGURATION)
    (hw : (get_setup (s.ep_buf 0).out).wValue = v) :
    (handle_ep0_setup cfg s).g_configuration = v % 256 ∧
    usb_get_configuration (handle_ep0_setup cfg s) = v % 256 ∧
    in_packet (handle_ep0_setup cfg s) 0 = some [] ∧
    in_packet (ep0_setup_packet cfg (handle_ep0_setup cfg s) get_configuration) 0 =
      some [v % 256] := by
  have e := handle_ep0_setup_set_configuration cfg s ht hq
  have hg : (handle_ep0_setup cfg s).g_configuration = v % 256 := by
    rw [e, hw, and_0xff]
  refine ⟨hg, hg, ?_, ?_⟩
  · rw [e]
    simp [in_packet, send_zero_length_packet_ep0, SET_BDN]
  · have hd := get_setup_receive (handle_ep0_setup cfg s) PID_SETUP get_configuration
      (by simp [get_configuration]) (by simp [get_configuration]) (by simp [get_configuration])
      (by simp [get_configuration, GET_CONFIGURATION]) (by simp [get_configuration])
      (by simp [get_configuration]) (by simp [get_configuration])
    unfold ep0_setup_packet
    rw [handle_ep0_setup_get_configuration cfg _ (by rw [hd]; rfl) (by rw [hd]; rfl)]
    simp [hg]

/-- Witness of C11: SET_CONFIGURATION(1) received after power-up. -/
theorem set_configuration_immediate_witness :
    ((get_setup ((sie_receive_ep0 power_on PID_SETUP
        (setup_bytes (set_configuration 1))).ep_buf 0).out).type = REQUEST_TYPE_STANDARD ∧
      (get_setup ((sie_receive_ep0 power_on PID_SETUP
        (setup_bytes (set_configuration 1))).ep_buf 0).out).bRequest = SET_CONFIGURATION ∧
      (get_setup ((sie_receive_ep0 power_on PID_SETUP
        (setup_bytes (set_configuration 1))).ep_buf 0).out).wValue = 1) ∧
    usb_get_configuration (ep0_setup_packet demo_config power_on (set_configuration 1)) = 1 ∧
    in_packet (ep0_setup_packets demo_config power_on [set_configuration 1, get_configuration]) 0 =
      some [1] :=
  ⟨by decide,
    (set_configuration_immediate demo_config
      (sie_receive_ep0 power_on PID_SETUP (setup_bytes (set_configuration 1))) 1
      (by decide) (by decide) (by decide)).2.1,
    (set_configuration_immediate demo_config
      (sie_receive_ep0 power_on PID_SETUP (setup_bytes (set_configuration 1))) 1
      (by decide) (by decide) (by decide)).2.2.2⟩

/-! ## Session state and halt flags across `usb_service` -/

theorem reset_bd0_out_session (cfg : Config) (s : State) : session_eq (reset_bd0_out cfg s) s := by
  simp [session_eq]

theorem usb_service_token_session (cfg : Config) (f : usb_flags) (s : State)
    (ht : f.SFR_USB_TOKEN_IF = true) :
    (usb_service_token cfg f s).SFR_USB_ADDR =
      (if in_token f ∧ s.addr_pending = true then s.addr else s.SFR_USB_ADDR) ∧
    (usb_service_token cfg f s).addr_pending =
      (if setup_token f s ∧ (get_setup (s.ep_buf 0).out).type = REQUEST_TYPE_STANDARD ∧
          (get_setup (s.ep_buf 0).out).bRequest = SET_ADDRESS then true
       else if in_token f then false else s.addr_pending) ∧
    (usb_service_token cfg f s).addr =
      (if setup_token f s ∧ (get_setup (s.ep_buf 0).out).type = REQUEST_TYPE_STANDARD ∧
          (get_setup (s.ep_buf 0).out).bRequest = SET_ADDRESS then
        (get_setup (s.ep_buf 0).out).wValue % 256 else s.addr) ∧
    (usb_service_token cfg f s).g_configuration =
      (if setup_token f s ∧ (get_setup (s.ep_buf 0).out).type = REQUEST_TYPE_STANDARD ∧
          (get_setup (s.ep_buf 0).out).bRequest = SET_CONFIGURATION then
        (get_setup (s.ep_buf 0).out).wValue &&& 0x00ff else s.g_configuration) ∧
    ∀ e, ((usb_service_token cfg f s).ep_buf e).flags =
      (if setup_token f s ∧ (get_setup (s.ep_buf 0).out).type = REQUEST_TYPE_STANDARD ∧
          ((get_setup (s.ep_buf 0).out).bRequest = CLEAR_FEATURE ∨
            (get_setup (s.ep_buf 0).out).bRequest = SET_FEATURE) then
        feature_flags cfg (get_setup (s.ep_buf 0).out) e (s.ep_buf e).flags
       else (s.ep_buf e).flags) := by
  unfold usb_service_token setup_token in_token
  by_cases h00 : f.SFR_USB_STATUS_EP = 0 ∧ f.SFR_USB_STATUS_DIR = 0
  · have hn1 : ¬ (f.SFR_USB_STATUS_DIR = 1) := by omega
    rw [if_pos h00]
    by_cases hp : (s.bds 0).ep_out.PID = PID_SETUP
    · obtain ⟨a1, a2, a3, a4, a5⟩ := handle_ep0_setup_session cfg s
      simp [ht, h00, hp, hn1, a1, a2, a3, a4, a5]
    · have hs : session_eq
          (if (s.bds 0).ep_out.PID = PID_SETUP then handle_ep0_setup cfg s
           else if (s.bds 0).ep_out.PID = PID_IN then s
           else if (s.bds 0).ep_out.PID = PID_OUT then handle_ep0_out cfg s
           else stall_ep0 cfg s) s := by
        rw [if_neg hp]
        split
        · exact session_eq_refl s
        · split
          · exact handle_ep0_out_session cfg s
          · exact stall_ep0_session cfg s
      have c1 : ¬ (f.SFR_USB_TOKEN_IF = true ∧ f.SFR_USB_STATUS_EP = 0 ∧ f.SFR_USB_STATUS_DIR = 0 ∧
          (s.bds 0).ep_out.PID = PID_SETUP) := fun h => hp h.2.2.2
      have c2 : ¬ (f.SFR_USB_TOKEN_IF = true ∧ f.SFR_USB_STATUS_EP = 0 ∧
          f.SFR_USB_STATUS_DIR = 1) := fun h => hn1 h.2.2
      simp only [c1, c2, false_and, if_false]
      exact session_eq_trans (reset_bd0_out_session cfg _) hs
  · rw [if_neg h00]
    by_cases h01 : f.SFR_USB_STATUS_EP = 0 ∧ f.SFR_USB_STATUS_DIR = 1
    · have hn0 : ¬ (f.SFR_USB_STATUS_DIR = 0) := by omega
      rw [if_pos h01]
      obtain ⟨a1, a2, a3, a4, a5⟩ := handle_ep0_in_session cfg s
      simp [ht, h01, hn0, a1, a2, a3, a4, a5]
    · rw [if_neg h01]
      have hne : ¬ (f.SFR_USB_STATUS_EP = 0 ∧ f.SFR_USB_STATUS_DIR = 0 ∧
          (s.bds 0).ep_out.PID = PID_SETUP) := fun h => h00 ⟨h.1, h.2.1⟩
      simp only [ht, true_and, hne, h01, false_and, if_false]
      split_ifs <;> simp [stall_ep_in, stall_ep_out]

theorem usb_service_session (cfg : Config) (f : usb_flags) (s : State)
    (hr : f.SFR_USB_RESET_IF = false) :
    (usb_service cfg f s).SFR_USB_ADDR =
      (if in_token f ∧ s.addr_pending = true then s.addr else s.SFR_USB_ADDR) ∧
    (usb_service cfg f s).addr_pending =
      (if setup_token f s ∧ (get_setup (s.ep_buf 0).out).type = REQUEST_TYPE_STANDARD ∧
          (get_setup (s.ep_buf 0).out).bRequest = SET_ADDRESS then true
       else if in_token f then false else s.addr_pending) ∧
    (usb_service cfg f s).addr =
      (if setup_token f s ∧ (get_setup (s.ep_buf 0).out).type = REQUEST_TYPE_STANDARD ∧
          (get_setup (s.ep_buf 0).out).bRequest = SET_ADDRESS then
        (get_setup (s.ep_buf 0).out).wValue % 256 else s.addr) ∧
    (usb_service cfg f s).g_configuration =
      (if setup_token f s ∧ (get_setup (s.ep_buf 0).out).type = REQUEST_TYPE_STANDARD ∧
          (get_setup (s.ep_buf 0).out).bRequest = SET_CONFIGURATION then
        (get_setup (s.ep_buf 0).out).wValue &&& 0x00ff else s.g_configuration) ∧
    ∀ e, ((usb_service cfg f s).ep_buf e).flags =
      (if setup_token f s ∧ (get_setup (s.ep_buf 0).out).type = REQUEST_TYPE_STANDARD ∧
          ((get_setup (s.ep_buf 0).out).bRequest = CLEAR_FEATURE ∨
            (get_setup (s.ep_buf 0).out).bRequest = SET_FEATURE) then
        feature_flags cfg (get_setup (s.ep_buf 0).out) e (s.ep_buf e).flags
       else (s.ep_buf e).flags) := by
  have hsof : ∀ t : State, session_eq
      (if f.SFR_USB_SOF_IF = true ∧ cfg.START_OF_FRAME_CALLBACK = true then
        t.emit .start_of_frame_callback else t) t := by
    intro t
    split
    · simp [session_eq]
    · exact session_eq_refl t
  unfold usb_service
  simp only [hr, Bool.false_eq_true, if_false]
  by_cases ht : f.SFR_USB_TOKEN_IF = true
  · simp only [ht, if_true]
    obtain ⟨a1, a2, a3, a4, a5⟩ := usb_service_token_session cfg f s ht
    obtain ⟨b1, b2, b3, b4, b5⟩ := hsof (usb_service_token cfg f s)
    exact ⟨b1.trans a1, b2.trans a2, b3.trans a3, b4.trans a4, fun e => (b5 e).trans (a5 e)⟩
  · have c1 : ¬ setup_token f s := fun h => ht h.1
    have c2 : ¬ in_token f := fun h => ht h.1
    simp only [ht, if_false, c1, c2, false_and]
    exact hsof s

theorem setup_deposit_decoded (s : State) (p : setup_packet) :
    get_setup ((sie_receive_ep0 s PID_SETUP (setup_bytes p)).ep_buf 0).out = p.decoded := by
  simp [get_setup, setup_packet.decoded, sie_receive_ep0, setup_bytes]

theorem setup_deposit_pid (s : State) (data : List Nat) :
    ((sie_receive_ep0 s PID_SETUP data).bds 0).ep_out.PID = PID_SETUP := by
  simp [sie_receive_ep0, buffer_descriptor.PID, PID_SETUP]
  decide

theorem out_deposit_pid (s : State) (data : List Nat) :
    ((sie_receive_ep0 s PID_OUT data).bds 0).ep_out.PID = PID_OUT := by
  simp [sie_receive_ep0, buffer_descriptor.PID, PID_OUT]

/-! ## The halt flags of endpoint 0 -/

theorem feature_flags_ep0 (cfg : Config) (p : setup_packet)
    (h : ¬ (p.bRequest = SET_FEATURE ∧ p.destination = 2 ∧ p.wValue = 0 ∧ p.wIndex &&& 0x0f = 0)) :
    feature_flags cfg p 0 0 = 0 := by
  unfold feature_flags
  split_ifs with h1 h2 h3 h4
  · exact absurd ⟨h2, h1.1.1, h1.1.2.1, h1.2.symm⟩ h
  · exact absurd ⟨h2, h1.1.1, h1.1.2.1, h1.2.symm⟩ h
  · exact Nat.zero_and _
  · exact Nat.zero_and _
  · rfl

theorem bus_step_flags_ep0 (cfg : Config) (s : State) (ev : bus_event) (hev : ¬ ev.halts_ep0)
    (h : (s.ep_buf 0).flags = 0) : ((bus_step cfg s ev).ep_buf 0).flags = 0 := by
  cases ev with
  | reset =>
    have hi : ∀ t : State, ((usb_init cfg t).ep_buf 0).flags = 0 :=
      fun t => (usb_init_fields cfg t).1 0 (Nat.zero_le _)
    simp only [bus_step, usb_service, bus_reset]
    simp only [if_true, Bool.false_eq_true, if_false, false_and]
    exact hi _
  | setup p =>
    have h5 := (usb_service_session cfg (token_done 0 0)
      (sie_receive_ep0 s PID_SETUP (setup_bytes p)) rfl).2.2.2.2 0
    rw [setup_deposit_decoded, (sie_receive_ep0_fields s PID_SETUP (setup_bytes p)).2.2.1 0, h] at h5
    simp only [bus_step]
    rw [h5]
    split_ifs with hc
    · apply feature_flags_ep0
      intro hh
      exact hev ⟨hc.2.1, hh⟩
    · rfl
  | out data =>
    have h5 := (usb_service_session cfg (token_done 0 0)
      (sie_receive_ep0 s PID_OUT data) rfl).2.2.2.2 0
    have hn : ¬ setup_token (token_done 0 0) (sie_receive_ep0 s PID_OUT data) := by
      intro hh
      have := hh.2.2.2
      rw [out_deposit_pid] at this
      exact absurd this (by decide)
    rw [if_neg (fun hh => hn hh.1), (sie_receive_ep0_fields s PID_OUT data).2.2.1 0, h] at h5
    exact h5
  | in_done =>
    have h5 := (usb_service_session cfg (token_done 0 1) (sie_complete_in s 0) rfl).2.2.2.2 0
    have hn : ¬ setup_token (token_done 0 1) (sie_complete_in s 0) := by
      intro hh
      exact absurd hh.2.2.1 (by decide)
    rw [if_neg (fun hh => hn hh.1)] at h5
    simp only [bus_step]
    rw [h5]
    simpa using h
  | ep_done ep dir data =>
    simp only [bus_step]
    by_cases hd : dir = 1
    · rw [if_pos hd]
      have h5 := (usb_service_session cfg (token_done ep dir) (sie_complete_in s ep) rfl).2.2.2.2 0
      have hn : ¬ setup_token (token_done ep dir) (sie_complete_in s ep) := by
        intro hh
        have hd0 : dir = 0 := hh.2.2.1
        omega
      rw [if_neg (fun hh => hn (And.left hh))] at h5
      rw [h5]
      simpa using h
    · rw [if_neg hd]
      have h5 := (usb_service_session cfg (token_done ep dir) (sie_receive_ep s ep data) rfl).2.2.2.2 0
      have hn : ¬ setup_token (token_done ep dir) (sie_receive_ep s ep data) := by
        intro hh
        have he : ep = 0 := hh.2.1
        have hp := hh.2.2.2
        subst he
        simp [sie_receive_ep, buffer_descriptor.PID, PID_OUT, PID_SETUP] at hp
      rw [if_neg (fun hh => hn (And.left hh))] at h5
      rw [h5]
      simpa [sie_receive_ep] using h
  | app c =>
    simp only [bus_step]
    rw [(app_call_session cfg s c).2.2.2.2 0]
    exact h

theorem bus_run_flags_ep0 (cfg : Config) (evs : List bus_event) :
    ∀ s : State, (∀ ev ∈ evs, ¬ ev.halts_ep0) → (s.ep_buf 0).flags = 0 →
      ((bus_run cfg s evs).ep_buf 0).flags = 0 := by
  induction evs with
  | nil => intro s _ h; exact h
  | cons ev evs ih =>
    intro s hev h
    simp only [bus_run, List.foldl_cons]
    exact ih _ (fun e he => hev e (List.mem_cons_of_mem _ he))
      (bus_step_flags_ep0 cfg s ev (hev ev (List.mem_cons_self _ _)) h)

/-- C12 as stated fails: after power-up the host sends SET_FEATURE(ENDPOINT_HALT) with
`wIndex = 0x80` (endpoint 0, IN) and the status stage completes; endpoint 0 is then
IN-halted, and `usb_send_in_buffer(0, 2)` is suppressed: the IN descriptor is left
as it was and no packet is handed to the hardware.  With `wIndex = 0` the OUT halt
flag of endpoint 0 is set. -/
theorem set_feature_halts_endpoint_zero :
    usb_in_endpoint_halted
      (bus_run demo_config power_on [.setup (set_feature_halt 0x80), .in_done]) 0 = true ∧
    ((usb_send_in_buffer
        (bus_run demo_config power_on [.setup (set_feature_halt 0x80), .in_done]) 0 2).bds 0).ep_in =
      ((bus_run demo_config power_on [.setup (set_feature_halt 0x80), .in_done]).bds 0).ep_in ∧
    in_packet (usb_send_in_buffer
      (bus_run demo_config power_on [.setup (set_feature_halt 0x80), .in_done]) 0 2) 0 = none ∧
    usb_out_endpoint_halted
      (bus_run demo_config power_on [.setup (set_feature_halt 0x00), .in_done]) 0 = true := by
  decide

/-- C12 amended: in every state reached from `usb_init` by a sequence of events (bus
resets, SETUP packets, endpoint-0 OUT packets, IN completions, completions on other
endpoints, application calls) none of which is a SET_FEATURE(ENDPOINT_HALT) request
addressed to endpoint 0, endpoint 0 is neither IN-halted nor OUT-halted, and
`usb_send_in_buffer(0, len)` is not suppressed: it hands the endpoint-0 IN
descriptor to the hardware with byte count `len` and the toggle bit flipped. -/
theorem endpoint_zero_not_halted (cfg : Config) (s0 : State) (evs : List bus_event) (len : Nat)
    (h : ∀ ev ∈ evs, ¬ ev.halts_ep0) :
    usb_in_endpoint_halted (bus_run cfg (usb_init cfg s0) evs) 0 = false ∧
    usb_out_endpoint_halted (bus_run cfg (usb_init cfg s0) evs) 0 = false ∧
    ((usb_send_in_buffer (bus_run cfg (usb_init cfg s0) evs) 0 len).bds 0).ep_in =
      ⟨if ((bus_run cfg (usb_init cfg s0) evs).bds 0).ep_in.DTS = true then
          BDNSTAT_UOWN ||| BDNSTAT_DTSEN
        else BDNSTAT_UOWN ||| BDNSTAT_DTS ||| BDNSTAT_DTSEN, len⟩ := by
  have hf := bus_run_flags_ep0 cfg evs (usb_init cfg s0) h
    ((usb_init_fields cfg s0).1 0 (Nat.zero_le _))
  have hin : usb_in_endpoint_halted (bus_run cfg (usb_init cfg s0) evs) 0 = false := by
    simp [usb_in_endpoint_halted, hf]
  refine ⟨hin, ?_, usb_send_in_buffer_sends _ 0 len (Or.inr rfl) hin⟩
  simp [usb_out_endpoint_halted, hf]

theorem endpoint_zero_not_halted_witness :
    (∀ ev ∈ [bus_event.setup (set_feature_halt 0x81), .in_done,
        .setup (clear_feature_halt 0x80), .in_done, .app (.send_in_buffer 0 2)],
      ¬ ev.halts_ep0) ∧
    usb_in_endpoint_halted (bus_run demo_config (usb_init demo_config zero_state)
      [.setup (set_feature_halt 0x81), .in_done, .setup (clear_feature_halt 0x80), .in_done,
        .app (.send_in_buffer 0 2)]) 0 = false ∧
    usb_out_endpoint_halted (bus_run demo_config (usb_init demo_config zero_state)
      [.setup (set_feature_halt 0x81), .in_done, .setup (clear_feature_halt 0x80), .in_done,
        .app (.send_in_buffer 0 2)]) 0 = false ∧
    ((usb_send_in_buffer (bus_run demo_config (usb_init demo_config zero_state)
      [.setup (set_feature_halt 0x81), .in_done, .setup (clear_feature_halt 0x80), .in_done,
        .app (.send_in_buffer 0 2)]) 0 3).bds 0).ep_in =
      ⟨if ((bus_run demo_config (usb_init demo_config zero_state)
          [.setup (set_feature_halt 0x81), .in_done, .setup (clear_feature_halt 0x80), .in_done,
            .app (.send_in_buffer 0 2)]).bds 0).ep_in.DTS = true then
          BDNSTAT_UOWN ||| BDNSTAT_DTSEN
        else BDNSTAT_UOWN ||| BDNSTAT_DTS ||| BDNSTAT_DTSEN, 3⟩ :=
  ⟨by decide, endpoint_zero_not_halted demo_config zero_state _ 3 (by decide)⟩

/-! ## The data toggle after a halt is cleared; `usb_send_in_buffer` and `usb_arm_out_endpoint` -/

theorem set_feature_halt_configuration (cfg : Config) (t : State) (wi : Nat) (hwi : wi < 65536) :
    (ep0_setup_packet cfg t (set_feature_halt wi)).g_configuration = t.g_configuration := by
  unfold ep0_setup_packet
  rw [(handle_ep0_setup_session cfg _).2.2.2.1, (get_setup_receive_halt t wi hwi).1]
  simp [set_feature_halt, SET_FEATURE, SET_CONFIGURATION]

/-- C13: for every `wIndex` value `wi` that addresses the IN direction (bit 7 set) of
an endpoint `e = wi & 0x0f` in `1..NUM_ENDPOINT_NUMBERS`, from every state with a
non-zero configuration value (whatever the IN descriptor of `e` holds): after
SET_FEATURE(ENDPOINT_HALT) followed by CLEAR_FEATURE(ENDPOINT_HALT), the endpoint is
not IN-halted, its IN descriptor is owned by the firmware with the toggle bit set
and no stall flag, and the next `usb_send_in_buffer(e, len)` hands the descriptor to
the hardware with byte count `len`, toggle checking enabled, no stall flag and the
DATA0 toggle. -/
theorem send_after_halt_cycle_uses_data0 (cfg : Config) (s : State) (wi len : Nat)
    (hwi : wi < 65536) (hdir : wi &&& 0x80 ≠ 0) (h1 : 1 ≤ wi &&& 0x0f)
    (he : wi &&& 0x0f ≤ cfg.NUM_ENDPOINT_NUMBERS) (hc : s.g_configuration ≠ 0) :
    usb_in_endpoint_halted
      (ep0_setup_packets cfg s [set_feature_halt wi, clear_feature_halt wi]) (wi &&& 0x0f) = false ∧
    ((ep0_setup_packets cfg s [set_feature_halt wi, clear_feature_halt wi]).bds (wi &&& 0x0f)).ep_in =
      ⟨BDNSTAT_DTS, cfg.in_len (wi &&& 0x0f)⟩ ∧
    ((usb_send_in_buffer (ep0_setup_packets cfg s [set_feature_halt wi, clear_feature_halt wi])
      (wi &&& 0x0f) len).bds (wi &&& 0x0f)).ep_in = ⟨BDNSTAT_UOWN ||| BDNSTAT_DTSEN, len⟩ ∧
    ((usb_send_in_buffer (ep0_setup_packets cfg s [set_feature_halt wi, clear_feature_halt wi])
      (wi &&& 0x0f) len).bds (wi &&& 0x0f)).ep_in.UOWN = true ∧
    ((usb_send_in_buffer (ep0_setup_packets cfg s [set_feature_halt wi, clear_feature_halt wi])
      (wi &&& 0x0f) len).bds (wi &&& 0x0f)).ep_in.DTS = false ∧
    ((usb_send_in_buffer (ep0_setup_packets cfg s [set_feature_halt wi, clear_feature_halt wi])
      (wi &&& 0x0f) len).bds (wi &&& 0x0f)).ep_in.DTSEN = true ∧
    ((usb_send_in_buffer (ep0_setup_packets cfg s [set_feature_halt wi, clear_feature_halt wi])
      (wi &&& 0x0f) len).bds (wi &&& 0x0f)).ep_in.BSTALL = false := by
  have hrun : ep0_setup_packets cfg s [set_feature_halt wi, clear_feature_halt wi] =
      ep0_setup_packet cfg (ep0_setup_packet cfg s (set_feature_halt wi)) (clear_feature_halt wi) :=
    rfl
  rw [hrun]
  generalize hm : ep0_setup_packet cfg s (set_feature_halt wi) = m
  have hmc : m.g_configuration = s.g_configuration := by
    rw [← hm]; exact set_feature_halt_configuration cfg s wi hwi
  obtain ⟨_, _, _, a4, _, _, _, _, a9, _⟩ := clear_feature_halt_fields cfg m wi hwi he
  have hne0 : ¬ (wi &&& 0x0f = 0) := by omega
  have hbd : ((ep0_setup_packet cfg m (clear_feature_halt wi)).bds (wi &&& 0x0f)).ep_in =
      ⟨BDNSTAT_DTS, cfg.in_len (wi &&& 0x0f)⟩ := by
    rw [a4, if_neg hne0, if_pos ⟨rfl, hdir⟩]
  have hh : usb_in_endpoint_halted (ep0_setup_packet cfg m (clear_feature_halt wi))
      (wi &&& 0x0f) = false := by
    have := clear_feature_halt_clears cfg m wi hwi he
    unfold endpoint_halted at this
    rwa [if_pos hdir] at this
  have hcfg : (ep0_setup_packet cfg m (clear_feature_halt wi)).g_configuration > 0 := by
    rw [a9, hmc]; omega
  have hsend := usb_send_in_buffer_sends (ep0_setup_packet cfg m (clear_feature_halt wi))
    (wi &&& 0x0f) len (Or.inl hcfg) hh
  rw [hbd] at hsend
  simp only [stat_tests, if_true] at hsend
  rw [hsend]
  exact ⟨hh, hbd, rfl, by simp, by simp, by simp, by simp⟩

/-- Witness of C13: endpoint 1 IN (`wIndex` 0x81) of the demo device in configuration 1. -/
theorem send_after_halt_cycle_uses_data0_witness :
    ((0x81 : Nat) < 65536 ∧ 0x81 &&& 0x80 ≠ 0 ∧ 1 ≤ 0x81 &&& 0x0f ∧
      0x81 &&& 0x0f ≤ demo_config.NUM_ENDPOINT_NUMBERS ∧
      (ep0_setup_packet demo_config power_on (set_configuration 1)).g_configuration ≠ 0) ∧
    ((usb_send_in_buffer (ep0_setup_packets demo_config
        (ep0_setup_packet demo_config power_on (set_configuration 1))
        [set_feature_halt 0x81, clear_feature_halt 0x81]) (0x81 &&& 0x0f) 5).bds
      (0x81 &&& 0x0f)).ep_in.DTS = false :=
  ⟨by decide,
    (send_after_halt_cycle_uses_data0 demo_config
      (ep0_setup_packet demo_config power_on (set_configuration 1)) 0x81 5 (by decide) (by decide)
      (by decide) (by decide) (by decide)).2.2.2.2.1⟩

theorem dts_after_completion (a : Nat) :
    ((a &&& BDNSTAT_DTS) ||| (PID_IN <<< 2)) &&& BDNSTAT_DTS = a &&& BDNSTAT_DTS := by
  unfold BDNSTAT_DTS PID_IN
  rw [Nat.and_distrib_right, Nat.and_assoc, show (0x40 &&& 0x40 : Nat) = 0x40 by decide,
    show ((9 <<< 2) &&& 0x40 : Nat) = 0 by decide, Nat.or_zero]

theorem sie_complete_in_toggle (s : State) (ep : Nat) :
    ((sie_complete_in s ep).bds ep).ep_in.DTS = (s.bds ep).ep_in.DTS ∧
    ((sie_complete_in s ep).bds ep).ep_in.UOWN = false := by
  constructor
  · simp [sie_complete_in, buffer_descriptor.DTS, dts_after_completion]
  · simp only [sie_complete_in, State.set_ep_in_bds, if_true, buffer_descriptor.UOWN]
    have h : ((s.bds ep).ep_in.BDnSTAT &&& BDNSTAT_DTS ||| PID_IN <<< 2) &&& BDNSTAT_UOWN = 0 := by
      unfold BDNSTAT_DTS PID_IN BDNSTAT_UOWN
      rw [Nat.and_distrib_right, Nat.and_assoc, show (0x40 &&& 0x80 : Nat) = 0 by decide,
        show ((9 <<< 2) &&& 0x80 : Nat) = 0 by decide, Nat.and_zero]
      rfl
    simp [h]

theorem usb_send_in_buffer_toggle (s : State) (e len : Nat)
    (hc : e = 0 ∨ s.g_configuration ≠ 0) (hh : usb_in_endpoint_halted s e = false) :
    ((usb_send_in_buffer s e len).bds e).ep_in.UOWN = true ∧
    ((usb_send_in_buffer s e len).bds e).ep_in.BDnCNT = len ∧
    ((usb_send_in_buffer s e len).bds e).ep_in.DTSEN = true ∧
    ((usb_send_in_buffer s e len).bds e).ep_in.BSTALL = false ∧
    ((usb_send_in_buffer s e len).bds e).ep_in.DTS = !(s.bds e).ep_in.DTS := by
  have hc2 : s.g_configuration > 0 ∨ e = 0 := by
    rcases hc with h | h
    · exact Or.inr h
    · exact Or.inl (Nat.pos_of_ne_zero h)
  rw [usb_send_in_buffer_sends s e len hc2 hh]
  cases hd : (s.bds e).ep_in.DTS <;> simp

/-- C14: for every endpoint `e` that is not IN-halted, with `e = 0` or a non-zero
configuration value, and every length `len`, `usb_send_in_buffer(e, len)` leaves the
IN descriptor of `e` owned by the hardware with byte count `len`, toggle checking
enabled, the stall flag clear and the toggle bit the negation of the toggle bit
before the call; it changes no other IN descriptor and no OUT descriptor; a second
send, directly or after the hardware has completed the first transaction, uses
the opposite toggle of the first. -/
theorem usb_send_in_buffer_effect (s : State) (e len len2 : Nat)
    (hc : e = 0 ∨ s.g_configuration ≠ 0) (hh : usb_in_endpoint_halted s e = false) :
    ((usb_send_in_buffer s e len).bds e).ep_in.UOWN = true ∧
    ((usb_send_in_buffer s e len).bds e).ep_in.BDnCNT = len ∧
    ((usb_send_in_buffer s e len).bds e).ep_in.DTSEN = true ∧
    ((usb_send_in_buffer s e len).bds e).ep_in.BSTALL = false ∧
    ((usb_send_in_buffer s e len).bds e).ep_in.DTS = (!(s.bds e).ep_in.DTS) ∧
    (∀ i, i ≠ e → ((usb_send_in_buffer s e len).bds i).ep_in = (s.bds i).ep_in) ∧
    (∀ i, ((usb_send_in_buffer s e len).bds i).ep_out = (s.bds i).ep_out) ∧
    ((usb_send_in_buffer (usb_send_in_buffer s e len) e len2).bds e).ep_in.DTS =
      (!((usb_send_in_buffer s e len).bds e).ep_in.DTS) ∧
    ((usb_send_in_buffer (sie_complete_in (usb_send_in_buffer s e len) e) e len2).bds e).ep_in.DTS =
      (!((usb_send_in_buffer s e len).bds e).ep_in.DTS) := by
  obtain ⟨a1, a2, a3, a4, a5⟩ := usb_send_in_buffer_toggle s e len hc hh
  have hc1 : e = 0 ∨ (usb_send_in_buffer s e len).g_configuration ≠ 0 := by simpa using hc
  have hh1 : usb_in_endpoint_halted (usb_send_in_buffer s e len) e = false := by
    simpa [usb_in_endpoint_halted] using hh
  have hc2 : e = 0 ∨ (sie_complete_in (usb_send_in_buffer s e len) e).g_configuration ≠ 0 := by
    simpa using hc
  have hh2 : usb_in_endpoint_halted (sie_complete_in (usb_send_in_buffer s e len) e) e = false := by
    simpa [usb_in_endpoint_halted] using hh
  refine ⟨a1, a2, a3, a4, a5, ?_, ?_,
    (usb_send_in_buffer_toggle _ e len2 hc1 hh1).2.2.2.2, ?_⟩
  · intro i hi
    unfold usb_send_in_buffer
    split
    · simp only []
      split <;> simp [hi]
    · rfl
  · intro i
    unfold usb_send_in_buffer
    split
    · simp only []
      split <;> simp
    · rfl
  · rw [(usb_send_in_buffer_toggle _ e len2 hc2 hh2).2.2.2.2, (sie_complete_in_toggle _ e).1]

/-- Witness of C14: endpoint 0 after power-up, two sends of 3 and 4 bytes. -/
theorem usb_send_in_buffer_effect_witness :
    (((0 : Nat) = 0 ∨ power_on.g_configuration ≠ 0) ∧ usb_in_endpoint_halted power_on 0 = false) ∧
    ((usb_send_in_buffer power_on 0 3).bds 0).ep_in.DTS = (!(power_on.bds 0).ep_in.DTS) ∧
    ((usb_send_in_buffer (usb_send_in_buffer power_on 0 3) 0 4).bds 0).ep_in.DTS =
      (!((usb_send_in_buffer power_on 0 3).bds 0).ep_in.DTS) :=
  ⟨by decide,
    (usb_send_in_buffer_effect power_on 0 3 4 (by decide) (by decide)).2.2.2.2.1,
    (usb_send_in_buffer_effect power_on 0 3 4 (by decide) (by decide)).2.2.2.2.2.2.2.1⟩

/-- C15: for every endpoint `e`, `usb_arm_out_endpoint(e)` leaves the OUT descriptor of
`e` owned by the hardware with the byte count `ep_buf[e].out_len`, toggle checking
enabled, the stall flag clear and the toggle bit the negation of the toggle bit
before the call; it changes no IN descriptor, no OUT descriptor of another endpoint
and no halt flag. -/
theorem usb_arm_out_endpoint_effect (cfg : Config) (s : State) (e : Nat) :
    ((usb_arm_out_endpoint cfg s e).bds e).ep_out.UOWN = true ∧
    ((usb_arm_out_endpoint cfg s e).bds e).ep_out.BDnCNT = cfg.out_len e ∧
    ((usb_arm_out_endpoint cfg s e).bds e).ep_out.DTSEN = true ∧
    ((usb_arm_out_endpoint cfg s e).bds e).ep_out.BSTALL = false ∧
    ((usb_arm_out_endpoint cfg s e).bds e).ep_out.DTS = (!(s.bds e).ep_out.DTS) ∧
    (∀ i, i ≠ e → ((usb_arm_out_endpoint cfg s e).bds i).ep_out = (s.bds i).ep_out) ∧
    (∀ i, ((usb_arm_out_endpoint cfg s e).bds i).ep_in = (s.bds i).ep_in) ∧
    (∀ i, ((usb_arm_out_endpoint cfg s e).ep_buf i).flags = (s.ep_buf i).flags) ∧
    (∀ i, usb_in_endpoint_halted (usb_arm_out_endpoint cfg s e) i = usb_in_endpoint_halted s i ∧
      usb_out_endpoint_halted (usb_arm_out_endpoint cfg s e) i = usb_out_endpoint_halted s i) := by
  unfold usb_arm_out_endpoint usb_in_endpoint_halted usb_out_endpoint_halted
  cases hd : (s.bds e).ep_out.DTS
  · refine ⟨?_, ?_, ?_, ?_, ?_, ?_, ?_, ?_, ?_⟩ <;> simp [SET_BDN]
    intro i hi; simp [hi]
  · refine ⟨?_, ?_, ?_, ?_, ?_, ?_, ?_, ?_, ?_⟩ <;> simp [SET_BDN]
    intro i hi; simp [hi]

/-! ## Requests that are refused -/

theorem stall_ep0_fields (cfg : Config) (s : State) :
    ep0_stalled cfg (stall_ep0 cfg s) ∧
    ((stall_ep0 cfg s).bds 0).ep_in.UOWN = true ∧
    ((stall_ep0 cfg s).bds 0).ep_in.BSTALL = true ∧
    in_packet (stall_ep0 cfg s) 0 = none ∧
    (∀ e, e ≠ 0 → (stall_ep0 cfg s).bds e = s.bds e) ∧
    (∀ e, ((stall_ep0 cfg s).bds e).ep_out = (s.bds e).ep_out) := by
  refine ⟨?_, ?_, ?_, ?_, ?_, ?_⟩
  · simp [ep0_stalled, stall_ep0, SET_BDN]
  · simp [stall_ep0, SET_BDN]
  · simp [stall_ep0, SET_BDN]
  · simp [in_packet, stall_ep0, SET_BDN]
  · intro e he
    simp [stall_ep0, State.set_ep_in, he]
  · intro e
    simp [stall_ep0]

/-- C16: a standard CLEAR_FEATURE or SET_FEATURE request whose destination is not an
endpoint, or whose feature selector `wValue` is not ENDPOINT_HALT (0), or whose
endpoint number `wIndex & 0x0f` exceeds `NUM_ENDPOINT_NUMBERS`, stalls endpoint 0
(the IN descriptor of endpoint 0 is handed to the hardware with the stall flag
set), queues no packet on endpoint 0 (in particular no zero-length status packet),
and changes no halt flag and no descriptor of another endpoint. -/
theorem invalid_feature_request_stalls (cfg : Config) (s : State)
    (ht : (get_setup (s.ep_buf 0).out).type = REQUEST_TYPE_STANDARD)
    (hq : (get_setup (s.ep_buf 0).out).bRequest = CLEAR_FEATURE ∨
      (get_setup (s.ep_buf 0).out).bRequest = SET_FEATURE)
    (hbad : (get_setup (s.ep_buf 0).out).destination ≠ 2 ∨
      (get_setup (s.ep_buf 0).out).wValue ≠ 0 ∨
      cfg.NUM_ENDPOINT_NUMBERS < (get_setup (s.ep_buf 0).out).wIndex &&& 0x0f) :
    ep0_stalled cfg (handle_ep0_setup cfg s) ∧
    ((handle_ep0_setup cfg s).bds 0).ep_in.UOWN = true ∧
    ((handle_ep0_setup cfg s).bds 0).ep_in.BSTALL = true ∧
    in_packet (handle_ep0_setup cfg s) 0 = none ∧
    (∀ e, ((handle_ep0_setup cfg s).ep_buf e).flags = (s.ep_buf e).flags) ∧
    (∀ e, usb_in_endpoint_halted (handle_ep0_setup cfg s) e = usb_in_endpoint_halted s e ∧
      usb_out_endpoint_halted (handle_ep0_setup cfg s) e = usb_out_endpoint_halted s e) ∧
    (∀ e, e ≠ 0 → (handle_ep0_setup cfg s).bds e = s.bds e) ∧
    (handle_ep0_setup cfg s).SFR_USB_ADDR = s.SFR_USB_ADDR ∧
    (handle_ep0_setup cfg s).g_configuration = s.g_configuration := by
  have hn : ¬ ((get_setup (s.ep_buf 0).out).destination = 2 ∧
      (get_setup (s.ep_buf 0).out).wValue = 0 ∧
      (get_setup (s.ep_buf 0).out).wIndex &&& 0x0f ≤ cfg.NUM_ENDPOINT_NUMBERS) := by
    rintro ⟨h1, h2, h3⟩
    rcases hbad with h | h | h
    · exact h h1
    · exact h h2
    · omega
  have e : handle_ep0_setup cfg s = stall_ep0 cfg (ep0_setup_break_pending s) := by
    rw [handle_ep0_setup_feature cfg s ht hq]
    unfold handle_feature
    rw [if_neg hn]
  obtain ⟨a1, a2, a3, a4, a5, _⟩ := stall_ep0_fields cfg (ep0_setup_break_pending s)
  rw [e]
  refine ⟨a1, a2, a3, a4, ?_, ?_, ?_, ?_, ?_⟩
  · intro i; simp
  · intro i; simp [usb_in_endpoint_halted, usb_out_endpoint_halted]
  · intro i hi; rw [a5 i hi]; simp
  · simp
  · simp

/-- Witness of C16: SET_FEATURE(ENDPOINT_HALT) for endpoint 2 IN on the demo device,
which has the endpoints 0 and 1. -/
theorem invalid_feature_request_stalls_witness :
    ((get_setup ((sie_receive_ep0 power_on PID_SETUP (setup_bytes (set_feature_halt 0x82))).ep_buf
        0).out).type = REQUEST_TYPE_STANDARD ∧
      ((get_setup ((sie_receive_ep0 power_on PID_SETUP
          (setup_bytes (set_feature_halt 0x82))).ep_buf 0).out).bRequest = CLEAR_FEATURE ∨
        (get_setup ((sie_receive_ep0 power_on PID_SETUP
          (setup_bytes (set_feature_halt 0x82))).ep_buf 0).out).bRequest = SET_FEATURE) ∧
      demo_config.NUM_ENDPOINT_NUMBERS <
        (get_setup ((sie_receive_ep0 power_on PID_SETUP
          (setup_bytes (set_feature_halt 0x82))).ep_buf 0).out).wIndex &&& 0x0f) ∧
    ep0_stalled demo_config (ep0_setup_packet demo_config power_on (set_feature_halt 0x82)) ∧
    in_packet (ep0_setup_packet demo_config power_on (set_feature_halt 0x82)) 0 = none :=
  ⟨by decide,
    (invalid_feature_request_stalls demo_config
      (sie_receive_ep0 power_on PID_SETUP (setup_bytes (set_feature_halt 0x82))) (by decide)
      (by decide) (Or.inr (Or.inr (by decide)))).1,
    (invalid_feature_request_stalls demo_config
      (sie_receive_ep0 power_on PID_SETUP (setup_bytes (set_feature_halt 0x82))) (by decide)
      (by decide) (Or.inr (Or.inr (by decide)))).2.2.2.1⟩

theorem handle_ep0_setup_unknown (cfg : Config) (s : State)
    (hunk : (get_setup (s.ep_buf 0).out).type ≠ REQUEST_TYPE_STANDARD ∨
      ((get_setup (s.ep_buf 0).out).bRequest ≠ GET_DESCRIPTOR ∧
       (get_setup (s.ep_buf 0).out).bRequest ≠ SET_ADDRESS ∧
       (get_setup (s.ep_buf 0).out).bRequest ≠ SET_CONFIGURATION ∧
       (get_setup (s.ep_buf 0).out).bRequest ≠ GET_CONFIGURATION ∧
       (get_setup (s.ep_buf 0).out).bRequest ≠ GET_STATUS ∧
       (get_setup (s.ep_buf 0).out).bRequest ≠ SET_INTERFACE ∧
       (get_setup (s.ep_buf 0).out).bRequest ≠ GET_INTERFACE ∧
       (get_setup (s.ep_buf 0).out).bRequest ≠ CLEAR_FEATURE ∧
       (get_setup (s.ep_buf 0).out).bRequest ≠ SET_FEATURE)) :
    handle_ep0_setup cfg s = handle_unknown cfg (ep0_setup_break_pending s) := by
  unfold handle_ep0_setup ep0_setup_dispatch
  simp only [ep0_setup_break_pending_frame]
  by_cases ht : (get_setup (s.ep_buf 0).out).type = REQUEST_TYPE_STANDARD
  · rcases hunk with h | ⟨h1, h2, h3, h4, h5, h6, h7, h8, h9⟩
    · exact absurd ht h
    · rw [if_pos ht]
      unfold handle_standard_control_request
      simp [h1, h2, h3, h4, h5, h6, h7, h8, h9]
  · rw [if_neg ht]

/-- C17: for a SETUP packet whose request type is not standard, or whose `bRequest` is
none of GET_DESCRIPTOR, SET_ADDRESS, SET_CONFIGURATION, GET_CONFIGURATION,
GET_STATUS, SET_INTERFACE, GET_INTERFACE, CLEAR_FEATURE, SET_FEATURE,
`handle_ep0_setup` runs the code at the label `handle_unknown`: the
unknown-setup-request hook, when defined, is called with the packet (its calls into
the stack are carried out) and endpoint 0 is stalled when it returns a negative
result; without the hook endpoint 0 is stalled.  In every case the address register,
the pending address and its mark, the configuration value and the halt flags of all
endpoints are unchanged. -/
theorem unknown_request_delegated (cfg : Config) (s : State)
    (hunk : (get_setup (s.ep_buf 0).out).type ≠ REQUEST_TYPE_STANDARD ∨
      ((get_setup (s.ep_buf 0).out).bRequest ≠ GET_DESCRIPTOR ∧
       (get_setup (s.ep_buf 0).out).bRequest ≠ SET_ADDRESS ∧
       (get_setup (s.ep_buf 0).out).bRequest ≠ SET_CONFIGURATION ∧
       (get_setup (s.ep_buf 0).out).bRequest ≠ GET_CONFIGURATION ∧
       (get_setup (s.ep_buf 0).out).bRequest ≠ GET_STATUS ∧
       (get_setup (s.ep_buf 0).out).bRequest ≠ SET_INTERFACE ∧
       (get_setup (s.ep_buf 0).out).bRequest ≠ GET_INTERFACE ∧
       (get_setup (s.ep_buf 0).out).bRequest ≠ CLEAR_FEATURE ∧
       (get_setup (s.ep_buf 0).out).bRequest ≠ SET_FEATURE)) :
    handle_ep0_setup cfg s = handle_unknown cfg (ep0_setup_break_pending s) ∧
    (∀ f, cfg.UNKNOWN_SETUP_REQUEST_CALLBACK = some f →
      handle_ep0_setup cfg s =
        if (f (get_setup (s.ep_buf 0).out)).2 < 0 then
          stall_ep0 cfg ((f (get_setup (s.ep_buf 0).out)).1.foldl (app_call cfg)
            (ep0_setup_break_pending s))
        else (f (get_setup (s.ep_buf 0).out)).1.foldl (app_call cfg) (ep0_setup_break_pending s)) ∧
    (cfg.UNKNOWN_SETUP_REQUEST_CALLBACK = none →
      handle_ep0_setup cfg s = stall_ep0 cfg (ep0_setup_break_pending s)) ∧
    ((cfg.UNKNOWN_SETUP_REQUEST_CALLBACK = none ∨
        ∃ f, cfg.UNKNOWN_SETUP_REQUEST_CALLBACK = some f ∧ (f (get_setup (s.ep_buf 0).out)).2 < 0) →
      ep0_stalled cfg (handle_ep0_setup cfg s) ∧
      ((handle_ep0_setup cfg s).bds 0).ep_in.UOWN = true ∧
      ((handle_ep0_setup cfg s).bds 0).ep_in.BSTALL = true ∧
      session_eq (handle_ep0_setup cfg s) s) ∧
    session_eq (handle_ep0_setup cfg s) s := by
  have e := handle_ep0_setup_unknown cfg s hunk
  have hs : session_eq (handle_ep0_setup cfg s) s := by
    rw [e]
    refine session_eq_trans (handle_unknown_session cfg _) ?_
    simp [session_eq]
  have e1 : ∀ f, cfg.UNKNOWN_SETUP_REQUEST_CALLBACK = some f →
      handle_ep0_setup cfg s =
        if (f (get_setup (s.ep_buf 0).out)).2 < 0 then
          stall_ep0 cfg ((f (get_setup (s.ep_buf 0).out)).1.foldl (app_call cfg)
            (ep0_setup_break_pending s))
        else (f (get_setup (s.ep_buf 0).out)).1.foldl (app_call cfg)
          (ep0_setup_break_pending s) := by
    intro f hf
    rw [e]
    unfold handle_unknown
    simp only [hf, ep0_setup_break_pending_frame]
  have e2 : cfg.UNKNOWN_SETUP_REQUEST_CALLBACK = none →
      handle_ep0_setup cfg s = stall_ep0 cfg (ep0_setup_break_pending s) := by
    intro hf
    rw [e]
    unfold handle_unknown
    simp only [hf]
  refine ⟨e, e1, e2, ?_, hs⟩
  intro h
  rcases h with h | ⟨f, hf, hneg⟩
  · rw [e2 h]
    obtain ⟨a1, a2, a3, _⟩ := stall_ep0_fields cfg (ep0_setup_break_pending s)
    refine ⟨a1, a2, a3, ?_⟩
    rw [← e2 h]; exact hs
  · have e3 := e1 f hf
    rw [if_pos hneg] at e3
    rw [e3]
    obtain ⟨a1, a2, a3, _⟩ := stall_ep0_fields cfg
      ((f (get_setup (s.ep_buf 0).out)).1.foldl (app_call cfg) (ep0_setup_break_pending s))
    refine ⟨a1, a2, a3, ?_⟩
    rw [← e3]; exact hs

/-- Witness of C17: a vendor request (type 2) on the demo device, which defines no
hook, stalls endpoint 0 and leaves the session state as it was. -/
theorem unknown_request_delegated_witness :
    (get_setup ((sie_receive_ep0 power_on PID_SETUP
      (setup_bytes (vendor_request 0x42 0 0))).ep_buf 0).out).type ≠ REQUEST_TYPE_STANDARD ∧
    demo_config.UNKNOWN_SETUP_REQUEST_CALLBACK = none ∧
    ep0_stalled demo_config (ep0_setup_packet demo_config power_on (vendor_request 0x42 0 0)) ∧
    session_eq (ep0_setup_packet demo_config power_on (vendor_request 0x42 0 0))
      (sie_receive_ep0 power_on PID_SETUP (setup_bytes (vendor_request 0x42 0 0))) :=
  ⟨by decide, rfl,
    ((unknown_request_delegated demo_config
      (sie_receive_ep0 power_on PID_SETUP (setup_bytes (vendor_request 0x42 0 0)))
      (Or.inl (by decide))).2.2.2.1 (Or.inl rfl)).1,
    (unknown_request_delegated demo_config
      (sie_receive_ep0 power_on PID_SETUP (setup_bytes (vendor_request 0x42 0 0)))
      (Or.inl (by decide))).2.2.2.2⟩

/-! ## The descriptor that `reset_bd0_out` leaves -/

theorem reset_bd0_out_fields (cfg : Config) (s : State) :
    ((reset_bd0_out cfg s).bds 0).ep_out = ⟨BDNSTAT_UOWN, cfg.out_len 0⟩ := by
  simp [reset_bd0_out, SET_BDN]

theorem usb_service_token_ep0_out (cfg : Config) (f : usb_flags) (s : State)
    (he : f.SFR_USB_STATUS_EP = 0) (hd : f.SFR_USB_STATUS_DIR = 0) :
    ((usb_service_token cfg f s).bds 0).ep_out = ⟨BDNSTAT_UOWN, cfg.out_len 0⟩ := by
  unfold usb_service_token
  rw [if_pos ⟨he, hd⟩]
  exact reset_bd0_out_fields cfg _

/-! ## What mutates the session state -/

theorem sie_session (s : State) (pid ep : Nat) (data : List Nat) :
    session_eq (sie_receive_ep0 s pid data) s ∧ session_eq (sie_complete_in s ep) s ∧
    session_eq (sie_receive_ep s ep data) s := by
  refine ⟨?_, ?_, ?_⟩
  · simp [session_eq, sie_receive_ep0]
  · simp [session_eq]
  · simp [session_eq, sie_receive_ep]

theorem usb_service_session_eq (cfg : Config) (f : usb_flags) (s : State)
    (hr : f.SFR_USB_RESET_IF = false) (h1 : ¬ setup_token f s) (h2 : ¬ in_token f) :
    session_eq (usb_service cfg f s) s := by
  obtain ⟨a1, a2, a3, a4, a5⟩ := usb_service_session cfg f s hr
  simp only [h1, h2, false_and, if_false] at a1 a2 a3 a4 a5
  exact ⟨a1, a2, a3, a4, a5⟩

theorem bus_step_out_session (cfg : Config) (s : State) (data : List Nat) :
    session_eq (bus_step cfg s (.out data)) s := by
  have hn : ¬ setup_token (token_done 0 0) (sie_receive_ep0 s PID_OUT data) := by
    intro hh
    have := hh.2.2.2
    rw [out_deposit_pid] at this
    exact absurd this (by decide)
  have hi : ¬ in_token (token_done 0 0) := fun hh => absurd hh.2.2 (by decide)
  exact session_eq_trans (usb_service_session_eq cfg _ _ rfl hn hi) (sie_session s PID_OUT 0 data).1

theorem bus_step_ep_done_session (cfg : Config) (s : State) (ep dir : Nat) (data : List Nat)
    (hep : ep ≠ 0) : session_eq (bus_step cfg s (.ep_done ep dir data)) s := by
  have hn : ∀ t, ¬ setup_token (token_done ep dir) t := fun t hh => hep hh.2.1
  have hi : ¬ in_token (token_done ep dir) := fun hh => hep hh.2.1
  refine session_eq_trans (usb_service_session_eq cfg _ _ rfl (hn _) hi) ?_
  split
  · exact (sie_session s 0 ep data).2.1
  · exact (sie_session s 0 ep data).2.2

theorem bus_step_setup_session (cfg : Config) (s : State) (p : setup_packet) :
    (bus_step cfg s (.setup p)).SFR_USB_ADDR = s.SFR_USB_ADDR ∧
    (bus_step cfg s (.setup p)).addr_pending =
      (if p.decoded.type = REQUEST_TYPE_STANDARD ∧ p.decoded.bRequest = SET_ADDRESS then true
       else s.addr_pending) ∧
    (bus_step cfg s (.setup p)).addr =
      (if p.decoded.type = REQUEST_TYPE_STANDARD ∧ p.decoded.bRequest = SET_ADDRESS then
        p.decoded.wValue % 256 else s.addr) ∧
    (bus_step cfg s (.setup p)).g_configuration =
      (if p.decoded.type = REQUEST_TYPE_STANDARD ∧ p.decoded.bRequest = SET_CONFIGURATION then
        p.decoded.wValue &&& 0x00ff else s.g_configuration) ∧
    ∀ e, ((bus_step cfg s (.setup p)).ep_buf e).flags =
      (if p.decoded.type = REQUEST_TYPE_STANDARD ∧
          (p.decoded.bRequest = CLEAR_FEATURE ∨ p.decoded.bRequest = SET_FEATURE) then
        feature_flags cfg p.decoded e (s.ep_buf e).flags
       else (s.ep_buf e).flags) := by
  obtain ⟨a1, a2, a3, a4, a5⟩ := usb_service_session cfg (token_done 0 0)
    (sie_receive_ep0 s PID_SETUP (setup_bytes p)) rfl
  have hst : setup_token (token_done 0 0) (sie_receive_ep0 s PID_SETUP (setup_bytes p)) :=
    ⟨rfl, rfl, rfl, setup_deposit_pid s _⟩
  have hi : ¬ in_token (token_done 0 0) := fun hh => absurd hh.2.2 (by decide)
  simp only [setup_deposit_decoded, hst, hi, true_and, false_and, if_false, sie_receive_ep0_frame,
    (sie_receive_ep0_fields s PID_SETUP (setup_bytes p)).2.2.1] at a1 a2 a3 a4 a5
  exact ⟨a1, a2, a3, a4, a5⟩

theorem bus_step_in_done_session (cfg : Config) (s : State) :
    (bus_step cfg s .in_done).SFR_USB_ADDR =
      (if s.addr_pending = true then s.addr else s.SFR_USB_ADDR) ∧
    (bus_step cfg s .in_done).addr_pending = false ∧
    (bus_step cfg s .in_done).addr = s.addr ∧
    (bus_step cfg s .in_done).g_configuration = s.g_configuration ∧
    ∀ e, ((bus_step cfg s .in_done).ep_buf e).flags = (s.ep_buf e).flags := by
  obtain ⟨a1, a2, a3, a4, a5⟩ := usb_service_session cfg (token_done 0 1) (sie_complete_in s 0) rfl
  have hst : ¬ setup_token (token_done 0 1) (sie_complete_in s 0) :=
    fun hh => absurd hh.2.2.1 (by decide)
  have hi : in_token (token_done 0 1) := ⟨rfl, rfl, rfl⟩
  simp only [hst, hi, true_and, false_and, if_false, if_true, sie_complete_in_frame] at a1 a2 a3 a4 a5
  exact ⟨a1, a2, a3, a4, a5⟩

/-- C19: when `usb_service` runs without a bus reset, the configuration value changes
only if it handles a standard SET_CONFIGURATION SETUP packet, the pending address
and its mark are set only if it handles a standard SET_ADDRESS SETUP packet, and the
address register changes only if it handles the completion of an endpoint-0 IN
transaction while a SET_ADDRESS is pending.  In particular every SETUP packet that
is not SET_CONFIGURATION leaves the configuration value unchanged, every SETUP
packet leaves the address register unchanged, every OUT packet on endpoint 0, every
completion on a non-zero endpoint and every application call leave the whole
session state and the halt flags unchanged, and the completion of an endpoint-0 IN
transaction leaves the configuration value unchanged and the address register as
well unless a SET_ADDRESS is pending. -/
theorem session_state_mutated_only_by_set_requests (cfg : Config) (f : usb_flags) (s : State)
    (hr : f.SFR_USB_RESET_IF = false) :
    (¬ (setup_token f s ∧ (get_setup (s.ep_buf 0).out).type = REQUEST_TYPE_STANDARD ∧
        (get_setup (s.ep_buf 0).out).bRequest = SET_CONFIGURATION) →
      (usb_service cfg f s).g_configuration = s.g_configuration) ∧
    (¬ (in_token f ∧ s.addr_pending = true) →
      (usb_service cfg f s).SFR_USB_ADDR = s.SFR_USB_ADDR) ∧
    (¬ (setup_token f s ∧ (get_setup (s.ep_buf 0).out).type = REQUEST_TYPE_STANDARD ∧
        (get_setup (s.ep_buf 0).out).bRequest = SET_ADDRESS) →
      (usb_service cfg f s).addr = s.addr ∧
      ((usb_service cfg f s).addr_pending = true → s.addr_pending = true)) ∧
    (∀ p : setup_packet,
      (bus_step cfg s (.setup p)).SFR_USB_ADDR = s.SFR_USB_ADDR ∧
      (¬ (p.decoded.type = REQUEST_TYPE_STANDARD ∧ p.decoded.bRequest = SET_CONFIGURATION) →
        (bus_step cfg s (.setup p)).g_configuration = s.g_configuration) ∧
      (¬ (p.decoded.type = REQUEST_TYPE_STANDARD ∧ p.decoded.bRequest = SET_ADDRESS) →
        (bus_step cfg s (.setup p)).addr_pending = s.addr_pending ∧
        (bus_step cfg s (.setup p)).addr = s.addr)) ∧
    (∀ data, session_eq (bus_step cfg s (.out data)) s) ∧
    (∀ ep dir data, ep ≠ 0 → session_eq (bus_step cfg s (.ep_done ep dir data)) s) ∧
    (∀ c, session_eq (bus_step cfg s (.app c)) s) ∧
    (bus_step cfg s .in_done).g_configuration = s.g_configuration ∧
    (s.addr_pending = false → (bus_step cfg s .in_done).SFR_USB_ADDR = s.SFR_USB_ADDR) := by
  obtain ⟨a1, a2, a3, a4, _⟩ := usb_service_session cfg f s hr
  refine ⟨?_, ?_, ?_, ?_, bus_step_out_session cfg s, bus_step_ep_done_session cfg s,
    fun c => app_call_session cfg s c, (bus_step_in_done_session cfg s).2.2.2.1, ?_⟩
  · intro h
    rw [a4, if_neg h]
  · intro h
    rw [a1, if_neg h]
  · intro h
    rw [a3, if_neg h, a2, if_neg h]
    refine ⟨rfl, ?_⟩
    split
    · intro hh; exact absurd hh (by decide)
    · exact id
  · intro p
    obtain ⟨b1, b2, b3, b4, _⟩ := bus_step_setup_session cfg s p
    refine ⟨b1, ?_, ?_⟩
    · intro h; rw [b4, if_neg h]
    · intro h; rw [b2, b3, if_neg h, if_neg h]; exact ⟨rfl, rfl⟩
  · intro h
    rw [(bus_step_in_done_session cfg s).1, h]
    rfl

/-- Witness of C19: on the configured demo device a GET_STATUS request, an OUT packet
and an application call leave the configuration value 1. -/
theorem session_state_mutated_only_by_set_requests_witness :
    (token_done 0 0).SFR_USB_RESET_IF = false ∧
    (bus_step demo_config (bus_run demo_config power_on [.setup (set_configuration 1)])
      (.setup get_status_device)).g_configuration = 1 ∧
    (bus_step demo_config (bus_run demo_config power_on [.setup (set_configuration 1)])
      (.out [1, 2])).g_configuration = 1 ∧
    (bus_step demo_config (bus_run demo_config power_on [.setup (set_configuration 1)])
      (.app (.send_in_buffer 1 4))).g_configuration = 1 :=
  ⟨rfl,
    (((session_state_mutated_only_by_set_requests demo_config (token_done 0 0)
      (bus_run demo_config power_on [.setup (set_configuration 1)]) rfl).2.2.2.1
        get_status_device).2.1 (by decide)).trans (by decide),
    ((session_state_mutated_only_by_set_requests demo_config (token_done 0 0)
      (bus_run demo_config power_on [.setup (set_configuration 1)]) rfl).2.2.2.2.1
        [1, 2]).2.2.2.1.trans (by decide),
    ((session_state_mutated_only_by_set_requests demo_config (token_done 0 0)
      (bus_run demo_config power_on [.setup (set_configuration 1)]) rfl).2.2.2.2.2.2.1
        (.send_in_buffer 1 4)).2.2.2.1.trans (by decide)⟩

/-! ## The end of an OUT data stage -/

theorem out_step_status (cfg : Config) (s : State) (p : List Nat) (d : Nat)
    (h1 : cfg.EP_0_LEN < 256) (hp : p.length ≤ cfg.EP_0_LEN)
    (hd : s.ep0_data_stage_direc ≠ 1) (hb : s.ep0_data_stage_out_buffer = some d)
    (hfit : p.length ≤ s.ep0_data_stage_buf_remaining) :
    ((ep0_out_packet cfg s p).bds 0).ep_in =
      (if p.length < cfg.EP_0_LEN ∨ s.ep0_data_stage_buf_remaining - p.length = 0 then
        ⟨BDNSTAT_UOWN ||| BDNSTAT_DTS ||| BDNSTAT_DTSEN, 0⟩
       else (s.bds 0).ep_in) := by
  have hlen : p.length % 256 = p.length := Nat.mod_eq_of_lt (by omega)
  have hmin : min p.length s.ep0_data_stage_buf_remaining = p.length := Nat.min_eq_left hfit
  by_cases hc : p.length < cfg.EP_0_LEN ∨ s.ep0_data_stage_buf_remaining - p.length = 0
  · rw [if_pos hc]
    simp [ep0_out_packet, handle_ep0_out, sie_receive_ep0, State.set_out_bytes, State.set_ep_out,
      BDN_LENGTH, MIN_eq_min, hd, hb, hlen, hmin, State.emit, hc,
      send_zero_length_packet_ep0, State.set_ep_in, SET_BDN]
  · rw [if_neg hc]
    simp [ep0_out_packet, handle_ep0_out, sie_receive_ep0, State.set_out_bytes, State.set_ep_out,
      BDN_LENGTH, MIN_eq_min, hd, hb, hlen, hmin, State.emit, hc]

/-- C20: during an OUT data stage (recorded direction OUT, destination buffer set),
when an OUT packet of at most `EP_0_LEN` bytes that fits the remaining capacity is
handled by `handle_ep0_out`: if the packet is shorter than `EP_0_LEN` or the
remaining capacity has reached 0, the IN descriptor of endpoint 0 is handed to the
hardware with byte count 0 and the DATA1 toggle (the zero-length status packet);
otherwise the IN descriptor of endpoint 0 is left as it was, the destination
pointer and a non-zero remaining capacity stay set and no callback is made.  So,
when the IN descriptor was not armed before, a zero-length packet is queued if and
only if the packet is short or the capacity is used up. -/
theorem out_data_stage_status_packet (cfg : Config) (s : State) (p : List Nat) (d : Nat)
    (h1 : cfg.EP_0_LEN < 256) (hp : p.length ≤ cfg.EP_0_LEN)
    (hd : s.ep0_data_stage_direc ≠ 1) (hb : s.ep0_data_stage_out_buffer = some d)
    (hfit : p.length ≤ s.ep0_data_stage_buf_remaining) :
    ((p.length < cfg.EP_0_LEN ∨ s.ep0_data_stage_buf_remaining - p.length = 0) →
      ((ep0_out_packet cfg s p).bds 0).ep_in =
        ⟨BDNSTAT_UOWN ||| BDNSTAT_DTS ||| BDNSTAT_DTSEN, 0⟩ ∧
      in_packet (ep0_out_packet cfg s p) 0 = some []) ∧
    (¬ (p.length < cfg.EP_0_LEN ∨ s.ep0_data_stage_buf_remaining - p.length = 0) →
      ((ep0_out_packet cfg s p).bds 0).ep_in = (s.bds 0).ep_in ∧
      in_packet (ep0_out_packet cfg s p) 0 = in_packet s 0 ∧
      (ep0_out_packet cfg s p).ep0_data_stage_out_buffer = some (d + p.length) ∧
      (ep0_out_packet cfg s p).ep0_data_stage_buf_remaining =
        s.ep0_data_stage_buf_remaining - p.length ∧
      0 < (ep0_out_packet cfg s p).ep0_data_stage_buf_remaining ∧
      callbacks_since s (ep0_out_packet cfg s p) = []) ∧
    ((s.bds 0).ep_in.UOWN = false →
      (in_packet (ep0_out_packet cfg s p) 0 = some [] ↔
        (p.length < cfg.EP_0_LEN ∨ s.ep0_data_stage_buf_remaining - p.length = 0))) := by
  have hst := out_step_status cfg s p d h1 hp hd hb hfit
  obtain ⟨f1, f2, f3, _, _, _⟩ := out_step_fit cfg s p d h1 hp hd hb hfit
  have hin : ∀ i, ((ep0_out_packet cfg s p).ep_buf i).in_ = (s.ep_buf i).in_ := by
    intro i
    have hlen : p.length % 256 = p.length := Nat.mod_eq_of_lt (by omega)
    have hmin : min p.length s.ep0_data_stage_buf_remaining = p.length := Nat.min_eq_left hfit
    simp only [ep0_out_packet, handle_ep0_out, BDN_LENGTH, sie_receive_ep0_frame,
      sie_receive_ep0_fields, hd, if_false, hb, MIN_eq_min, hlen, hmin, lt_irrefl]
    split <;> simp [sie_receive_ep0]
  have hpos : (p.length < cfg.EP_0_LEN ∨ s.ep0_data_stage_buf_remaining - p.length = 0) →
      in_packet (ep0_out_packet cfg s p) 0 = some [] := by
    intro hc
    unfold in_packet
    rw [hst, if_pos hc]
    simp
  have hneg : ¬ (p.length < cfg.EP_0_LEN ∨ s.ep0_data_stage_buf_remaining - p.length = 0) →
      in_packet (ep0_out_packet cfg s p) 0 = in_packet s 0 := by
    intro hc
    unfold in_packet
    rw [hst, if_neg hc, hin 0]
  refine ⟨?_, ?_, ?_⟩
  · intro hc
    refine ⟨?_, hpos hc⟩
    rw [hst, if_pos hc]
  · intro hc
    refine ⟨?_, hneg hc, f1, f2, ?_, ?_⟩
    · rw [hst, if_neg hc]
    · rw [f2]; omega
    · unfold callbacks_since
      rw [f3, callbacks_append]
      simp [callbacks]
  · intro hu
    constructor
    · intro h
      by_contra hc
      rw [hneg hc] at h
      simp [in_packet, hu] at h
    · exact hpos

/-- Witness of C20: on the demo device (`EP_0_LEN` 8) the vendor request 0x41 opens a
10-byte OUT data stage; the first packet, 8 bytes, queues nothing, the second, 2
bytes, queues the zero-length status packet. -/
theorem out_data_stage_status_packet_witness :
    (demo_hook_config.EP_0_LEN < 256 ∧ [1, 2, 3, 4, 5, 6, 7, 8].length ≤ demo_hook_config.EP_0_LEN ∧
      (bus_step demo_hook_config power_on
        (.setup (vendor_request 0x41 0 10))).ep0_data_stage_direc ≠ 1 ∧
      (bus_step demo_hook_config power_on
        (.setup (vendor_request 0x41 0 10))).ep0_data_stage_out_buffer = some 0x100 ∧
      [1, 2, 3, 4, 5, 6, 7, 8].length ≤ (bus_step demo_hook_config power_on
        (.setup (vendor_request 0x41 0 10))).ep0_data_stage_buf_remaining) ∧
    in_packet (ep0_out_packet demo_hook_config
      (bus_step demo_hook_config power_on (.setup (vendor_request 0x41 0 10)))
      [1, 2, 3, 4, 5, 6, 7, 8]) 0 = none ∧
    in_packet (ep0_out_packet demo_hook_config (ep0_out_packet demo_hook_config
      (bus_step demo_hook_config power_on (.setup (vendor_request 0x41 0 10)))
      [1, 2, 3, 4, 5, 6, 7, 8]) [9, 10]) 0 = some [] :=
  ⟨by decide,
    ((out_data_stage_status_packet demo_hook_config
      (bus_step demo_hook_config power_on (.setup (vendor_request 0x41 0 10)))
      [1, 2, 3, 4, 5, 6, 7, 8] 0x100 (by decide) (by decide) (by decide) (by decide)
      (by decide)).2.1 (by decide)).2.1.trans (by decide),
    ((out_data_stage_status_packet demo_hook_config
      (ep0_out_packet demo_hook_config
        (bus_step demo_hook_config power_on (.setup (vendor_request 0x41 0 10)))
        [1, 2, 3, 4, 5, 6, 7, 8])
      [9, 10] 0x108 (by decide) (by decide) (by decide) (by decide)
      (by decide)).1 (by decide)).2⟩

/-! ## Completion of the status stage -/

theorem callbacks_since_notify (s t : State) (ok : Bool) (ht : t.trace = s.trace)
    (hc : t.ep0_data_stage_callback = s.ep0_data_stage_callback)
    (hx : t.ep0_data_stage_context = s.ep0_data_stage_context) :
    callbacks (notify_callback t ok).trace = callbacks s.trace ++
      s.ep0_data_stage_callback.toList.map (fun fn => (some fn, ok, s.ep0_data_stage_context)) := by
  unfold notify_callback
  rw [hc]
  cases h : s.ep0_data_stage_callback <;> simp [State.emit, callbacks_append, callbacks, ht, hx]

theorem handle_ep0_in_status (cfg : Config) (s : State)
    (hd : s.ep0_data_stage_direc = 0) (hr : s.ep0_data_stage_buf_remaining = 0)
    (hz : s.control_need_zlp = false) :
    callbacks (handle_ep0_in cfg s).trace = callbacks s.trace ++
      s.ep0_data_stage_callback.toList.map (fun fn => (some fn, true, s.ep0_data_stage_context)) ∧
    (handle_ep0_in cfg s).ep0_data_stage_buf_remaining = 0 ∧
    (handle_ep0_in cfg s).ep0_data_stage_in_buffer = none ∧
    (handle_ep0_in cfg s).ep0_data_stage_out_buffer = none ∧
    (handle_ep0_in cfg s).bds = s.bds := by
  unfold handle_ep0_in
  cases ha : s.addr_pending
  · simp only [Bool.false_eq_true, if_false, hr, ne_eq, not_true_eq_false, hz, hd, if_true]
    refine ⟨?_, rfl, rfl, rfl, by simp⟩
    exact callbacks_since_notify s s true rfl rfl rfl
  · simp only [if_true, hr, ne_eq, not_true_eq_false, if_false, hz, Bool.false_eq_true, hd]
    refine ⟨?_, rfl, rfl, rfl, by simp⟩
    exact callbacks_since_notify s _ true rfl rfl rfl

theorem handle_ep0_out_status (cfg : Config) (s : State) (hd : s.ep0_data_stage_direc = 1) :
    callbacks (handle_ep0_out cfg s).trace = callbacks s.trace ++
      s.ep0_data_stage_callback.toList.map (fun fn => (some fn, true, s.ep0_data_stage_context)) ∧
    (handle_ep0_out cfg s).ep0_data_stage_buf_remaining = 0 ∧
    (handle_ep0_out cfg s).ep0_data_stage_in_buffer = none ∧
    (handle_ep0_out cfg s).ep0_data_stage_out_buffer = none := by
  unfold handle_ep0_out
  simp only [hd, if_true]
  refine ⟨?_, by simp, by simp, by simp⟩
  simp only [State.set_ep_out_frame, reset_ep0_data_stage_frame]
  exact callbacks_since_notify s s true rfl rfl rfl

/-- C21: the completion of the status stage notifies success once and empties the
cursor.  For an OUT-direction transfer (recorded direction 0), `handle_ep0_in` with
no bytes remaining and no zero-length packet pending invokes the callback, when one
is set, exactly once, with the success indication and the recorded context, and
leaves the remaining count 0 and both buffer pointers NULL.  For an IN-direction
transfer (recorded direction 1), `handle_ep0_out` on an OUT packet (in particular a
zero-length one) does the same. -/
theorem status_stage_completion_notifies (cfg : Config) (s : State) :
    (s.ep0_data_stage_direc = 0 → s.ep0_data_stage_buf_remaining = 0 →
      s.control_need_zlp = false →
      callbacks_since s (handle_ep0_in cfg s) =
        s.ep0_data_stage_callback.toList.map (fun fn => (some fn, true, s.ep0_data_stage_context)) ∧
      (handle_ep0_in cfg s).ep0_data_stage_buf_remaining = 0 ∧
      (handle_ep0_in cfg s).ep0_data_stage_in_buffer = none ∧
      (handle_ep0_in cfg s).ep0_data_stage_out_buffer = none) ∧
    (s.ep0_data_stage_direc = 1 → ∀ data : List Nat,
      callbacks_since s (ep0_out_packet cfg s data) =
        s.ep0_data_stage_callback.toList.map (fun fn => (some fn, true, s.ep0_data_stage_context)) ∧
      (ep0_out_packet cfg s data).ep0_data_stage_buf_remaining = 0 ∧
      (ep0_out_packet cfg s data).ep0_data_stage_in_buffer = none ∧
      (ep0_out_packet cfg s data).ep0_data_stage_out_buffer = none) := by
  constructor
  · intro hd hr hz
    obtain ⟨a1, a2, a3, a4, _⟩ := handle_ep0_in_status cfg s hd hr hz
    refine ⟨?_, a2, a3, a4⟩
    unfold callbacks_since
    rw [a1]
    simp
  · intro hd data
    obtain ⟨a1, a2, a3, a4⟩ := handle_ep0_out_status cfg (sie_receive_ep0 s PID_OUT data)
      (by simpa using hd)
    simp only [sie_receive_ep0_frame] at a1
    refine ⟨?_, a2, a3, a4⟩
    unfold callbacks_since ep0_out_packet
    rw [a1]
    simp

/-- Witness of C21: on the device with the hook, the vendor request 0x41 opens a
10-byte OUT transfer with callback 1 and context 7; after the two data packets the
IN completion of the status stage invokes the callback once, with success.  The
vendor request 0x40 opens a 4-byte IN transfer; after its data packet the
zero-length OUT packet of the status stage invokes the callback once, with
success. -/
theorem status_stage_completion_notifies_witness :
    callbacks_since
      (sie_complete_in (bus_run demo_hook_config power_on
        [.setup (vendor_request 0x41 0 10), .out [1, 2, 3, 4, 5, 6, 7, 8], .out [9, 10]]) 0)
      (handle_ep0_in demo_hook_config
        (sie_complete_in (bus_run demo_hook_config power_on
          [.setup (vendor_request 0x41 0 10), .out [1, 2, 3, 4, 5, 6, 7, 8], .out [9, 10]]) 0)) =
      [(some 1, true, 7)] ∧
    callbacks_since
      (bus_run demo_hook_config power_on [.setup (vendor_request 0x40 1 4), .in_done])
      (ep0_out_packet demo_hook_config
        (bus_run demo_hook_config power_on [.setup (vendor_request 0x40 1 4), .in_done]) []) =
      [(some 1, true, 7)] :=
  ⟨((status_stage_completion_notifies demo_hook_config
      (sie_complete_in (bus_run demo_hook_config power_on
        [.setup (vendor_request 0x41 0 10), .out [1, 2, 3, 4, 5, 6, 7, 8], .out [9, 10]]) 0)).1
      (by decide) (by decide) (by decide)).1.trans (by decide),
    ((status_stage_completion_notifies demo_hook_config
      (bus_run demo_hook_config power_on [.setup (vendor_request 0x40 1 4), .in_done])).2
      (by decide) []).1.trans (by decide)⟩

/-! ## State that outlives a transfer -/

theorem app_calls_need_zlp (cfg : Config) (cs : List AppCall) :
    ∀ s : State, (cs.foldl (app_call cfg) s).control_need_zlp = s.control_need_zlp := by
  induction cs with
  | nil => intro s; rfl
  | cons c t ih =>
    intro s
    rw [List.foldl_cons, ih]
    cases c <;> simp [app_call]

theorem handle_unknown_need_zlp (cfg : Config) (s : State) :
    (handle_unknown cfg s).control_need_zlp = s.control_need_zlp := by
  unfold handle_unknown
  cases cfg.UNKNOWN_SETUP_REQUEST_CALLBACK with
  | none => simp
  | some f =>
    simp only []
    split <;> simp [app_calls_need_zlp]

theorem handle_get_descriptor_need_zlp (cfg : Config) (s : State) (p : setup_packet) :
    (handle_get_descriptor cfg s p).control_need_zlp = s.control_need_zlp := by
  unfold handle_get_descriptor
  cases cfg.USB_STRING_DESCRIPTOR_FUNC <;> cases cfg.UNKNOWN_GET_DESCRIPTOR_CALLBACK <;>
    simp only [] <;> split_ifs <;> simp

theorem handle_get_status_need_zlp (cfg : Config) (s : State) (p : setup_packet) :
    (handle_get_status cfg s p).control_need_zlp = s.control_need_zlp := by
  unfold handle_get_status
  cases cfg.GET_DEVICE_STATUS_CALLBACK <;> simp only [] <;> split_ifs <;> simp

theorem handle_feature_need_zlp (cfg : Config) (s : State) (p : setup_packet) :
    (handle_feature cfg s p).control_need_zlp = s.control_need_zlp := by
  unfold handle_feature
  simp only []
  split_ifs <;> simp

theorem handle_standard_control_request_need_zlp (cfg : Config) (s : State) :
    (handle_standard_control_request cfg s).1.control_need_zlp = s.control_need_zlp := by
  unfold handle_standard_control_request
  generalize get_setup (s.ep_buf 0).out = p
  simp only []
  split
  · exact handle_get_descriptor_need_zlp cfg s p
  split
  · simp
  split
  · simp only [send_zero_length_packet_ep0_frame]
    split <;> simp
  split
  · simp
  split
  · exact handle_get_status_need_zlp cfg s p
  split
  · cases cfg.SET_INTERFACE_CALLBACK with
    | none => simp
    | some f => simp only []; split <;> simp
  split
  · cases cfg.GET_INTERFACE_CALLBACK with
    | none => simp
    | some f => simp only []; split <;> simp
  split
  · exact handle_feature_need_zlp cfg s p
  · rfl

theorem handle_ep0_setup_need_zlp (cfg : Config) (s : State) :
    (handle_ep0_setup cfg s).control_need_zlp = s.control_need_zlp := by
  unfold handle_ep0_setup ep0_setup_dispatch
  simp only []
  split
  · split
    · rw [handle_unknown_need_zlp, handle_standard_control_request_need_zlp]; simp
    · rw [handle_standard_control_request_need_zlp]; simp
  · rw [handle_unknown_need_zlp]; simp

theorem usb_init_need_zlp (cfg : Config) (s : State) :
    (usb_init cfg s).control_need_zlp = s.control_need_zlp := by
  have h1 : ∀ (l : List Nat) (t : State),
      (l.foldl usb_init_flags t).control_need_zlp = t.control_need_zlp := by
    intro l
    induction l with
    | nil => intro t; rfl
    | cons i l ih => intro t; rw [List.foldl_cons, ih]; simp [usb_init_flags]
  have h2 : ∀ (l : List Nat) (t : State),
      (l.foldl (usb_init_bd cfg) t).control_need_zlp = t.control_need_zlp := by
    intro l
    induction l with
    | nil => intro t; rfl
    | cons i l ih => intro t; rw [List.foldl_cons, ih]; simp [usb_init_bd]
  unfold usb_init
  simp [h1, h2, memset_bds]

theorem handle_ep0_in_callback (cfg : Config) (s : State) :
    (handle_ep0_in cfg s).ep0_data_stage_callback = s.ep0_data_stage_callback ∧
    (handle_ep0_in cfg s).ep0_data_stage_context = s.ep0_data_stage_context := by
  constructor <;> unfold handle_ep0_in <;> simp only [] <;> cases h : s.addr_pending <;>
    simp [h]

theorem handle_ep0_out_callback (cfg : Config) (s : State) :
    (handle_ep0_out cfg s).ep0_data_stage_callback = s.ep0_data_stage_callback ∧
    (handle_ep0_out cfg s).ep0_data_stage_context = s.ep0_data_stage_context := by
  constructor <;> unfold handle_ep0_out <;> simp only [] <;> split
  · simp
  · cases s.ep0_data_stage_out_buffer with
    | none => rfl
    | some d => simp only []; split_ifs <;> simp
  · simp
  · cases s.ep0_data_stage_out_buffer with
    | none => rfl
    | some d => simp only []; split_ifs <;> simp

/-- C22, the code on the device with the hook.  The vendor request 0x41 opens a 10-byte
OUT transfer with callback 1 and context 7; the two data packets arrive and the IN
completion of the status stage delivers the completion notification (success).
The callback pointer is still set afterwards.  (1) A following SET_ADDRESS, which
starts no application data stage: the IN completion of its status stage invokes
callback 1 a second time, with success.  (2) A following GET_DESCRIPTOR of the
18-byte device descriptor, interrupted after its first packet by a SETUP packet:
callback 1 is invoked a second time, with failure. -/
theorem stale_callback_invoked_again :
    callbacks (bus_run demo_hook_config power_on
      [.setup (vendor_request 0x41 0 10), .out [1, 2, 3, 4, 5, 6, 7, 8], .out [9, 10],
        .in_done]).trace = [(some 1, true, 7)] ∧
    (bus_run demo_hook_config power_on
      [.setup (vendor_request 0x41 0 10), .out [1, 2, 3, 4, 5, 6, 7, 8], .out [9, 10],
        .in_done]).ep0_data_stage_callback = some 1 ∧
    callbacks (bus_run demo_hook_config power_on
      [.setup (vendor_request 0x41 0 10), .out [1, 2, 3, 4, 5, 6, 7, 8], .out [9, 10],
        .in_done, .setup (set_address 5), .in_done]).trace =
      [(some 1, true, 7), (some 1, true, 7)] ∧
    callbacks (bus_run demo_hook_config power_on
      [.setup (vendor_request 0x41 0 10), .out [1, 2, 3, 4, 5, 6, 7, 8], .out [9, 10],
        .in_done, .setup (get_descriptor DESC_DEVICE 0 18), .setup get_status_device]).trace =
      [(some 1, true, 7), (some 1, false, 7)] := by
  decide

theorem handle_ep0_out_overflow_cursor (cfg : Config) (s : State) (d : Nat)
    (hd : s.ep0_data_stage_direc ≠ 1) (hb : s.ep0_data_stage_out_buffer = some d)
    (hover : s.ep0_data_stage_buf_remaining < BDN_LENGTH (s.bds 0).ep_out % 256) :
    (handle_ep0_out cfg s).ep0_data_stage_buf_remaining = 0 ∧
    (handle_ep0_out cfg s).ep0_data_stage_in_buffer = none ∧
    (handle_ep0_out cfg s).ep0_data_stage_out_buffer = none ∧
    callbacks (handle_ep0_out cfg s).trace =
      callbacks s.trace ++ [(s.ep0_data_stage_callback, false, s.ep0_data_stage_context)] := by
  have hmin : min (BDN_LENGTH (s.bds 0).ep_out % 256) s.ep0_data_stage_buf_remaining =
      s.ep0_data_stage_buf_remaining := Nat.min_eq_right (by omega)
  have hrem : s.ep0_data_stage_buf_remaining % 256 = s.ep0_data_stage_buf_remaining :=
    Nat.mod_eq_of_lt (by omega)
  refine ⟨?_, ?_, ?_, ?_⟩ <;>
  simp [handle_ep0_out, MIN_eq_min, hd, hb, hmin, hrem, hover, State.emit, stall_ep0,
    reset_ep0_data_stage, State.set_ep_in, callbacks_append, callbacks]

/-- What the four places that deliver a completion notification do to the cursor: the
remaining count and both buffer pointers are cleared and the callback pointer and
its context are not written (`reset_ep0_data_stage`, usb.c lines 225-237).  The
places are: `handle_ep0_in` at the status stage of an
OUT-direction transfer (success), `handle_ep0_out` at the status stage of an
IN-direction transfer (success), `handle_ep0_out` on a packet that exceeds the
remaining capacity while a callback is set (failure), and the first part of
`handle_ep0_setup` when a data stage is unfinished (failure). -/
theorem completion_clears_count_and_pointers (cfg : Config) (s : State) :
    (s.ep0_data_stage_direc = 0 → s.ep0_data_stage_buf_remaining = 0 →
      s.control_need_zlp = false →
      (handle_ep0_in cfg s).ep0_data_stage_buf_remaining = 0 ∧
      (handle_ep0_in cfg s).ep0_data_stage_in_buffer = none ∧
      (handle_ep0_in cfg s).ep0_data_stage_out_buffer = none ∧
      (handle_ep0_in cfg s).ep0_data_stage_callback = s.ep0_data_stage_callback ∧
      (handle_ep0_in cfg s).ep0_data_stage_context = s.ep0_data_stage_context) ∧
    (s.ep0_data_stage_direc = 1 →
      (handle_ep0_out cfg s).ep0_data_stage_buf_remaining = 0 ∧
      (handle_ep0_out cfg s).ep0_data_stage_in_buffer = none ∧
      (handle_ep0_out cfg s).ep0_data_stage_out_buffer = none ∧
      (handle_ep0_out cfg s).ep0_data_stage_callback = s.ep0_data_stage_callback ∧
      (handle_ep0_out cfg s).ep0_data_stage_context = s.ep0_data_stage_context) ∧
    (∀ d, s.ep0_data_stage_direc ≠ 1 → s.ep0_data_stage_out_buffer = some d →
      s.ep0_data_stage_buf_remaining < BDN_LENGTH (s.bds 0).ep_out % 256 →
      s.ep0_data_stage_callback ≠ none →
      (handle_ep0_out cfg s).ep0_data_stage_buf_remaining = 0 ∧
      (handle_ep0_out cfg s).ep0_data_stage_in_buffer = none ∧
      (handle_ep0_out cfg s).ep0_data_stage_out_buffer = none ∧
      (handle_ep0_out cfg s).ep0_data_stage_callback = s.ep0_data_stage_callback ∧
      (handle_ep0_out cfg s).ep0_data_stage_context = s.ep0_data_stage_context) ∧
    (s.ep0_data_stage_buf_remaining ≠ 0 →
      (ep0_setup_break_pending s).ep0_data_stage_buf_remaining = 0 ∧
      (ep0_setup_break_pending s).ep0_data_stage_in_buffer = none ∧
      (ep0_setup_break_pending s).ep0_data_stage_out_buffer = none ∧
      (ep0_setup_break_pending s).ep0_data_stage_callback = s.ep0_data_stage_callback ∧
      (ep0_setup_break_pending s).ep0_data_stage_context = s.ep0_data_stage_context) := by
  obtain ⟨i1, i2⟩ := handle_ep0_in_callback cfg s
  obtain ⟨o1, o2⟩ := handle_ep0_out_callback cfg s
  refine ⟨?_, ?_, ?_, ?_⟩
  · intro hd hr hz
    obtain ⟨_, a2, a3, a4, _⟩ := handle_ep0_in_status cfg s hd hr hz
    exact ⟨a2, a3, a4, i1, i2⟩
  · intro hd
    obtain ⟨_, a2, a3, a4⟩ := handle_ep0_out_status cfg s hd
    exact ⟨a2, a3, a4, o1, o2⟩
  · intro d hd hb hover _
    obtain ⟨a1, a2, a3, _⟩ := handle_ep0_out_overflow_cursor cfg s d hd hb hover
    exact ⟨a1, a2, a3, o1, o2⟩
  · intro hr
    obtain ⟨_, c2, c3, c4⟩ := ep0_setup_break_pending_cursor s
    rw [if_pos hr] at c3 c4
    exact ⟨c2, c3, c4, by simp, by simp⟩

/-- The lemma `completion_clears_count_and_pointers` at a concrete input: on the device
with the hook, after the 10-byte OUT transfer of the vendor request 0x41 the IN
completion of the status stage leaves the remaining count 0, the buffer pointers
NULL and the callback pointer 1 in place. -/
theorem completion_clears_count_and_pointers_at_input :
    ((sie_complete_in (bus_run demo_hook_config power_on
        [.setup (vendor_request 0x41 0 10), .out [1, 2, 3, 4, 5, 6, 7, 8], .out [9, 10]])
        0).ep0_data_stage_direc = 0 ∧
      (sie_complete_in (bus_run demo_hook_config power_on
        [.setup (vendor_request 0x41 0 10), .out [1, 2, 3, 4, 5, 6, 7, 8], .out [9, 10]])
        0).ep0_data_stage_buf_remaining = 0 ∧
      (sie_complete_in (bus_run demo_hook_config power_on
        [.setup (vendor_request 0x41 0 10), .out [1, 2, 3, 4, 5, 6, 7, 8], .out [9, 10]])
        0).control_need_zlp = false) ∧
    (handle_ep0_in demo_hook_config (sie_complete_in (bus_run demo_hook_config power_on
      [.setup (vendor_request 0x41 0 10), .out [1, 2, 3, 4, 5, 6, 7, 8], .out [9, 10]])
      0)).ep0_data_stage_out_buffer = none ∧
    (handle_ep0_in demo_hook_config (sie_complete_in (bus_run demo_hook_config power_on
      [.setup (vendor_request 0x41 0 10), .out [1, 2, 3, 4, 5, 6, 7, 8], .out [9, 10]])
      0)).ep0_data_stage_callback = some 1 :=
  ⟨by decide,
    ((completion_clears_count_and_pointers demo_hook_config
      (sie_complete_in (bus_run demo_hook_config power_on
        [.setup (vendor_request 0x41 0 10), .out [1, 2, 3, 4, 5, 6, 7, 8], .out [9, 10]]) 0)).1
      (by decide) (by decide) (by decide)).2.2.1,
    ((completion_clears_count_and_pointers demo_hook_config
      (sie_complete_in (bus_run demo_hook_config power_on
        [.setup (vendor_request 0x41 0 10), .out [1, 2, 3, 4, 5, 6, 7, 8], .out [9, 10]]) 0)).1
      (by decide) (by decide) (by decide)).2.2.2.1.trans (by decide)⟩

/-- C23, the code on the device with the 16-byte string descriptor and 8-byte packets.
GET_DESCRIPTOR(string) with 255 bytes asked for: the first data packet is armed, and
at its IN completion the second, full, data packet is armed and the zero-length
packet is scheduled (`control_need_zlp`).  The host then abandons the transfer.
(1) A SETUP packet SET_ADDRESS(5): `control_need_zlp` is still set after
`handle_ep0_setup`, and the IN completion of the status stage of SET_ADDRESS hands
a zero-length packet to the hardware, whereas the same request after power-up hands
nothing.  (2) A bus reset: `control_need_zlp` is still set after `usb_init`, and
the first IN completion of the next transfer hands the left-over zero-length packet
to the hardware.  In general neither `handle_ep0_setup` nor `usb_init` changes
`control_need_zlp`. -/
theorem stale_zero_length_packet_survives_setup_and_reset :
    (∀ (cfg : Config) (s : State),
      (handle_ep0_setup cfg s).control_need_zlp = s.control_need_zlp ∧
      (usb_init cfg s).control_need_zlp = s.control_need_zlp) ∧
    (bus_run demo_string_config power_on
      [.setup (get_descriptor DESC_STRING 1 255), .in_done]).control_need_zlp = true ∧
    (handle_ep0_setup demo_string_config (sie_receive_ep0
      (bus_run demo_string_config power_on [.setup (get_descriptor DESC_STRING 1 255), .in_done])
      PID_SETUP (setup_bytes (set_address 5)))).control_need_zlp = true ∧
    in_packet (bus_run demo_string_config power_on
      [.setup (get_descriptor DESC_STRING 1 255), .in_done, .setup (set_address 5), .in_done]) 0 =
      some [] ∧
    in_packet (bus_run demo_string_config power_on [.setup (set_address 5), .in_done]) 0 = none ∧
    (usb_init demo_string_config (bus_run demo_string_config power_on
      [.setup (get_descriptor DESC_STRING 1 255), .in_done])).control_need_zlp = true ∧
    in_packet (bus_run demo_string_config power_on
      [.setup (get_descriptor DESC_STRING 1 255), .in_done, .reset, .setup (set_address 5),
        .in_done]) 0 = some [] := by
  refine ⟨fun cfg s => ⟨handle_ep0_setup_need_zlp cfg s, usb_init_need_zlp cfg s⟩, ?_⟩
  decide

/-! ## The flag `returning_short` -/

/-- C24, the code: `start_control_return(ptr, A, L)` records `returning_short` as true
exactly when `A ≠ L` (usb.c line 427), so also when more is available than was asked
for: with 24 bytes available and 16 asked for the flag is true although 24 is not
less than 16; with 8 available and 16 asked for it is true, with 16 and 16 false. -/
theorem returning_short_when_more_available :
    (∀ (cfg : Config) (s : State) (ptr : List Nat) (A L : Nat),
      ((start_control_return cfg s ptr A L).returning_short = true ↔ A ≠ L)) ∧
    ((start_control_return demo_config power_on (List.range 24) 24 16).returning_short = true ∧
      ¬ (24 < 16)) ∧
    (start_control_return demo_config power_on (List.range 8) 8 16).returning_short = true ∧
    (start_control_return demo_config power_on (List.range 16) 16 16).returning_short = false := by
  refine ⟨?_, by decide, by decide, by decide⟩
  intro cfg s ptr A L
  simp [start_control_return]

/-! ## A send that is suppressed -/

/-- C25: when endpoint `e` is IN-halted, or `e` is not 0 while the configuration value
is 0, `usb_send_in_buffer(e, len)` changes nothing: the state after the call is the
state before it, so the IN descriptor of `e` keeps its ownership, toggle and byte
count and no new packet is handed to the hardware. -/
theorem usb_send_in_buffer_suppressed (s : State) (e len : Nat)
    (h : usb_in_endpoint_halted s e = true ∨ (e ≠ 0 ∧ s.g_configuration = 0)) :
    usb_send_in_buffer s e len = s ∧
    ((usb_send_in_buffer s e len).bds e).ep_in = (s.bds e).ep_in ∧
    in_packet (usb_send_in_buffer s e len) e = in_packet s e := by
  have hs : usb_send_in_buffer s e len = s := by
    unfold usb_send_in_buffer
    rw [if_neg]
    rintro ⟨hc, hh⟩
    rcases h with h | ⟨h1, h2⟩
    · rw [hh] at h; exact absurd h (by decide)
    · rcases hc with hc | hc
      · omega
      · exact h1 hc
  rw [hs]
  exact ⟨rfl, rfl, rfl⟩

/-- Witness of C25: endpoint 1 of the demo device after power-up (configuration value
0), and endpoint 1 IN-halted in configuration 1. -/
theorem usb_send_in_buffer_suppressed_witness :
    ((1 : Nat) ≠ 0 ∧ power_on.g_configuration = 0) ∧
    usb_send_in_buffer power_on 1 4 = power_on ∧
    usb_in_endpoint_halted (bus_run demo_config power_on
      [.setup (set_configuration 1), .in_done, .setup (set_feature_halt 0x81), .in_done]) 1 = true ∧
    usb_send_in_buffer (bus_run demo_config power_on
      [.setup (set_configuration 1), .in_done, .setup (set_feature_halt 0x81), .in_done]) 1 4 =
      bus_run demo_config power_on
        [.setup (set_configuration 1), .in_done, .setup (set_feature_halt 0x81), .in_done] :=
  ⟨by decide, (usb_send_in_buffer_suppressed power_on 1 4 (Or.inr (by decide))).1, by decide,
    (usb_send_in_buffer_suppressed _ 1 4 (Or.inl (by decide))).1⟩

/-! ## A halted endpoint keeps its stall -/

/-- C26, the code on the demo device.  SET_FEATURE(ENDPOINT_HALT) for endpoint 1 OUT
(`wIndex` 1) sets the OUT halt flag and hands the OUT descriptor of endpoint 1 to
the hardware with the stall flag set.  `usb_arm_out_endpoint(1)`, which has no halt
check, then replaces the descriptor: the endpoint is still OUT-halted, and its OUT
descriptor is owned by the hardware with the stall flag clear, ready to accept a
packet.  The sibling `usb_send_in_buffer(1, 4)` on the IN-halted endpoint 1 leaves
the stalled IN descriptor as it is. -/
theorem arm_out_endpoint_removes_stall_of_halted_endpoint :
    (usb_out_endpoint_halted (bus_run demo_config power_on
        [.setup (set_configuration 1), .in_done, .setup (set_feature_halt 0x01), .in_done]) 1 = true ∧
      ((bus_run demo_config power_on
        [.setup (set_configuration 1), .in_done, .setup (set_feature_halt 0x01), .in_done]).bds 1).ep_out =
        ⟨BDNSTAT_UOWN ||| BDNSTAT_BSTALL, 64⟩) ∧
    (usb_out_endpoint_halted (bus_run demo_config power_on
        [.setup (set_configuration 1), .in_done, .setup (set_feature_halt 0x01), .in_done,
          .app (.arm_out_endpoint 1)]) 1 = true ∧
      ((bus_run demo_config power_on
        [.setup (set_configuration 1), .in_done, .setup (set_feature_halt 0x01), .in_done,
          .app (.arm_out_endpoint 1)]).bds 1).ep_out =
        ⟨BDNSTAT_UOWN ||| BDNSTAT_DTS ||| BDNSTAT_DTSEN, 64⟩ ∧
      ((bus_run demo_config power_on
        [.setup (set_configuration 1), .in_done, .setup (set_feature_halt 0x01), .in_done,
          .app (.arm_out_endpoint 1)]).bds 1).ep_out.UOWN = true ∧
      ((bus_run demo_config power_on
        [.setup (set_configuration 1), .in_done, .setup (set_feature_halt 0x01), .in_done,
          .app (.arm_out_endpoint 1)]).bds 1).ep_out.BSTALL = false) ∧
    (usb_in_endpoint_halted (bus_run demo_config power_on
        [.setup (set_configuration 1), .in_done, .setup (set_feature_halt 0x81), .in_done,
          .app (.send_in_buffer 1 4)]) 1 = true ∧
      ((bus_run demo_config power_on
        [.setup (set_configuration 1), .in_done, .setup (set_feature_halt 0x81), .in_done,
          .app (.send_in_buffer 1 4)]).bds 1).ep_in = ⟨BDNSTAT_UOWN ||| BDNSTAT_BSTALL, 64⟩) := by
  decide

/-! ## The callback of an OUT data stage that overflows -/

/-- C27, the code on the device whose hook answers the vendor request 0x41 by
`usb_start_receive_ep0_data_stage(buffer, 4, NULL, context)`: the host sends an
8-byte OUT packet, more than the 4 bytes of capacity; `handle_ep0_out` copies 4
bytes, stalls endpoint 0 and calls `ep0_data_stage_callback(0, context)` through the
NULL pointer (usb.c line 784, the one call site without a guard).  A packet that
fits makes no call, and neither does a SETUP packet that breaks the transfer off. -/
theorem overflow_calls_absent_callback :
    (bus_run demo_null_callback_config power_on
      [.setup (vendor_request 0x41 0 4)]).ep0_data_stage_callback = none ∧
    (bus_run demo_null_callback_config power_on
      [.setup (vendor_request 0x41 0 4), .out [1, 2, 3, 4, 5, 6, 7, 8]]).trace =
      [.memcpy_out 0x100 [1, 2, 3, 4], .callback none false 7] ∧
    callbacks (bus_run demo_null_callback_config power_on
      [.setup (vendor_request 0x41 0 4), .out [1, 2, 3, 4, 5, 6, 7, 8]]).trace =
      [(none, false, 7)] ∧
    callbacks (bus_run demo_null_callback_config power_on
      [.setup (vendor_request 0x41 0 4), .out [1, 2, 3, 4], .in_done]).trace = [] ∧
    callbacks (bus_run demo_null_callback_config power_on
      [.setup (vendor_request 0x41 0 4), .out [1, 2], .setup get_status_device]).trace = [] := by
  decide

/-! ## The region list of the Intel Hex reader -/

/-- C28, the code on a file with three 4-byte data records at the addresses 0, 8 and
4, in this order.  After the first two records the list holds the disjoint regions
`[0, 4)` and `[8, 12)`.  The third record lies exactly between them:
`create_update_region` extends the first region forward, goes on with the loop,
extends the second region backward as well and returns true.  The list then holds
`[0, 8)` and `[4, 12)`, which overlap in `[4, 8)`; the record `(4, 4)` is held by
both regions, and `find_region` returns the first. -/
theorem create_update_region_bridge_overlaps :
    load_regions [(0, 4), (8, 4)] ⟨[]⟩ = some ⟨[⟨0, 4⟩, ⟨8, 4⟩]⟩ ∧
    pairwise_disjoint ⟨[⟨0, 4⟩, ⟨8, 4⟩]⟩ ∧
    create_update_region ⟨[⟨0, 4⟩, ⟨8, 4⟩]⟩ 4 4 = (⟨[⟨0, 8⟩, ⟨4, 8⟩]⟩, true) ∧
    load_regions [(0, 4), (8, 4), (4, 4)] ⟨[]⟩ = some ⟨[⟨0, 8⟩, ⟨4, 8⟩]⟩ ∧
    ¬ pairwise_disjoint ⟨[⟨0, 8⟩, ⟨4, 8⟩]⟩ ∧
    regions_holding ⟨[⟨0, 8⟩, ⟨4, 8⟩]⟩ 4 4 = [⟨0, 8⟩, ⟨4, 8⟩] ∧
    find_region ⟨[⟨0, 8⟩, ⟨4, 8⟩]⟩ 4 4 = some ⟨0, 8⟩ := by
  decide

theorem create_update_region_loop_ok (address len : Nat) (hN : address + len < SIZE_T_RANGE) :
    ∀ (l : List hex_data_region) (done : Bool),
      (∀ r ∈ l, r.address + r.len + len < SIZE_T_RANGE) →
      (create_update_region_loop address len l done).2.2 = true →
      (create_update_region_loop address len l done).1 = l.map (extended address len) ∧
      ((create_update_region_loop address len l done).2.1 = false →
        done = false ∧ ∀ r ∈ l, ¬ adjoins address len r) ∧
      ∀ r ∈ l, ¬ adjoins address len r → regions_disjoint r ⟨address, len⟩ := by
  intro l
  induction l with
  | nil =>
    intro done _ _
    refine ⟨rfl, ?_, ?_⟩
    · intro h; exact ⟨h, fun r hr => absurd hr (List.not_mem_nil r)⟩
    · intro r hr; exact absurd hr (List.not_mem_nil r)
  | cons r rest ih =>
    intro done hfit hok
    have hr := hfit r (List.mem_cons_self _ _)
    have hrest : ∀ x ∈ rest, x.address + x.len + len < SIZE_T_RANGE :=
      fun x hx => hfit x (List.mem_cons_of_mem _ hx)
    have m1 : (r.address + r.len) % SIZE_T_RANGE = r.address + r.len :=
      Nat.mod_eq_of_lt (by omega)
    have m2 : (address + len) % SIZE_T_RANGE = address + len := Nat.mod_eq_of_lt hN
    have m3 : (r.len + len) % SIZE_T_RANGE = r.len + len := Nat.mod_eq_of_lt (by omega)
    unfold create_update_region_loop at hok ⊢
    rw [m1, m2, m3] at hok ⊢
    by_cases h1 : address = r.address + r.len
    · rw [if_pos h1] at hok ⊢
      obtain ⟨a1, a2, a3⟩ := ih true hrest hok
      refine ⟨?_, ?_, ?_⟩
      · simp only [List.map_cons, a1, extended, if_pos h1]
      · intro hd
        exact absurd (a2 hd).1 (by decide)
      · intro x hx hna
        rcases List.mem_cons.mp hx with hx | hx
        · subst hx; exact absurd (Or.inl h1) hna
        · exact a3 x hx hna
    · rw [if_neg h1] at hok ⊢
      by_cases h2 : address + len = r.address
      · rw [if_pos h2] at hok ⊢
        obtain ⟨a1, a2, a3⟩ := ih true hrest hok
        have m4 : (r.address + SIZE_T_RANGE - len) % SIZE_T_RANGE = r.address - len := by
          have : r.address + SIZE_T_RANGE - len = (r.address - len) + SIZE_T_RANGE := by omega
          rw [this, Nat.add_mod_right]
          exact Nat.mod_eq_of_lt (by omega)
        refine ⟨?_, ?_, ?_⟩
        · simp only [List.map_cons, a1, extended, if_neg h1, if_pos h2, m4]
        · intro hd
          exact absurd (a2 hd).1 (by decide)
        · intro x hx hna
          rcases List.mem_cons.mp hx with hx | hx
          · subst hx; exact absurd (Or.inr h2) hna
          · exact a3 x hx hna
      · rw [if_neg h2] at hok ⊢
        by_cases h3 : address ≤ r.address ∧ address + len > r.address
        · rw [if_pos h3] at hok
          exact absurd hok Bool.false_ne_true
        · rw [if_neg h3] at hok ⊢
          by_cases h4 : address ≥ r.address ∧ address < r.address + r.len
          · rw [if_pos h4] at hok
            exact absurd hok Bool.false_ne_true
          · rw [if_neg h4] at hok ⊢
            obtain ⟨a1, a2, a3⟩ := ih done hrest hok
            refine ⟨?_, ?_, ?_⟩
            · simp only [List.map_cons, a1, extended, if_neg h1, if_neg h2]
            · intro hd
              refine ⟨(a2 hd).1, ?_⟩
              intro x hx
              rcases List.mem_cons.mp hx with hx | hx
              · subst hx
                intro hadj
                rcases hadj with h | h
                · exact h1 h
                · exact h2 h
              · exact (a2 hd).2 x hx
            · intro x hx hna
              rcases List.mem_cons.mp hx with hx | hx
              · subst hx
                unfold regions_disjoint
                simp only []
                omega
              · exact a3 x hx hna

theorem extended_disjoint (address len : Nat) (a b : hex_data_region)
    (hab : regions_disjoint a b) (hone : ¬ (adjoins address len a ∧ adjoins address len b))
    (ha : ¬ adjoins address len a → regions_disjoint a ⟨address, len⟩)
    (hb : ¬ adjoins address len b → regions_disjoint b ⟨address, len⟩) :
    regions_disjoint (extended address len a) (extended address len b) := by
  unfold regions_disjoint adjoins at *
  unfold extended
  split_ifs <;> simp only [] at * <;> omega

/-- When no address computation wraps around and the range touches at most one region
of a pairwise disjoint list, a successful `create_update_region` leaves the list
pairwise disjoint: the overlap arises only when the range bridges two regions. -/
theorem create_update_region_disjoint (hd : hex_data) (address len : Nat) (hlen : len < 256)
    (hN : address + len < SIZE_T_RANGE)
    (hfit : ∀ r ∈ hd.regions, r.address + r.len + len < SIZE_T_RANGE)
    (hdis : pairwise_disjoint hd)
    (hone : hd.regions.Pairwise fun a b => ¬ (adjoins address len a ∧ adjoins address len b))
    (hok : (create_update_region hd address len).2 = true) :
    pairwise_disjoint (create_update_region hd address len).1 := by
  have hl : len % 256 = len := Nat.mod_eq_of_lt hlen
  unfold create_update_region at hok ⊢
  simp only [hl] at hok ⊢
  by_cases hk : (create_update_region_loop address len hd.regions false).2.2 = false
  · rw [if_pos hk] at hok
    exact absurd hok Bool.false_ne_true
  · rw [if_neg hk] at hok ⊢
    have hk2 : (create_update_region_loop address len hd.regions false).2.2 = true := by
      simpa using hk
    obtain ⟨a1, a2, a3⟩ := create_update_region_loop_ok address len hN hd.regions false hfit hk2
    have hmap : (hd.regions.map (extended address len)).Pairwise regions_disjoint := by
      rw [List.pairwise_map]
      refine List.Pairwise.imp_of_mem ?_ (hdis.and hone)
      intro a b ha hb hab
      exact extended_disjoint address len a b hab.1 hab.2 (a3 a ha) (a3 b hb)
    by_cases hdn : (create_update_region_loop address len hd.regions false).2.1 = false
    · rw [if_pos hdn]
      unfold pairwise_disjoint
      simp only [a1]
      have hnone := (a2 hdn).2
      have hid : hd.regions.map (extended address len) = hd.regions := by
        conv => rhs; rw [← List.map_id hd.regions]
        apply List.map_congr_left
        intro r hr
        have h := hnone r hr
        unfold adjoins at h
        unfold extended
        rw [if_neg (fun h1 => h (Or.inl h1)), if_neg (fun h2 => h (Or.inr h2))]
        rfl
      rw [hid, List.pairwise_append]
      refine ⟨hdis, List.pairwise_singleton _ _, ?_⟩
      intro a ha b hb
      rw [List.mem_singleton] at hb
      subst hb
      exact a3 a ha (hnone a ha)
    · rw [if_neg hdn]
      unfold pairwise_disjoint
      simp only [a1]
      exact hmap

/-- The lemma `create_update_region_disjoint` at a concrete input: the record `(12, 4)`
after the regions `[0, 4)` and `[8, 12)` extends the second region only. -/
theorem create_update_region_disjoint_at_input :
    create_update_region ⟨[⟨0, 4⟩, ⟨8, 4⟩]⟩ 12 4 = (⟨[⟨0, 4⟩, ⟨8, 8⟩]⟩, true) ∧
    pairwise_disjoint (create_update_region ⟨[⟨0, 4⟩, ⟨8, 4⟩]⟩ 12 4).1 :=
  ⟨by decide,
    create_update_region_disjoint ⟨[⟨0, 4⟩, ⟨8, 4⟩]⟩ 12 4 (by decide) (by decide) (by decide)
      (by decide) (by decide) (by decide)⟩

/-! ## The stall of a halted endpoint under the other operations -/

theorem halt_stalled_of_eq {s t : State} {e : Nat} (hb : t.bds e = s.bds e)
    (hf : (t.ep_buf e).flags = (s.ep_buf e).flags) (h : halt_stalled s e) : halt_stalled t e := by
  unfold halt_stalled usb_in_endpoint_halted usb_out_endpoint_halted at *
  rw [hb, hf]
  exact h

theorem start_control_return_bds (cfg : Config) (s : State) (ptr : List Nat) (len asked e : Nat)
    (he : e ≠ 0) : (start_control_return cfg s ptr len asked).bds e = s.bds e := by
  simp [start_control_return, State.set_ep_in, State.memcpy_to_in, he]

theorem send_zero_length_packet_ep0_bds (s : State) (e : Nat) (he : e ≠ 0) :
    (send_zero_length_packet_ep0 s).bds e = s.bds e := by
  simp [send_zero_length_packet_ep0, State.set_ep_in, he]

theorem reset_bd0_out_bds (cfg : Config) (s : State) (e : Nat) (he : e ≠ 0) :
    (reset_bd0_out cfg s).bds e = s.bds e := by
  simp [reset_bd0_out, State.set_ep_out, he]

theorem usb_send_in_buffer_halt_stalled (s : State) (ep len e : Nat) (h : halt_stalled s e) :
    halt_stalled (usb_send_in_buffer s ep len) e := by
  by_cases hg : (s.g_configuration > 0 ∨ ep = 0) ∧ usb_in_endpoint_halted s ep = false
  · by_cases hee : e = ep
    · subst hee
      unfold halt_stalled at *
      have hfl : ∀ i, usb_in_endpoint_halted (usb_send_in_buffer s e len) i =
            usb_in_endpoint_halted s i ∧
          usb_out_endpoint_halted (usb_send_in_buffer s e len) i = usb_out_endpoint_halted s i := by
        intro i; simp [usb_in_endpoint_halted, usb_out_endpoint_halted]
      rw [(hfl e).1, (hfl e).2]
      refine ⟨fun hh => ?_, fun hh => ?_⟩
      · rw [hg.2] at hh; exact absurd hh (by decide)
      · have hout : ((usb_send_in_buffer s e len).bds e).ep_out = (s.bds e).ep_out := by
          unfold usb_send_in_buffer
          rw [if_pos hg]
          simp only []
          split <;> simp
        rw [hout]
        exact h.2 hh
    · refine halt_stalled_of_eq ?_ (by simp) h
      unfold usb_send_in_buffer
      rw [if_pos hg]
      simp only []
      split <;> simp [State.set_ep_in, hee]
  · unfold usb_send_in_buffer
    rw [if_neg hg]
    exact h

theorem app_call_halt_stalled (cfg : Config) (s : State) (c : AppCall) (e : Nat) (he : e ≠ 0)
    (hc : ¬ c.arms_out) (h : halt_stalled s e) : halt_stalled (app_call cfg s c) e := by
  cases c with
  | send_data_stage b l cb ctx =>
    refine halt_stalled_of_eq ?_ ?_ h
    · simp [app_call, usb_send_data_stage, start_control_return_bds cfg s b l l e he]
    · have := (start_control_return_session cfg s b l l).2.2.2.2 e
      simpa [app_call, usb_send_data_stage] using this
  | start_receive_ep0_data_stage b l cb ctx =>
    exact halt_stalled_of_eq (by simp [app_call, usb_start_receive_ep0_data_stage, reset_ep0_data_stage])
      (by simp [app_call]) h
  | send_in_buffer ep l => exact usb_send_in_buffer_halt_stalled s ep l e h
  | arm_out_endpoint ep => exact absurd trivial hc

theorem app_calls_halt_stalled (cfg : Config) (e : Nat) (he : e ≠ 0) (cs : List AppCall) :
    ∀ s : State, (∀ c ∈ cs, ¬ c.arms_out) → halt_stalled s e →
      halt_stalled (cs.foldl (app_call cfg) s) e := by
  induction cs with
  | nil => intro s _ h; exact h
  | cons c t ih =>
    intro s hc h
    rw [List.foldl_cons]
    exact ih _ (fun x hx => hc x (List.mem_cons_of_mem _ hx))
      (app_call_halt_stalled cfg s c e he (hc c (List.mem_cons_self _ _)) h)

theorem stall_ep0_halt_stalled (cfg : Config) (s : State) (e : Nat) (he : e ≠ 0)
    (h : halt_stalled s e) : halt_stalled (stall_ep0 cfg s) e :=
  halt_stalled_of_eq ((stall_ep0_fields cfg s).2.2.2.2.1 e he) (by simp) h

theorem handle_unknown_halt_stalled (cfg : Config) (s : State) (e : Nat) (he : e ≠ 0)
    (hook : ∀ f, cfg.UNKNOWN_SETUP_REQUEST_CALLBACK = some f → ∀ p, ∀ c ∈ (f p).1, ¬ c.arms_out)
    (h : halt_stalled s e) : halt_stalled (handle_unknown cfg s) e := by
  unfold handle_unknown
  cases hf : cfg.UNKNOWN_SETUP_REQUEST_CALLBACK with
  | none => exact stall_ep0_halt_stalled cfg s e he h
  | some f =>
    simp only []
    have hcs := app_calls_halt_stalled cfg e he (f (get_setup (s.ep_buf 0).out)).1 s
      (hook f hf _) h
    split
    · exact stall_ep0_halt_stalled cfg _ e he hcs
    · exact hcs

theorem handle_get_descriptor_bds (cfg : Config) (s : State) (p : setup_packet) (e : Nat)
    (he : e ≠ 0) : (handle_get_descriptor cfg s p).bds e = s.bds e := by
  unfold handle_get_descriptor
  cases cfg.USB_STRING_DESCRIPTOR_FUNC <;> cases cfg.UNKNOWN_GET_DESCRIPTOR_CALLBACK <;>
    simp only [] <;> split_ifs <;>
    first
    | exact start_control_return_bds cfg s _ _ _ e he
    | exact (stall_ep0_fields cfg s).2.2.2.2.1 e he

theorem handle_get_status_bds (cfg : Config) (s : State) (p : setup_packet) (e : Nat)
    (he : e ≠ 0) : (handle_get_status cfg s p).bds e = s.bds e := by
  unfold handle_get_status
  cases cfg.GET_DEVICE_STATUS_CALLBACK <;> simp only [] <;> split_ifs <;>
    simp [State.set_ep_in, State.set_in_byte, stall_ep0, he]

theorem handle_ep0_out_bds (cfg : Config) (s : State) (e : Nat) (he : e ≠ 0) :
    (handle_ep0_out cfg s).bds e = s.bds e := by
  unfold handle_ep0_out
  simp only []
  split
  · simp [State.set_ep_out, he]
  · cases s.ep0_data_stage_out_buffer with
    | none => rfl
    | some d =>
      simp only []
      split_ifs <;> simp [State.set_ep_in, stall_ep0, send_zero_length_packet_ep0, he]

theorem usb_send_in_buffer_bds (s : State) (ep len e : Nat) (he : e ≠ ep) :
    (usb_send_in_buffer s ep len).bds e = s.bds e := by
  unfold usb_send_in_buffer
  split
  · simp only []
    split <;> simp [State.set_ep_in, he]
  · rfl

theorem handle_ep0_in_bds (cfg : Config) (s : State) (e : Nat) (he : e ≠ 0) :
    (handle_ep0_in cfg s).bds e = s.bds e := by
  unfold handle_ep0_in
  simp only []
  split_ifs <;> simp [usb_send_in_buffer_bds _ 0 _ e he]

theorem handle_feature_halt_stalled (cfg : Config) (s : State) (p : setup_packet) (e : Nat)
    (he : e ≠ 0) (h : halt_stalled s e) : halt_stalled (handle_feature cfg s p) e := by
  unfold handle_feature
  by_cases hacc : p.destination = 2 ∧ p.wValue = 0 ∧ (p.wIndex &&& 0x0f) ≤ cfg.NUM_ENDPOINT_NUMBERS
  · rw [if_pos hacc]
    simp only []
    obtain ⟨b1, b2, b3, b4, b5, b6, b7, b8⟩ := halt_bits (s.ep_buf e).flags
    unfold halt_stalled usb_in_endpoint_halted usb_out_endpoint_halted at *
    by_cases hee : e = p.wIndex &&& 0x0f
    · by_cases hset : p.bRequest = SET_FEATURE <;> by_cases hdir : p.wIndex &&& 0x80 ≠ 0 <;>
        simp only [hset, hdir, if_true, if_false, not_true_eq_false, not_false_eq_true] <;>
        simp [send_zero_length_packet_ep0, stall_ep_in, stall_ep_out, State.set_ep_in,
          State.set_ep_out, State.set_flags, he, ← hee, SET_BDN, b3, b4, b5, b6, b7, b8] <;>
        (try split_ifs) <;> simp_all
    · by_cases hset : p.bRequest = SET_FEATURE <;> by_cases hdir : p.wIndex &&& 0x80 ≠ 0 <;>
        simp only [hset, hdir, if_true, if_false, not_true_eq_false, not_false_eq_true] <;>
        simp [send_zero_length_packet_ep0, stall_ep_in, stall_ep_out, State.set_ep_in,
          State.set_ep_out, State.set_flags, he, hee] <;>
        (try split_ifs) <;> simp_all
  · rw [if_neg hacc]
    exact stall_ep0_halt_stalled cfg s e he h

theorem send_zero_length_packet_ep0_halt_stalled (s : State) (e : Nat) (he : e ≠ 0)
    (h : halt_stalled s e) : halt_stalled (send_zero_length_packet_ep0 s) e :=
  halt_stalled_of_eq (send_zero_length_packet_ep0_bds s e he) (by simp) h

theorem handle_standard_control_request_halt_stalled (cfg : Config) (s : State) (e : Nat)
    (he : e ≠ 0) (h : halt_stalled s e) :
    halt_stalled (handle_standard_control_request cfg s).1 e := by
  unfold handle_standard_control_request
  generalize get_setup (s.ep_buf 0).out = p
  simp only []
  split
  · exact halt_stalled_of_eq (handle_get_descriptor_bds cfg s p e he)
      ((handle_get_descriptor_session cfg s p).2.2.2.2 e) h
  split
  · exact halt_stalled_of_eq
      (by rw [send_zero_length_packet_ep0_bds _ e he]) (by simp) h
  split
  · refine halt_stalled_of_eq ?_ ?_ h
    · show (send_zero_length_packet_ep0 _).bds e = s.bds e
      rw [send_zero_length_packet_ep0_bds _ e he]
      split <;> rfl
    · show ((send_zero_length_packet_ep0 _).ep_buf e).flags = (s.ep_buf e).flags
      simp only [send_zero_length_packet_ep0_frame]
      split <;> rfl
  split
  · exact halt_stalled_of_eq (by simp [State.set_ep_in, State.set_in_byte, he]) (by simp) h
  split
  · exact halt_stalled_of_eq (handle_get_status_bds cfg s p e he)
      ((handle_get_status_session cfg s p).2.2.2.2 e) h
  split
  · cases cfg.SET_INTERFACE_CALLBACK with
    | none => exact send_zero_length_packet_ep0_halt_stalled s e he h
    | some f =>
      simp only []
      split
      · exact stall_ep0_halt_stalled cfg s e he h
      · exact send_zero_length_packet_ep0_halt_stalled s e he h
  split
  · cases cfg.GET_INTERFACE_CALLBACK with
    | none => exact halt_stalled_of_eq (by simp [State.set_ep_in, State.set_in_byte, he]) (by simp) h
    | some f =>
      simp only []
      split
      · exact stall_ep0_halt_stalled cfg s e he h
      · exact halt_stalled_of_eq (by simp [State.set_ep_in, State.set_in_byte, he]) (by simp) h
  split
  · exact handle_feature_halt_stalled cfg s p e he h
  · exact h

theorem ep0_setup_break_pending_halt_stalled (s : State) (e : Nat) (h : halt_stalled s e) :
    halt_stalled (ep0_setup_break_pending s) e :=
  halt_stalled_of_eq (by simp) (by simp) h

theorem handle_ep0_setup_halt_stalled (cfg : Config) (s : State) (e : Nat) (he : e ≠ 0)
    (hook : ∀ f, cfg.UNKNOWN_SETUP_REQUEST_CALLBACK = some f → ∀ p, ∀ c ∈ (f p).1, ¬ c.arms_out)
    (h : halt_stalled s e) : halt_stalled (handle_ep0_setup cfg s) e := by
  have h0 := ep0_setup_break_pending_halt_stalled s e h
  unfold handle_ep0_setup ep0_setup_dispatch
  simp only []
  split
  · have h1 := handle_standard_control_request_halt_stalled cfg _ e he h0
    split
    · exact handle_unknown_halt_stalled cfg _ e he hook h1
    · exact h1
  · exact handle_unknown_halt_stalled cfg _ e he hook h0

theorem stall_ep_halt_stalled (cfg : Config) (s : State) (ep e : Nat) (h : halt_stalled s e) :
    halt_stalled (stall_ep_in cfg s ep) e ∧ halt_stalled (stall_ep_out cfg s ep) e := by
  unfold halt_stalled usb_in_endpoint_halted usb_out_endpoint_halted at *
  constructor <;> by_cases hee : e = ep <;>
    simp [stall_ep_in, stall_ep_out, State.set_ep_in, State.set_ep_out, hee, SET_BDN] <;>
    simp_all

theorem usb_service_token_halt_stalled (cfg : Config) (f : usb_flags) (s : State) (e : Nat)
    (he : e ≠ 0)
    (hook : ∀ f, cfg.UNKNOWN_SETUP_REQUEST_CALLBACK = some f → ∀ p, ∀ c ∈ (f p).1, ¬ c.arms_out)
    (h : halt_stalled s e) : halt_stalled (usb_service_token cfg f s) e := by
  unfold usb_service_token
  split
  · simp only []
    refine halt_stalled_of_eq (reset_bd0_out_bds cfg _ e he) (by simp) ?_
    split
    · exact handle_ep0_setup_halt_stalled cfg s e he hook h
    split
    · exact h
    split
    · exact halt_stalled_of_eq (handle_ep0_out_bds cfg s e he)
        ((handle_ep0_out_session cfg s).2.2.2.2 e) h
    · exact stall_ep0_halt_stalled cfg s e he h
  split
  · exact halt_stalled_of_eq (handle_ep0_in_bds cfg s e he)
      ((handle_ep0_in_session cfg s).2.2.2.2 e) h
  split
  · split
    · split
      · exact (stall_ep_halt_stalled cfg s _ e h).1
      · exact h
    · split
      · exact (stall_ep_halt_stalled cfg s _ e h).2
      · exact h
  · exact h

theorem usb_service_halt_stalled (cfg : Config) (f : usb_flags) (s : State) (e : Nat)
    (he : e ≠ 0) (hN : e ≤ cfg.NUM_ENDPOINT_NUMBERS)
    (hook : ∀ f, cfg.UNKNOWN_SETUP_REQUEST_CALLBACK = some f → ∀ p, ∀ c ∈ (f p).1, ¬ c.arms_out)
    (h : f.SFR_USB_RESET_IF = false → halt_stalled s e) :
    halt_stalled (usb_service cfg f s) e := by
  have hinit : ∀ t : State, halt_stalled (usb_init cfg t) e := by
    intro t
    have hf := (usb_init_fields cfg t).1 e hN
    unfold halt_stalled usb_in_endpoint_halted usb_out_endpoint_halted
    rw [hf]
    constructor <;> intro hh <;> simp at hh
  have hsof : ∀ t : State, halt_stalled t e → halt_stalled
      (if f.SFR_USB_SOF_IF = true ∧ cfg.START_OF_FRAME_CALLBACK = true then
        t.emit .start_of_frame_callback else t) e := by
    intro t ht
    split
    · exact halt_stalled_of_eq (by simp) (by simp) ht
    · exact ht
  unfold usb_service
  simp only []
  split
  · exact hinit _
  · rename_i hr
    have h1 : halt_stalled s e := h (by simpa using hr)
    apply hsof
    split
    · exact usb_service_token_halt_stalled cfg f _ e he hook h1
    · exact h1

theorem sie_halt_stalled (s : State) (pid ep e : Nat) (data : List Nat) (h : halt_stalled s e) :
    (e ≠ 0 → halt_stalled (sie_receive_ep0 s pid data) e) ∧
    (e ≠ ep → halt_stalled (sie_complete_in s ep) e) ∧
    (e ≠ ep → halt_stalled (sie_receive_ep s ep data) e) := by
  refine ⟨fun he => ?_, fun he => ?_, fun he => ?_⟩
  · exact halt_stalled_of_eq (by simp [sie_receive_ep0, State.set_ep_out, State.set_out_bytes, he])
      (by simp [sie_receive_ep0]) h
  · exact halt_stalled_of_eq (by simp [sie_complete_in, State.set_ep_in, he]) (by simp) h
  · exact halt_stalled_of_eq (by simp [sie_receive_ep, State.set_ep_out, State.set_out_bytes, he])
      (by simp [sie_receive_ep]) h

theorem ep_done_halt_stalled (cfg : Config) (s : State) (e dir : Nat) (data : List Nat)
    (h1 : 1 ≤ e) (hN : e ≤ cfg.NUM_ENDPOINT_NUMBERS) (h : halt_stalled s e) :
    halt_stalled (bus_step cfg s (.ep_done e dir data)) e := by
  have he0 : ¬ (e = 0) := by omega
  have hin : 0 < e ∧ e ≤ cfg.NUM_ENDPOINT_NUMBERS := ⟨by omega, hN⟩
  unfold halt_stalled usb_in_endpoint_halted usb_out_endpoint_halted at *
  simp only [bus_step, usb_service, token_done, usb_service_token, Bool.false_eq_true, if_false,
    if_true, he0, false_and, hin, and_self, gt_iff_lt, false_and]
  by_cases hd : dir = 1
  · simp only [hd, if_true]
    by_cases hh : (s.ep_buf e).flags &&& EP_IN_HALT_FLAG ≠ 0
    · simp [sie_complete_in, hh, stall_ep_in, State.set_ep_in, SET_BDN]
      simpa using h.2
    · simp [sie_complete_in, hh, State.set_ep_in]
      simpa using h.2
  · simp only [hd, if_false]
    by_cases hh : (s.ep_buf e).flags &&& EP_OUT_HALT_FLAG ≠ 0
    · simp [sie_receive_ep, hh, stall_ep_out, State.set_ep_out, State.set_out_bytes, SET_BDN]
      simpa [hh] using h.1
    · simp [sie_receive_ep, hh, State.set_ep_out, State.set_out_bytes]
      simpa using h.1

/-- With the exception of `usb_arm_out_endpoint`, every event keeps the stall of a halted
endpoint: for an endpoint `e` in `1..NUM_ENDPOINT_NUMBERS`, on a device whose
unknown-setup-request hook does not call `usb_arm_out_endpoint`, every bus event
and every application call other than `usb_arm_out_endpoint` leads from a state in
which each halted direction of `e` is stalled to a state of the same kind. -/
theorem bus_step_halt_stalled (cfg : Config) (s : State) (ev : bus_event) (e : Nat)
    (h1 : 1 ≤ e) (hN : e ≤ cfg.NUM_ENDPOINT_NUMBERS)
    (hook : ∀ f, cfg.UNKNOWN_SETUP_REQUEST_CALLBACK = some f → ∀ p, ∀ c ∈ (f p).1, ¬ c.arms_out)
    (hev : ¬ ev.arms_out) (h : halt_stalled s e) : halt_stalled (bus_step cfg s ev) e := by
  have he : e ≠ 0 := by omega
  cases ev with
  | reset =>
    exact usb_service_halt_stalled cfg bus_reset s e he hN hook
      (fun hr => absurd hr (by simp [bus_reset]))
  | setup p =>
    exact usb_service_halt_stalled cfg (token_done 0 0) _ e he hN hook
      (fun _ => (sie_halt_stalled s PID_SETUP 0 e (setup_bytes p) h).1 he)
  | out data =>
    exact usb_service_halt_stalled cfg (token_done 0 0) _ e he hN hook
      (fun _ => (sie_halt_stalled s PID_OUT 0 e data h).1 he)
  | in_done =>
    exact usb_service_halt_stalled cfg (token_done 0 1) _ e he hN hook
      (fun _ => (sie_halt_stalled s 0 0 e [] h).2.1 he)
  | ep_done ep dir data =>
    by_cases hee : e = ep
    · subst hee
      exact ep_done_halt_stalled cfg s e dir data h1 hN h
    · refine usb_service_halt_stalled cfg (token_done ep dir) _ e he hN hook (fun _ => ?_)
      split
      · exact (sie_halt_stalled s 0 ep e data h).2.1 hee
      · exact (sie_halt_stalled s 0 ep e data h).2.2 hee
  | app c => exact app_call_halt_stalled cfg s c e he hev h

theorem bus_run_halt_stalled (cfg : Config) (e : Nat) (h1 : 1 ≤ e)
    (hN : e ≤ cfg.NUM_ENDPOINT_NUMBERS)
    (hook : ∀ f, cfg.UNKNOWN_SETUP_REQUEST_CALLBACK = some f → ∀ p, ∀ c ∈ (f p).1, ¬ c.arms_out)
    (evs : List bus_event) :
    ∀ s : State, (∀ ev ∈ evs, ¬ ev.arms_out) → halt_stalled s e →
      halt_stalled (bus_run cfg s evs) e := by
  induction evs with
  | nil => intro s _ h; exact h
  | cons ev evs ih =>
    intro s hev h
    simp only [bus_run, List.foldl_cons]
    exact ih _ (fun x hx => hev x (List.mem_cons_of_mem _ hx))
      (bus_step_halt_stalled cfg s ev e h1 hN hook (hev ev (List.mem_cons_self _ _)) h)

/-- The lemma `bus_run_halt_stalled` at a concrete run of the demo device: endpoint 1 is
halted in both directions, a packet is sent on its IN side and a transaction
completes on its OUT side. -/
theorem bus_run_halt_stalled_at_input :
    usb_in_endpoint_halted (bus_run demo_config power_on
      [.setup (set_configuration 1), .in_done, .setup (set_feature_halt 0x81), .in_done,
        .setup (set_feature_halt 0x01), .in_done, .app (.send_in_buffer 1 4),
        .ep_done 1 0 [1, 2]]) 1 = true ∧
    halt_stalled (bus_run demo_config power_on
      [.setup (set_configuration 1), .in_done, .setup (set_feature_halt 0x81), .in_done,
        .setup (set_feature_halt 0x01), .in_done, .app (.send_in_buffer 1 4),
        .ep_done 1 0 [1, 2]]) 1 :=
  ⟨by decide,
    bus_run_halt_stalled demo_config 1 (by decide) (by decide)
      (fun f hf => absurd hf (by simp [demo_config])) _ power_on (by decide)
      ⟨fun hh => absurd hh (by decide), fun hh => absurd hh (by decide)⟩⟩

/-! ## Endpoint 0 OUT after a token -/

theorem ep0_setup_break_pending_calls (s : State) :
    ∃ l, callbacks (ep0_setup_break_pending s).trace = callbacks s.trace ++ l ∧
      ∀ x ∈ l, x.1 ≠ none := by
  unfold ep0_setup_break_pending notify_callback
  by_cases hr : s.ep0_data_stage_buf_remaining = 0
  · exact ⟨[], by simp [hr], fun x hx => absurd hx (List.not_mem_nil x)⟩
  · cases hc : s.ep0_data_stage_callback with
    | none => exact ⟨[], by simp [hr, hc], fun x hx => absurd hx (List.not_mem_nil x)⟩
    | some fn =>
      refine ⟨[(some fn, false, s.ep0_data_stage_context)], ?_, ?_⟩
      · simp [hr, hc, callbacks_append, callbacks]
      · intro x hx
        rw [List.mem_singleton] at hx
        subst hx
        simp

theorem handle_ep0_out_fit_callbacks (cfg : Config) (s : State) (d : Nat)
    (hd : s.ep0_data_stage_direc ≠ 1) (hb : s.ep0_data_stage_out_buffer = some d)
    (hfit : ¬ s.ep0_data_stage_buf_remaining < BDN_LENGTH (s.bds 0).ep_out % 256) :
    callbacks (handle_ep0_out cfg s).trace = callbacks s.trace := by
  have hmin : min (BDN_LENGTH (s.bds 0).ep_out % 256) s.ep0_data_stage_buf_remaining =
      BDN_LENGTH (s.bds 0).ep_out % 256 := Nat.min_eq_left (by omega)
  have hlen : BDN_LENGTH (s.bds 0).ep_out % 256 % 256 = BDN_LENGTH (s.bds 0).ep_out % 256 :=
    Nat.mod_eq_of_lt (Nat.mod_lt _ (by decide))
  unfold handle_ep0_out
  simp only [hd, if_false, hb, MIN_eq_min, hmin, hlen, lt_irrefl]
  split <;> simp [State.emit, callbacks_append, callbacks]

theorem handle_ep0_out_calls (cfg : Config) (s : State) (hn : ¬ null_callback_call s) :
    ∃ l, callbacks (handle_ep0_out cfg s).trace = callbacks s.trace ++ l ∧
      ∀ x ∈ l, x.1 ≠ none := by
  by_cases hd : s.ep0_data_stage_direc = 1
  · refine ⟨_, (handle_ep0_out_status cfg s hd).1, ?_⟩
    intro x hx
    simp only [List.mem_map] at hx
    obtain ⟨fn, _, rfl⟩ := hx
    simp
  · cases hb : s.ep0_data_stage_out_buffer with
    | none =>
      refine ⟨[], ?_, fun x hx => absurd hx (List.not_mem_nil x)⟩
      simp [handle_ep0_out, hd, hb]
    | some d =>
      by_cases hover : s.ep0_data_stage_buf_remaining < BDN_LENGTH (s.bds 0).ep_out % 256
      · cases hc : s.ep0_data_stage_callback with
        | none => exact absurd ⟨hd, by simp [hb], hover, hc⟩ hn
        | some fn =>
          refine ⟨_, (handle_ep0_out_overflow_cursor cfg s d hd hb hover).2.2.2, ?_⟩
          intro x hx
          rw [List.mem_singleton] at hx
          subst hx
          simp [hc]
      · refine ⟨[], ?_, fun x hx => absurd hx (List.not_mem_nil x)⟩
        simp [handle_ep0_out_fit_callbacks cfg s d hd hb hover]

/-- When `usb_service` handles a completed token on endpoint 0 in the OUT direction (no
reset pending, token flag set, `SFR_USB_STATUS_EP` 0, `SFR_USB_STATUS_DIR` 0) and the
handling does not reach the call through a NULL callback, then, whatever the
packet-ID is and whatever the handler did, every callback invocation made is through
a set pointer, and the OUT descriptor of endpoint 0 is left owned by the hardware
with the byte count `ep_buf[0].out_len` (that is `EP_0_LEN`, a `uint8_t`), the stall
flag clear and the DATA0 toggle without toggle checking. -/
theorem usb_service_rearms_ep0_out (cfg : Config) (f : usb_flags) (s : State)
    (hr : f.SFR_USB_RESET_IF = false) (ht : f.SFR_USB_TOKEN_IF = true)
    (he : f.SFR_USB_STATUS_EP = 0) (hd : f.SFR_USB_STATUS_DIR = 0)
    (hn : (s.bds 0).ep_out.PID = PID_OUT → ¬ null_callback_call s) :
    (∀ x ∈ callbacks_since s (usb_service cfg f s), x.1 ≠ none) ∧
    ((usb_service cfg f s).bds 0).ep_out = ⟨BDNSTAT_UOWN, cfg.out_len 0⟩ ∧
    ((usb_service cfg f s).bds 0).ep_out.UOWN = true ∧
    ((usb_service cfg f s).bds 0).ep_out.BSTALL = false ∧
    ((usb_service cfg f s).bds 0).ep_out.BDnCNT = cfg.EP_0_LEN % 256 ∧
    (cfg.EP_0_LEN < 256 → ((usb_service cfg f s).bds 0).ep_out.BDnCNT = cfg.EP_0_LEN) := by
  have hsof : ∀ t : State,
      callbacks (if f.SFR_USB_SOF_IF = true ∧ cfg.START_OF_FRAME_CALLBACK = true then
        t.emit .start_of_frame_callback else t).trace = callbacks t.trace ∧
      (if f.SFR_USB_SOF_IF = true ∧ cfg.START_OF_FRAME_CALLBACK = true then
        t.emit .start_of_frame_callback else t).bds = t.bds := by
    intro t
    split
    · simp [State.emit, callbacks_append, callbacks]
    · exact ⟨rfl, rfl⟩
  have hcalls : ∃ l, callbacks (usb_service_token cfg f s).trace = callbacks s.trace ++ l ∧
      ∀ x ∈ l, x.1 ≠ none := by
    unfold usb_service_token
    rw [if_pos ⟨he, hd⟩]
    simp only [reset_bd0_out_frame]
    split
    · obtain ⟨l, h1, h2⟩ := ep0_setup_break_pending_calls s
      refine ⟨l, ?_, h2⟩
      unfold handle_ep0_setup
      rw [ep0_setup_dispatch_callbacks, h1]
    split
    · exact ⟨[], by simp, fun x hx => absurd hx (List.not_mem_nil x)⟩
    split
    · rename_i hp
      exact handle_ep0_out_calls cfg s (hn hp)
    · exact ⟨[], by simp, fun x hx => absurd hx (List.not_mem_nil x)⟩
  have hs : usb_service cfg f s =
      (if f.SFR_USB_SOF_IF = true ∧ cfg.START_OF_FRAME_CALLBACK = true then
        (usb_service_token cfg f s).emit .start_of_frame_callback
       else usb_service_token cfg f s) := by
    unfold usb_service
    simp [hr, ht]
  have h : ((usb_service cfg f s).bds 0).ep_out = ⟨BDNSTAT_UOWN, cfg.out_len 0⟩ := by
    rw [hs, (hsof _).2]
    exact usb_service_token_ep0_out cfg f s he hd
  refine ⟨?_, h, ?_, ?_, ?_, ?_⟩
  · obtain ⟨l, h1, h2⟩ := hcalls
    unfold callbacks_since
    rw [hs, (hsof _).1, h1]
    simpa using h2
  · rw [h]; simp
  · rw [h]; simp
  · rw [h]; simp [Config.out_len]
  · intro hl
    rw [h]
    simp [Config.out_len, Nat.mod_eq_of_lt hl]

/-- The lemma `usb_service_rearms_ep0_out` at concrete inputs of the demo device: the
SETUP packet SET_FEATURE(ENDPOINT_HALT) for endpoint 0 OUT, whose handling stalls
the OUT descriptor of endpoint 0, and an OUT packet outside a data stage. -/
theorem usb_service_rearms_ep0_out_at_input :
    ((bus_step demo_config power_on (.setup (set_feature_halt 0))).bds 0).ep_out =
      ⟨BDNSTAT_UOWN, 8⟩ ∧
    ((bus_step demo_config power_on (.out [1, 2, 3])).bds 0).ep_out.BSTALL = false :=
  ⟨(usb_service_rearms_ep0_out demo_config (token_done 0 0)
      (sie_receive_ep0 power_on PID_SETUP (setup_bytes (set_feature_halt 0))) rfl rfl rfl rfl
      (fun hp => absurd hp (by decide))).2.1,
    (usb_service_rearms_ep0_out demo_config (token_done 0 0)
      (sie_receive_ep0 power_on PID_OUT [1, 2, 3]) rfl rfl rfl rfl
      (fun _ => by decide)).2.2.2.1⟩

/-- C18, the code on the device whose hook answers the vendor request 0x41 by
`usb_start_receive_ep0_data_stage(buffer, 4, NULL, context)`, when the 8-byte OUT
packet `[1 .. 8]` has completed on endpoint 0: the OUT descriptor is as the SIE wrote
it (firmware-owned, packet-ID OUT, count 8), `usb_service` dispatches to
`handle_ep0_out`, and this reaches the call of usb.c line 784 with the NULL
callback: 4 bytes are copied, endpoint 0 IN is stalled and the call through the
NULL pointer is made, with the OUT descriptor still firmware-owned.  The call does
not return, so `reset_bd0_out` (line 882) is not reached and endpoint 0 is not
re-armed.  The same packet with callback 1 set (the device `demo_hook_config`,
capacity 10, after a first 8-byte packet) is handled to the end and the descriptor
is re-armed. -/
theorem ep0_out_token_reaches_null_callback :
    ((sie_receive_ep0 (bus_run demo_null_callback_config power_on
        [.setup (vendor_request 0x41 0 4)]) PID_OUT [1, 2, 3, 4, 5, 6, 7, 8]).bds 0).ep_out =
      ⟨PID_OUT <<< 2, 8⟩ ∧
    ((sie_receive_ep0 (bus_run demo_null_callback_config power_on
        [.setup (vendor_request 0x41 0 4)]) PID_OUT [1, 2, 3, 4, 5, 6, 7, 8]).bds 0).ep_out.PID =
      PID_OUT ∧
    null_callback_call (sie_receive_ep0 (bus_run demo_null_callback_config power_on
      [.setup (vendor_request 0x41 0 4)]) PID_OUT [1, 2, 3, 4, 5, 6, 7, 8]) ∧
    (handle_ep0_out demo_null_callback_config
      (sie_receive_ep0 (bus_run demo_null_callback_config power_on
        [.setup (vendor_request 0x41 0 4)]) PID_OUT [1, 2, 3, 4, 5, 6, 7, 8])).trace =
      [.memcpy_out 0x100 [1, 2, 3, 4], .callback none false 7] ∧
    ((handle_ep0_out demo_null_callback_config
      (sie_receive_ep0 (bus_run demo_null_callback_config power_on
        [.setup (vendor_request 0x41 0 4)]) PID_OUT [1, 2, 3, 4, 5, 6, 7, 8])).bds 0).ep_out.UOWN =
      false ∧
    ((handle_ep0_out demo_null_callback_config
      (sie_receive_ep0 (bus_run demo_null_callback_config power_on
        [.setup (vendor_request 0x41 0 4)]) PID_OUT [1, 2, 3, 4, 5, 6, 7, 8])).bds 0).ep_in =
      ⟨BDNSTAT_UOWN ||| BDNSTAT_BSTALL, 8⟩ ∧
    (callbacks (bus_run demo_hook_config power_on
        [.setup (vendor_request 0x41 0 10), .out [1, 2, 3, 4, 5, 6, 7, 8],
          .out [1, 2, 3, 4, 5, 6, 7, 8]]).trace = [(some 1, false, 7)] ∧
      ((bus_run demo_hook_config power_on
        [.setup (vendor_request 0x41 0 10), .out [1, 2, 3, 4, 5, 6, 7, 8],
          .out [1, 2, 3, 4, 5, 6, 7, 8]]).bds 0).ep_out = ⟨BDNSTAT_UOWN, 8⟩) := by
  decide

end MStack
